import Mathlib

/-!
# ViroCore: body-animation playback and input-controller event routing

A shallow embedding of `VROBodyAnimData.h`, `VROBodyPlayeriOS.h` and
`VROInputControllerBase.cpp`.

Conventions of the embedding:

* `float` / `double` values are exact rationals (`ℚ`).
* `VROTimeCurrentMillis()` is an explicit argument of every operation that reads the clock.
* Reading a `std::vector` outside its bounds is a failure (`none`).
* A `std::shared_ptr<VRONode>` is `Option NodeId` (`none` is `nullptr`); pointer comparison is
  comparison of identifiers.
-/

namespace ViroCore

/-! ## Vectors -/

/-- Modelled from the spec: `VROVector3f`, of the vector library, which is not among the files
embedded here (3: a 3-vector); its components are exact. -/
structure VROVector3f where
  x : ℚ
  y : ℚ
  z : ℚ
deriving DecidableEq, Repr

namespace VROVector3f

/-- Componentwise sum (`operator+`). -/
def add (a b : VROVector3f) : VROVector3f := ⟨a.x + b.x, a.y + b.y, a.z + b.z⟩

/-- Componentwise difference (`operator-`). -/
def sub (a b : VROVector3f) : VROVector3f := ⟨a.x - b.x, a.y - b.y, a.z - b.z⟩

/-- Multiplication by a scalar (`operator*`). -/
def scale (a : VROVector3f) (k : ℚ) : VROVector3f := ⟨a.x * k, a.y * k, a.z * k⟩

instance : Add VROVector3f := ⟨add⟩
instance : Sub VROVector3f := ⟨sub⟩
instance : HMul VROVector3f ℚ VROVector3f := ⟨scale⟩

/-- The vector `(0, 0, 0)`. -/
def zero : VROVector3f := ⟨0, 0, 0⟩

end VROVector3f

/-! ## VROBodyAnimData -/

/-- Modelled from the spec: `VROBodyJointType`, declared in `VROBodyTracker.h` (6: a fixed
enumerated joint-identifier set); a joint is its number. -/
abbrev VROBodyJointType := Nat

/-- One row of joint positions (`std::map<VROBodyJointType, VROVector3f>`). -/
abbrev JointMap := List (VROBodyJointType × VROVector3f)

/-- Recorded animation: the two parallel vectors of `VROBodyAnimData`. -/
structure VROBodyAnimData where
  totalTime : ℚ
  animationRowTimestamps : List ℚ
  animationRows : List JointMap

namespace VROBodyAnimData

/-- `getTotalRows`: the size of `_animationRows`. -/
def getTotalRows (d : VROBodyAnimData) : Nat := d.animationRows.length

/-- `getAnimRowTimestamp`: `_animationRowTimestamps[index]`; `none` outside the vector. -/
def getAnimRowTimestamp (d : VROBodyAnimData) (index : Nat) : Option ℚ :=
  d.animationRowTimestamps[index]?

/-- `getAnimRowJoints`: `_animationRows[index]`; `none` outside the vector. -/
def getAnimRowJoints (d : VROBodyAnimData) (index : Nat) : Option JointMap :=
  d.animationRows[index]?

/-- `addAnimRow`: pushes the timestamp and the joint map onto their vectors. -/
def addAnimRow (d : VROBodyAnimData) (timestamp : ℚ) (jointMap : JointMap) : VROBodyAnimData :=
  { d with
    animationRowTimestamps := d.animationRowTimestamps ++ [timestamp]
    animationRows := d.animationRows ++ [jointMap] }

/-- The two vectors have the same size, as `addAnimRow` (their only writer) keeps them. -/
def Aligned (d : VROBodyAnimData) : Prop :=
  d.animationRowTimestamps.length = d.animationRows.length

end VROBodyAnimData

/-! ## BodyPlaybackInfo -/

/-- Modelled from the spec: `VROBodyPlayerStatus`, declared in `VROBodyPlayer.h` (3: status ∈
{Initialized, Start, Playing, Paused, Finished}). -/
inductive VROBodyPlayerStatus where
  | Initialized
  | Start
  | Playing
  | Paused
  | Finished
deriving DecidableEq, Repr

/-- The fields of `BodyPlaybackInfo`.  The constructor of the source leaves
`_startPlaybackTime`, `_processTimeWhenPaused` and `_totalPlaybackTime` unset, and no member
function writes `_totalPlaybackTime`: they are arbitrary in a state. -/
structure BodyPlaybackInfo where
  currentPlaybackRow : Nat
  playStatus : VROBodyPlayerStatus
  bodyAnimData : VROBodyAnimData
  startPlaybackTime : ℚ
  processTimeWhenPaused : ℚ
  totalPlaybackTime : ℚ

namespace BodyPlaybackInfo

/-- `returnRowClosestToTime(time, lowerBoundIndex, upperBoundIndex)`.  The recursion of the
source is followed on `lowerBoundIndex ≤ upperBoundIndex`, where the interval shrinks at every
call; with the bounds the other way round the source recursion need not return, and the result
is `none`, as it is when a timestamp is read outside the vector. -/
def returnRowClosestToTime (d : VROBodyAnimData) (time : ℚ)
    (lowerBoundIndex upperBoundIndex : Nat) : Option Nat :=
  if lowerBoundIndex = upperBoundIndex then
    some lowerBoundIndex
  else if _h : lowerBoundIndex < upperBoundIndex then
    let midRow := lowerBoundIndex + (upperBoundIndex - lowerBoundIndex) / 2
    match d.getAnimRowTimestamp midRow with
    | none => none
    | some timestamp =>
      if time > timestamp then
        returnRowClosestToTime d time (midRow + 1) upperBoundIndex
      else
        returnRowClosestToTime d time lowerBoundIndex midRow
  else
    none
termination_by upperBoundIndex - lowerBoundIndex
decreasing_by
  all_goals simp_wf
  all_goals omega

/-- `getCurrentRowTimestamp`. -/
def getCurrentRowTimestamp (s : BodyPlaybackInfo) : Option ℚ :=
  s.bodyAnimData.getAnimRowTimestamp s.currentPlaybackRow

/-- `setTime(time)`, executed when the clock reads `now`. -/
def setTime (s : BodyPlaybackInfo) (time now : ℚ) : Option BodyPlaybackInfo :=
  let totalRows := s.bodyAnimData.getTotalRows
  if totalRows = 0 then
    some s
  else
    let s1 : BodyPlaybackInfo :=
      if time > s.totalPlaybackTime then { s with currentPlaybackRow := totalRows - 1 } else s
    match returnRowClosestToTime s.bodyAnimData time 0 totalRows with
    | none => none
    | some currentRow =>
      if currentRow ≤ totalRows - 1 then
        let s2 : BodyPlaybackInfo := { s1 with currentPlaybackRow := currentRow }
        match s2.getCurrentRowTimestamp with
        | none => none
        | some timestamp => some { s2 with startPlaybackTime := now - timestamp }
      else
        some s1

/-- The constructor: row 0 and status `Initialized`; the three times it leaves unset are
arguments. -/
def construct (data : VROBodyAnimData) (startPlaybackTime processTimeWhenPaused
    totalPlaybackTime : ℚ) : BodyPlaybackInfo :=
  { currentPlaybackRow := 0
    playStatus := VROBodyPlayerStatus.Initialized
    bodyAnimData := data
    startPlaybackTime := startPlaybackTime
    processTimeWhenPaused := processTimeWhenPaused
    totalPlaybackTime := totalPlaybackTime }

/-- `getCurrentRowJointsAsMap`. -/
def getCurrentRowJointsAsMap (s : BodyPlaybackInfo) : Option JointMap :=
  s.bodyAnimData.getAnimRowJoints s.currentPlaybackRow

/-- `start()`, executed when the clock reads `now`. -/
def start (s : BodyPlaybackInfo) (now : ℚ) : BodyPlaybackInfo :=
  if s.playStatus = VROBodyPlayerStatus.Initialized ∨
      s.playStatus = VROBodyPlayerStatus.Finished then
    { s with
      currentPlaybackRow := 0
      startPlaybackTime := now
      playStatus := VROBodyPlayerStatus.Start }
  else if s.playStatus = VROBodyPlayerStatus.Paused then
    let currentTime := now
    { s with
      startPlaybackTime := currentTime - s.processTimeWhenPaused
      playStatus := VROBodyPlayerStatus.Playing }
  else s

/-- `pause()`, executed when the clock reads `now`. -/
def pause (s : BodyPlaybackInfo) (now : ℚ) : BodyPlaybackInfo :=
  let currentTime := now
  { s with
    processTimeWhenPaused := currentTime - s.startPlaybackTime
    playStatus := VROBodyPlayerStatus.Paused }

/-- `incrementAnimRow()`. -/
def incrementAnimRow (s : BodyPlaybackInfo) : BodyPlaybackInfo :=
  let s1 : BodyPlaybackInfo := { s with currentPlaybackRow := s.currentPlaybackRow + 1 }
  let length := s1.bodyAnimData.getTotalRows
  if s1.currentPlaybackRow > 0 ∧ s1.currentPlaybackRow < length ∧
      s1.playStatus = VROBodyPlayerStatus.Start then
    { s1 with playStatus := VROBodyPlayerStatus.Playing }
  else if s1.currentPlaybackRow ≥ length then
    if s1.playStatus = VROBodyPlayerStatus.Playing then
      { s1 with playStatus := VROBodyPlayerStatus.Finished }
    else s1
  else s1

/-- `isFinished()`. -/
def isFinished (s : BodyPlaybackInfo) : Bool :=
  let length := s.bodyAnimData.getTotalRows
  if s.currentPlaybackRow ≥ length then true else false

end BodyPlaybackInfo

/-! ### Specification predicates for the row selected by a seek -/

/-- Row `i` carries the greatest timestamp that is `≤ t`; when every timestamp is above `t`
the row is row 0. -/
def IsRowAtOrBefore (ts : List ℚ) (t : ℚ) (i : Nat) : Prop :=
  (∃ v, ts[i]? = some v ∧ v ≤ t ∧ ∀ (j : Nat) (w : ℚ), ts[j]? = some w → w ≤ t → w ≤ v) ∨
  (i = 0 ∧ ∀ w ∈ ts, t < w)

/-- Row `i` is the first row whose timestamp is `≥ t`. -/
def IsFirstRowAtOrAfter (ts : List ℚ) (t : ℚ) (i : Nat) : Prop :=
  (∃ v, ts[i]? = some v ∧ t ≤ v) ∧ ∀ (j : Nat) (w : ℚ), j < i → ts[j]? = some w → w < t

/-- The linear scan of the timestamps, in row order, for the first row whose timestamp is not
below `t`: the index of that row, or the number of rows when every timestamp is below `t`. -/
def linearScanFirstNotBelow : List ℚ → ℚ → Nat
  | [], _ => 0
  | w :: ws, t => if t ≤ w then 0 else linearScanFirstNotBelow ws t + 1

/-- The rows whose timestamp `returnRowClosestToTime(time, lowerBoundIndex, upperBoundIndex)`
asks `getAnimRowTimestamp` for, in the order of the calls: the same recursion as
`BodyPlaybackInfo.returnRowClosestToTime`, with `midRow` recorded at every read. -/
def BodyPlaybackInfo.returnRowClosestToTimeReads (d : VROBodyAnimData) (time : ℚ)
    (lowerBoundIndex upperBoundIndex : Nat) : List Nat :=
  if lowerBoundIndex = upperBoundIndex then
    []
  else if _h : lowerBoundIndex < upperBoundIndex then
    let midRow := lowerBoundIndex + (upperBoundIndex - lowerBoundIndex) / 2
    match d.getAnimRowTimestamp midRow with
    | none => [midRow]
    | some timestamp =>
      if time > timestamp then
        midRow :: BodyPlaybackInfo.returnRowClosestToTimeReads d time (midRow + 1) upperBoundIndex
      else
        midRow :: BodyPlaybackInfo.returnRowClosestToTimeReads d time lowerBoundIndex midRow
  else
    []
termination_by upperBoundIndex - lowerBoundIndex
decreasing_by
  all_goals simp_wf
  all_goals omega

/-- The rows whose timestamp `setTime(time)` reads: those of the search, and then the row it
has made current, for `getCurrentRowTimestamp()`. -/
def BodyPlaybackInfo.setTimeReads (s : BodyPlaybackInfo) (time : ℚ) : List Nat :=
  let totalRows := s.bodyAnimData.getTotalRows
  if totalRows = 0 then
    []
  else
    BodyPlaybackInfo.returnRowClosestToTimeReads s.bodyAnimData time 0 totalRows ++
      match BodyPlaybackInfo.returnRowClosestToTime s.bodyAnimData time 0 totalRows with
      | none => []
      | some currentRow => if currentRow ≤ totalRows - 1 then [currentRow] else []

/-- The three-row dataset of the end-to-end scenario: timestamps 0, 100, 250 and one joint. -/
def scenarioData : VROBodyAnimData :=
  { totalTime := 250
    animationRowTimestamps := [0, 100, 250]
    animationRows := [[(0, ⟨0, 0, 0⟩)], [(0, ⟨0, 1, 0⟩)], [(0, ⟨0, 2, 0⟩)]] }

/-- A playback state over `scenarioData`, as the constructor leaves it, with the total playback
time equal to the recorded total time. -/
def scenarioInfo : BodyPlaybackInfo :=
  { currentPlaybackRow := 0
    playStatus := VROBodyPlayerStatus.Initialized
    bodyAnimData := scenarioData
    startPlaybackTime := 0
    processTimeWhenPaused := 0
    totalPlaybackTime := 250 }

/-- The state `scenarioInfo` with a total playback time of 50, below the timestamps of the
second and third row. -/
def scenarioShortTotal : BodyPlaybackInfo := { scenarioInfo with totalPlaybackTime := 50 }

/-- The state `scenarioInfo` with a total playback time of 300, above every timestamp. -/
def scenarioLongTotal : BodyPlaybackInfo := { scenarioInfo with totalPlaybackTime := 300 }

/-- The state `scenarioInfo` at its last row (row index 2) while `Playing`. -/
def scenarioLastRow : BodyPlaybackInfo :=
  { scenarioInfo with currentPlaybackRow := 2, playStatus := VROBodyPlayerStatus.Playing }

/-- The state `scenarioInfo` past its last row, with status `Finished`. -/
def scenarioFinished : BodyPlaybackInfo :=
  { scenarioInfo with currentPlaybackRow := 3, playStatus := VROBodyPlayerStatus.Finished }

/-- A dataset without rows. -/
def emptyData : VROBodyAnimData :=
  { totalTime := 0, animationRowTimestamps := [], animationRows := [] }

/-- The playback state the constructor leaves over `emptyData`. -/
def emptyInfo : BodyPlaybackInfo := BodyPlaybackInfo.construct emptyData 0 0 0

/-! ## Scene nodes and event delegates -/

/-- Modelled from the spec: the identity of a scene node, that is a non-null
`std::shared_ptr<VRONode>` (9: nodes with integer handles). -/
abbrev NodeId := Nat

/-- Modelled from the spec: the identity of a listener registered with the controller (an
element of `_delegates`). -/
abbrev DelegateId := Nat

/-- Modelled from the spec: the identity of a camera (`VROCamera`); the controller only passes
it on. -/
abbrev VROCamera := Nat

/-- Modelled from the spec: a rotation (`VROQuaternion`, of the math library, which is
not among the files embedded here); the controller only stores it and converts it for listeners. -/
structure VROQuaternion where
  qx : ℚ
  qy : ℚ
  qz : ℚ
  qw : ℚ
deriving DecidableEq, Repr

/-- Modelled from the spec: the event categories `VROEventDelegate::EventAction` used by the
controller (6: the callbacks of the listener interface). -/
inductive EventAction where
  | OnHover
  | OnClick
  | OnTouch
  | OnMove
  | OnControllerStatus
  | OnSwipe
  | OnScroll
  | OnDrag
  | OnFuse
  | OnPinch
  | OnRotate
deriving DecidableEq, Repr

/-- Modelled from the spec: `VROEventDelegate::ClickState` (4.3: click-down, click-up and the
synthetic clicked). -/
inductive ClickState where
  | ClickDown
  | ClickUp
  | Clicked
deriving DecidableEq, Repr

/-- Modelled from the spec: `VROEventDelegate::TouchState`, declared in `VROEventDelegate.h`. -/
inductive TouchState where
  | TouchDown
  | TouchDownMove
  | TouchUp
deriving DecidableEq, Repr

/-- Modelled from the spec: `VROEventDelegate::PinchState` (4.4: Start, Move, End). -/
inductive PinchState where
  | PinchStart
  | PinchMove
  | PinchEnd
deriving DecidableEq, Repr

/-- Modelled from the spec: `VROEventDelegate::RotateState` (4.4: Start, Move, End). -/
inductive RotateState where
  | RotateStart
  | RotateMove
  | RotateEnd
deriving DecidableEq, Repr

/-- Modelled from the spec: `VROEventDelegate::SwipeState`, declared in `VROEventDelegate.h`. -/
inductive SwipeState where
  | SwipeUp
  | SwipeDown
  | SwipeLeft
  | SwipeRight
deriving DecidableEq, Repr

/-- Modelled from the spec: `VROEventDelegate::ControllerStatus` (3: at least Unknown,
Connecting, Connected, Disconnected). -/
inductive ControllerStatus where
  | Unknown
  | Connecting
  | Connected
  | Disconnected
  | Error
deriving DecidableEq, Repr

/-- Modelled from the spec: what the controller reads of an event delegate bound to a node
(6: a per-category "is this event enabled for me" predicate and a configurable fuse duration),
that is `isEventEnabled` and `getTimeToFuse`. -/
structure VROEventDelegate where
  isEventEnabled : EventAction → Bool
  getTimeToFuse : ℚ

/-- Modelled from the spec: what the controller reads of a node without writing it (3: parent
reference, optional event-handler binding, "ignore event handling" flag), that is
`getParentNode`, `getEventDelegate` and `getIgnoreEventHandling`. -/
structure VRONode where
  parentNode : Option NodeId
  eventDelegate : Option VROEventDelegate
  ignoreEventHandling : Bool

/-- Modelled from the spec: the nodes of the live scene graph.  Parent links form a forest
(4.2: the walk ends at the root's parent): every node has a depth and a parent is strictly
less deep than its child, so every parent chain is finite. -/
structure SceneGraph where
  node : NodeId → VRONode
  depth : NodeId → Nat
  parent_depth : ∀ n p, (node n).parentNode = some p → depth p < depth n

/-- Modelled from the spec: a hit (`VROHitTestResult`, 3: node, world position, distance,
background flag), with the camera that the constructor call in `hitTest` passes.  A hit is on
a node: the query yields the nodes hit and the background hit is on the scene root. -/
structure VROHitTestResult where
  node : NodeId
  location : VROVector3f
  distance : ℚ
  background : Bool
  camera : VROCamera
deriving DecidableEq, Repr

/-- Modelled from the spec: what the controller uses of `VROScene` (6: the spatial query
contract), that is the root portal and the query
`getRootNode()->hitTest(camera, origin, ray, boundsOnly)`. -/
structure VROScene where
  rootNode : NodeId
  hitTest : VROCamera → VROVector3f → VROVector3f → Bool → List VROHitTestResult

/-- Modelled from the spec: the drag snapshot `VRODraggedObject` (3: node, distance from the
controller, hit location, node position and forward offset at drag start), with the member
names `onButtonEvent` writes. -/
structure VRODraggedObject where
  draggedNode : NodeId
  originalHitLocation : VROVector3f
  originalDraggedNodePosition : VROVector3f
  forwardOffset : VROVector3f
  draggedDistanceFromController : ℚ
deriving DecidableEq, Repr

/-- Modelled from the spec: the constant `kOnFuseReset`, declared in a header that is not
among the files embedded here.
It is the value of a fuse deadline that is not set (4.6: "no deadline is set") and the value
carried by the reset notification; a deadline or a ratio that is set is `some q`. -/
def kOnFuseReset : Option ℚ := none

/-! ## Notifications -/

/-- The receiver of a callback: a listener of `_delegates`, or the event delegate bound to a
node. -/
inductive Target where
  | listener (d : DelegateId)
  | node (n : NodeId)
deriving DecidableEq, Repr

/-- A callback of `VROEventDelegate` with its arguments. -/
inductive Event where
  | onClick (source : Int) (clickState : ClickState) (pos : List ℚ)
  | onTouch (source : Int) (touchState : TouchState) (posX posY : ℚ)
  | onGazeHit (source : Int) (hit : VROHitTestResult)
  | onMove (source : Int) (euler position forward : VROVector3f)
  | onDrag (source : Int) (location : VROVector3f)
  | onPinch (source : Int) (scaleFactor : ℚ) (pinchState : PinchState)
  | onRotate (source : Int) (rotationFactor : ℚ) (rotateState : RotateState)
  | onControllerStatus (source : Int) (status : ControllerStatus)
  | onSwipe (source : Int) (swipeState : SwipeState)
  | onScroll (source : Int) (x y : ℚ)
  | onHover (source : Int) (isHovering : Bool) (pos : List ℚ)
  | onFuse (source : Int) (fuseValue : Option ℚ)
deriving DecidableEq, Repr

/-- One delivered callback. -/
structure Notification where
  target : Target
  event : Event
deriving DecidableEq, Repr

/-! ## Parameters declared outside the embedded files -/

/-- The library functions and header constants that `VROInputControllerBase.cpp` uses and does
not define: `std::sort` on hits (with the comparator of `hitTest`), the vector and quaternion
functions, and the three throttling thresholds. -/
structure ControllerEnv where
  stdSort : List VROHitTestResult → List VROHitTestResult
  distance : VROVector3f → VROVector3f → ℚ
  distanceAccurate : VROVector3f → VROVector3f → ℚ
  isEqual : VROVector3f → VROVector3f → Bool
  toEuler : VROQuaternion → VROVector3f
  ON_DRAG_DISTANCE_THRESHOLD : ℚ
  ON_PINCH_SCALE_THRESHOLD : ℚ
  ON_ROTATE_THRESHOLD : ℚ

/-- The contract of `std::sort` with the comparator `a.getDistance() < b.getDistance()`: the
result is a rearrangement of the input in which no element is followed by one of strictly
smaller distance.  The order of equal distances is not fixed. -/
def StdSortContract (sort : List VROHitTestResult → List VROHitTestResult) : Prop :=
  ∀ l, (sort l).Perm l ∧ (sort l).Pairwise (fun a b => ¬ b.distance < a.distance)

/-! ## VROInputControllerBase -/

/-- Modelled from the spec: the member variables of `VROInputControllerBase` (declared in the
header; named as `VROInputControllerBase.cpp` uses them), the two node attributes the
controller writes (`setPosition`, `setIsBeingDragged`), and the callbacks delivered so far,
oldest first. -/
structure VROInputControllerBase where
  lastKnownPosition : VROVector3f
  lastKnownForward : VROVector3f
  lastKnownRotation : VROQuaternion
  lastDraggedNodePosition : VROVector3f
  lastTouchedPosition : VROVector3f
  lastClickedNode : Option NodeId
  lastHoveredNode : Option NodeId
  lastDraggedNode : Option VRODraggedObject
  currentPinchedNode : Option NodeId
  currentRotateNode : Option NodeId
  currentFusedNode : Option NodeId
  lastPinchScale : ℚ
  lastRotation : ℚ
  fuseTriggerAtMillis : Option ℚ
  haveNotifiedOnFuseTriggered : Bool
  currentControllerStatus : ControllerStatus
  hitResult : Option VROHitTestResult
  delegates : List DelegateId
  nodePosition : NodeId → VROVector3f
  nodeIsBeingDragged : NodeId → Bool
  log : List Notification

namespace VROInputControllerBase

/-- Append delivered callbacks to the record. -/
def emit (s : VROInputControllerBase) (l : List Notification) : VROInputControllerBase :=
  { s with log := s.log ++ l }

/-- The callbacks of the loop `for (delegate : _delegates) delegate->e`. -/
def toDelegates (s : VROInputControllerBase) (e : Event) : List Notification :=
  s.delegates.map (fun d => ⟨Target.listener d, e⟩)

/-- The callbacks of `if (node && node->getEventDelegate()) node->getEventDelegate()->e`. -/
def toNodeIfDelegate (g : SceneGraph) (node : Option NodeId) (e : Event) : List Notification :=
  match node with
  | none => []
  | some n => if (g.node n).eventDelegate.isSome then [⟨Target.node n, e⟩] else []

/-- The callbacks of `if (node != nullptr) node->getEventDelegate()->e`, for a node returned by
`getNodeToHandleEvent`. -/
def toFocused (node : Option NodeId) (e : Event) : List Notification :=
  match node with
  | none => []
  | some n => [⟨Target.node n, e⟩]

/-- Deliver `e` to the receiver `t`. -/
def notify (s : VROInputControllerBase) (t : Target) (e : Event) : VROInputControllerBase :=
  s.emit [⟨t, e⟩]

/-- The loop `for (delegate : _delegates) delegate->e`. -/
def notifyDelegates (s : VROInputControllerBase) (e : Event) : VROInputControllerBase :=
  s.emit (s.toDelegates e)

/-- The guarded call `if (node && node->getEventDelegate()) node->getEventDelegate()->e`. -/
def notifyNodeIfDelegate (g : SceneGraph) (s : VROInputControllerBase) (node : Option NodeId)
    (e : Event) : VROInputControllerBase :=
  s.emit (toNodeIfDelegate g node e)

/-- The call `if (node != nullptr) node->getEventDelegate()->e` on a node returned by
`getNodeToHandleEvent`. -/
def notifyFocused (s : VROInputControllerBase) (node : Option NodeId) (e : Event) :
    VROInputControllerBase :=
  s.emit (toFocused node e)

/-- The position argument of click and hover callbacks: the hit location, or the empty vector
for a background hit. -/
def hitPos (hit : VROHitTestResult) : List ℚ :=
  if hit.background then [] else [hit.location.x, hit.location.y, hit.location.z]

/-- The state the constructor leaves.  It sets the positions, the node references and the
status; the members it does not mention are arguments, as are the listeners (registered through
the header) and the node attributes of the scene. -/
def construct (lastKnownForward : VROVector3f) (lastKnownRotation : VROQuaternion)
    (lastTouchedPosition : VROVector3f) (lastPinchScale lastRotation : ℚ)
    (fuseTriggerAtMillis : Option ℚ) (haveNotifiedOnFuseTriggered : Bool)
    (delegates : List DelegateId) (nodePosition : NodeId → VROVector3f)
    (nodeIsBeingDragged : NodeId → Bool) : VROInputControllerBase :=
  { lastKnownPosition := ⟨0, 0, 0⟩
    lastKnownForward := lastKnownForward
    lastKnownRotation := lastKnownRotation
    lastDraggedNodePosition := ⟨0, 0, 0⟩
    lastTouchedPosition := lastTouchedPosition
    lastClickedNode := none
    lastHoveredNode := none
    lastDraggedNode := none
    currentPinchedNode := none
    currentRotateNode := none
    currentFusedNode := none
    lastPinchScale := lastPinchScale
    lastRotation := lastRotation
    fuseTriggerAtMillis := fuseTriggerAtMillis
    haveNotifiedOnFuseTriggered := haveNotifiedOnFuseTriggered
    currentControllerStatus := ControllerStatus.Unknown
    hitResult := none
    delegates := delegates
    nodePosition := nodePosition
    nodeIsBeingDragged := nodeIsBeingDragged
    log := [] }

end VROInputControllerBase

/-- The test `delegate != nullptr && delegate->isEventEnabled(action)` on node `n`. -/
def SceneGraph.handles (g : SceneGraph) (action : EventAction) (n : NodeId) : Bool :=
  match (g.node n).eventDelegate with
  | none => false
  | some delegate => delegate.isEventEnabled action

/-- `getNodeToHandleEvent(action, node)`. -/
def getNodeToHandleEvent (g : SceneGraph) (action : EventAction) (node : Option NodeId) :
    Option NodeId :=
  match node with
  | none => none
  | some n =>
    if g.handles action n then
      some n
    else
      getNodeToHandleEvent g action (g.node n).parentNode
termination_by (match node with
  | none => 0
  | some n => g.depth n + 1)
decreasing_by
  simp_wf
  cases h : (g.node n).parentNode with
  | none => simp
  | some p => simpa using g.parent_depth n p h

/-- The loop of `hitTest` over the sorted hits: the first one whose node does not ignore
event handling. -/
def firstAccepting (g : SceneGraph) : List VROHitTestResult → Option VROHitTestResult
  | [] => none
  | r :: rest => if !(g.node r.node).ignoreEventHandling then some r else firstAccepting g rest

/-- `hitTest(camera, origin, ray, boundsOnly)` on the scene `scene`; `kSceneBackgroundDistance`
is the value of the global of that name at the call. -/
def hitTest (env : ControllerEnv) (g : SceneGraph) (scene : VROScene)
    (kSceneBackgroundDistance : ℚ) (camera : VROCamera) (origin ray : VROVector3f)
    (boundsOnly : Bool) : VROHitTestResult :=
  let nodeResults := scene.hitTest camera origin ray boundsOnly
  let results := env.stdSort nodeResults
  match firstAccepting g results with
  | some r => r
  | none =>
    { node := scene.rootNode
      location := origin + ray * kSceneBackgroundDistance
      distance := kSceneBackgroundDistance
      background := true
      camera := camera }

namespace VROInputControllerBase

/-- `notifyOnFuseEvent(source, timeToFuseRatio)`. -/
def notifyOnFuseEvent (g : SceneGraph) (s : VROInputControllerBase) (source : Int)
    (fuseValue : Option ℚ) : VROInputControllerBase :=
  notifyNodeIfDelegate g (s.notifyDelegates (Event.onFuse source fuseValue)) s.currentFusedNode
    (Event.onFuse source fuseValue)

/-- `processOnFuseEvent(source, newNode)`; `now1` and `now2` are the two readings of
`VROTimeCurrentMillis()`, the first where the deadline is set, the second where the ratio is
computed.  The ratio is the exact quotient `delta / getTimeToFuse()`; for a fuse duration of 0
the source divides by zero (the result is not a number of `ℚ`), so what is stated about the
ratio and the flag it sets is stated for fuse durations other than 0. -/
def processOnFuseEvent (g : SceneGraph) (s : VROInputControllerBase) (source : Int)
    (newNode : Option NodeId) (now1 now2 : ℚ) : VROInputControllerBase :=
  let focusedNode := getNodeToHandleEvent g EventAction.OnFuse newNode
  let s1 : VROInputControllerBase :=
    if s.currentFusedNode ≠ focusedNode then
      { notifyOnFuseEvent g s source kOnFuseReset with
        fuseTriggerAtMillis := kOnFuseReset
        haveNotifiedOnFuseTriggered := false
        currentFusedNode := focusedNode }
    else s
  match focusedNode, s1.currentFusedNode.bind (fun n => (g.node n).eventDelegate) with
  | none, _ => s1
  | some _, none => s1
  | some _, some delegate =>
    let trigger : ℚ :=
      match s1.fuseTriggerAtMillis with
      | none => now1 + delegate.getTimeToFuse
      | some t => t
    let s2 : VROInputControllerBase := { s1 with fuseTriggerAtMillis := some trigger }
    if !s2.haveNotifiedOnFuseTriggered then
      let delta := trigger - now2
      let timeToFuseRatio := delta / delegate.getTimeToFuse
      if timeToFuseRatio ≤ 0 then
        notifyOnFuseEvent g { s2 with haveNotifiedOnFuseTriggered := true } source (some 0)
      else
        notifyOnFuseEvent g s2 source (some timeToFuseRatio)
    else s2

/-- `processGazeEvent(source, newNode)`; `hit` is `*_hitResult`, which the caller (`onMove`)
has checked to be present. -/
def processGazeEvent (g : SceneGraph) (s : VROInputControllerBase) (hit : VROHitTestResult)
    (source : Int) (newNode : Option NodeId) : VROInputControllerBase :=
  if s.lastHoveredNode = newNode then
    s
  else
    let pos := hitPos hit
    let s1 := notifyNodeIfDelegate g s newNode (Event.onHover source true pos)
    let s2 := notifyNodeIfDelegate g s1 s.lastHoveredNode (Event.onHover source false pos)
    { s2 with lastHoveredNode := newNode }

/-- The location `processDragging` moves the dragged node to, from the last known position
and forward vector of the controller and the drag snapshot. -/
def draggedToLocation (lastKnownPosition lastKnownForward : VROVector3f)
    (d : VRODraggedObject) : VROVector3f :=
  let adjustedForward := lastKnownForward + d.forwardOffset
  let newSimulatedHitPosition :=
    lastKnownPosition + (adjustedForward * d.draggedDistanceFromController)
  let draggedOffset := newSimulatedHitPosition - d.originalHitLocation
  d.originalDraggedNodePosition + draggedOffset

/-- The drag snapshot `onButtonEvent` takes at a click-down on `hit` whose drag is handled by
`draggableNode`. -/
def dragSnapshot (env : ControllerEnv) (s : VROInputControllerBase) (hit : VROHitTestResult)
    (draggableNode : NodeId) (forwardOffset : VROVector3f) : VRODraggedObject :=
  { draggedDistanceFromController := env.distanceAccurate hit.location s.lastKnownPosition
    originalHitLocation := hit.location
    originalDraggedNodePosition := s.nodePosition draggableNode
    draggedNode := draggableNode
    forwardOffset := forwardOffset }

/-- `processDragging(source)`; `d` is `*_lastDraggedNode`, which the caller (`onMove`) has
checked to be present. -/
def processDragging (env : ControllerEnv) (g : SceneGraph) (s : VROInputControllerBase)
    (d : VRODraggedObject) (source : Int) : VROInputControllerBase :=
  let location := draggedToLocation s.lastKnownPosition s.lastKnownForward d
  let s1 : VROInputControllerBase :=
    { s with nodePosition := Function.update s.nodePosition d.draggedNode location }
  let distance := env.distance location s1.lastDraggedNodePosition
  if distance < env.ON_DRAG_DISTANCE_THRESHOLD then
    s1
  else
    let s2 : VROInputControllerBase := { s1 with lastDraggedNodePosition := location }
    let s3 := notifyNodeIfDelegate g s2 (some d.draggedNode) (Event.onDrag source location)
    s3.notifyDelegates (Event.onDrag source location)

/-- `onButtonEvent(source, clickState)`; `forwardOffset` is what the virtual
`getDragForwardOffset()` returns at this call. -/
def onButtonEvent (env : ControllerEnv) (g : SceneGraph) (s : VROInputControllerBase)
    (source : Int) (clickState : ClickState) (forwardOffset : VROVector3f) :
    VROInputControllerBase :=
  match s.hitResult with
  | none => s
  | some hit =>
    let pos := hitPos hit
    let s1 := s.notifyDelegates (Event.onClick source clickState pos)
    let focusedNode := getNodeToHandleEvent g EventAction.OnClick (some hit.node)
    let s2 := notifyFocused s1 focusedNode (Event.onClick source clickState pos)
    match clickState with
    | ClickState.ClickUp =>
      let s3 : VROInputControllerBase :=
        if some hit.node = s2.lastClickedNode then
          let s3a := s2.notifyDelegates (Event.onClick source ClickState.Clicked pos)
          if s2.lastClickedNode.isSome then
            notifyNodeIfDelegate g s3a focusedNode (Event.onClick source ClickState.Clicked pos)
          else s3a
        else s2
      let s4 : VROInputControllerBase := { s3 with lastClickedNode := none }
      let s5 : VROInputControllerBase :=
        match s4.lastDraggedNode with
        | none => s4
        | some d =>
          { s4 with nodeIsBeingDragged := Function.update s4.nodeIsBeingDragged d.draggedNode false }
      { s5 with lastDraggedNode := none }
    | ClickState.ClickDown =>
      let s3 : VROInputControllerBase := { s2 with lastClickedNode := some hit.node }
      match getNodeToHandleEvent g EventAction.OnDrag (some hit.node) with
      | none => s3
      | some draggableNode =>
        let s4 : VROInputControllerBase :=
          { s3 with
            nodeIsBeingDragged := Function.update s3.nodeIsBeingDragged draggableNode true }
        let draggedObject := dragSnapshot env s4 hit draggableNode forwardOffset
        { s4 with lastDraggedNode := some draggedObject }
    | ClickState.Clicked => s2

/-- `onTouchpadEvent(source, touchState, posX, posY)`. -/
def onTouchpadEvent (env : ControllerEnv) (g : SceneGraph) (s : VROInputControllerBase)
    (source : Int) (touchState : TouchState) (posX posY : ℚ) : VROInputControllerBase :=
  let currentTouchedPosition : VROVector3f := ⟨posX, posY, 0⟩
  if touchState = TouchState.TouchDownMove ∧
      env.isEqual s.lastTouchedPosition currentTouchedPosition = true then
    s
  else
    let s1 : VROInputControllerBase := { s with lastTouchedPosition := currentTouchedPosition }
    let s2 := s1.notifyDelegates (Event.onTouch source touchState posX posY)
    match s2.hitResult with
    | none => s2
    | some hit =>
      notifyFocused s2 (getNodeToHandleEvent g EventAction.OnTouch (some hit.node))
        (Event.onTouch source touchState posX posY)

/-- `onMove(source, position, rotation, forward)`; `now1`, `now2` are the clock readings of the
call of `processOnFuseEvent`. -/
def onMove (env : ControllerEnv) (g : SceneGraph) (s : VROInputControllerBase) (source : Int)
    (position : VROVector3f) (rotation : VROQuaternion) (forward : VROVector3f)
    (now1 now2 : ℚ) : VROInputControllerBase :=
  let s0 : VROInputControllerBase :=
    { s with
      lastKnownRotation := rotation
      lastKnownPosition := position
      lastKnownForward := forward }
  match s0.hitResult with
  | none => s0
  | some hit =>
    let s1 := s0.emit (s0.delegates.flatMap (fun d =>
      [⟨Target.listener d, Event.onGazeHit source hit⟩,
       ⟨Target.listener d,
        Event.onMove source (env.toEuler s0.lastKnownRotation) s0.lastKnownPosition
          s0.lastKnownForward⟩]))
    let s2 := processOnFuseEvent g s1 source (some hit.node) now1 now2
    let gazableNode := getNodeToHandleEvent g EventAction.OnHover (some hit.node)
    let s3 := processGazeEvent g s2 hit source gazableNode
    let movableNode := getNodeToHandleEvent g EventAction.OnMove (some hit.node)
    let s4 := notifyFocused s3 movableNode
      (Event.onMove source (env.toEuler s3.lastKnownRotation) s3.lastKnownPosition
        s3.lastKnownForward)
    match s4.lastDraggedNode with
    | none => s4
    | some d =>
      if s4.currentPinchedNode = none ∧ s4.currentRotateNode = none then
        processDragging env g s4 d source
      else s4

/-- `onPinch(source, scaleFactor, pinchState)`. -/
def onPinch (env : ControllerEnv) (g : SceneGraph) (s : VROInputControllerBase) (source : Int)
    (scaleFactor : ℚ) (pinchState : PinchState) : VROInputControllerBase :=
  let started : Option VROInputControllerBase :=
    if pinchState = PinchState.PinchStart then
      match s.hitResult with
      | none => none
      | some hit =>
        some { s with
          lastPinchScale := scaleFactor
          currentPinchedNode := getNodeToHandleEvent g EventAction.OnPinch (some hit.node) }
    else some s
  match started with
  | none => s
  | some s1 =>
    if s1.currentPinchedNode.isSome ∧ pinchState = PinchState.PinchMove ∧
        |scaleFactor - s1.lastPinchScale| < env.ON_PINCH_SCALE_THRESHOLD then
      s1
    else
      match s1.currentPinchedNode with
      | none => s1
      | some n =>
        if (g.node n).eventDelegate.isSome then
          let s2 := s1.notify (Target.node n) (Event.onPinch source scaleFactor pinchState)
          if pinchState = PinchState.PinchEnd then { s2 with currentPinchedNode := none } else s2
        else s1

/-- `onRotate(source, rotationFactor, rotateState)`. -/
def onRotate (env : ControllerEnv) (g : SceneGraph) (s : VROInputControllerBase) (source : Int)
    (rotationFactor : ℚ) (rotateState : RotateState) : VROInputControllerBase :=
  let started : Option VROInputControllerBase :=
    if rotateState = RotateState.RotateStart then
      match s.hitResult with
      | none => none
      | some hit =>
        some { s with
          lastRotation := rotationFactor
          currentRotateNode := getNodeToHandleEvent g EventAction.OnRotate (some hit.node) }
    else some s
  match started with
  | none => s
  | some s1 =>
    if s1.currentRotateNode.isSome ∧ rotateState = RotateState.RotateMove ∧
        |rotationFactor - s1.lastRotation| < env.ON_ROTATE_THRESHOLD then
      s1
    else
      match s1.currentRotateNode with
      | none => s1
      | some n =>
        if (g.node n).eventDelegate.isSome then
          let s2 := s1.notify (Target.node n) (Event.onRotate source rotationFactor rotateState)
          if rotateState = RotateState.RotateEnd then { s2 with currentRotateNode := none } else s2
        else s1

/-- `updateHitNode(camera, origin, ray)`; `scene` is the member `_scene` at the call (it is
attached and detached through the header) and `kSceneBackgroundDistance` the global. -/
def updateHitNode (env : ControllerEnv) (g : SceneGraph) (s : VROInputControllerBase)
    (scene : Option VROScene) (kSceneBackgroundDistance : ℚ) (camera : VROCamera)
    (origin ray : VROVector3f) : VROInputControllerBase :=
  match scene with
  | none => s
  | some sc =>
    if s.lastDraggedNode.isSome then
      s
    else
      { s with hitResult := some (hitTest env g sc kSceneBackgroundDistance camera origin ray true) }

/-- `onControllerStatus(source, status)`. -/
def onControllerStatus (g : SceneGraph) (s : VROInputControllerBase) (source : Int)
    (status : ControllerStatus) : VROInputControllerBase :=
  if s.currentControllerStatus = status then
    s
  else
    let s1 : VROInputControllerBase := { s with currentControllerStatus := status }
    let s2 := s1.notifyDelegates (Event.onControllerStatus source status)
    match s2.hitResult with
    | none => s2
    | some hit =>
      notifyFocused s2 (getNodeToHandleEvent g EventAction.OnControllerStatus (some hit.node))
        (Event.onControllerStatus source status)

/-- `onSwipe(source, swipeState)`. -/
def onSwipe (g : SceneGraph) (s : VROInputControllerBase) (source : Int)
    (swipeState : SwipeState) : VROInputControllerBase :=
  let s1 := s.notifyDelegates (Event.onSwipe source swipeState)
  match s1.hitResult with
  | none => s1
  | some hit =>
    notifyFocused s1 (getNodeToHandleEvent g EventAction.OnSwipe (some hit.node))
      (Event.onSwipe source swipeState)

/-- `onScroll(source, x, y)`. -/
def onScroll (g : SceneGraph) (s : VROInputControllerBase) (source : Int) (x y : ℚ) :
    VROInputControllerBase :=
  let s1 := s.notifyDelegates (Event.onScroll source x y)
  match s1.hitResult with
  | none => s1
  | some hit =>
    notifyFocused s1 (getNodeToHandleEvent g EventAction.OnScroll (some hit.node))
      (Event.onScroll source x y)

end VROInputControllerBase

/-- The state `onMove` reaches, with a hit result `hit` cached, before it looks at the drag
snapshot: the pose is stored, the listeners have got `onGazeHit` and `onMove`, and the fuse,
hover and move callbacks of the scene are done. -/
def VROInputControllerBase.onMoveBeforeDrag (env : ControllerEnv) (g : SceneGraph)
    (s : VROInputControllerBase) (hit : VROHitTestResult) (source : Int)
    (position : VROVector3f) (rotation : VROQuaternion) (forward : VROVector3f)
    (now1 now2 : ℚ) : VROInputControllerBase :=
  let s0 : VROInputControllerBase :=
    { s with
      lastKnownRotation := rotation
      lastKnownPosition := position
      lastKnownForward := forward }
  let s1 := s0.emit (s0.delegates.flatMap (fun d =>
    [⟨Target.listener d, Event.onGazeHit source hit⟩,
     ⟨Target.listener d,
      Event.onMove source (env.toEuler s0.lastKnownRotation) s0.lastKnownPosition
        s0.lastKnownForward⟩]))
  let s2 := VROInputControllerBase.processOnFuseEvent g s1 source (some hit.node) now1 now2
  let gazableNode := getNodeToHandleEvent g EventAction.OnHover (some hit.node)
  let s3 := VROInputControllerBase.processGazeEvent g s2 hit source gazableNode
  let movableNode := getNodeToHandleEvent g EventAction.OnMove (some hit.node)
  VROInputControllerBase.notifyFocused s3 movableNode
    (Event.onMove source (env.toEuler s3.lastKnownRotation) s3.lastKnownPosition
      s3.lastKnownForward)

/-- The controller states reachable from the constructor by input events and hit updates, on
any scene graphs, and by changes of the registered listeners. -/
inductive Reachable (env : ControllerEnv) : VROInputControllerBase → Prop where
  | construct (fwd : VROVector3f) (rot : VROQuaternion) (touched : VROVector3f) (ps lr : ℚ)
      (trigger : Option ℚ) (notified : Bool) (ds : List DelegateId)
      (pos : NodeId → VROVector3f) (dragged : NodeId → Bool) :
      Reachable env
        (VROInputControllerBase.construct fwd rot touched ps lr trigger notified ds pos dragged)
  | listeners {s} (ds : List DelegateId) : Reachable env s → Reachable env { s with delegates := ds }
  | onButtonEvent {s} (g : SceneGraph) (source : Int) (clickState : ClickState)
      (forwardOffset : VROVector3f) :
      Reachable env s → Reachable env (s.onButtonEvent env g source clickState forwardOffset)
  | onTouchpadEvent {s} (g : SceneGraph) (source : Int) (touchState : TouchState) (x y : ℚ) :
      Reachable env s → Reachable env (s.onTouchpadEvent env g source touchState x y)
  | onMove {s} (g : SceneGraph) (source : Int) (position : VROVector3f) (rotation : VROQuaternion)
      (forward : VROVector3f) (now1 now2 : ℚ) :
      Reachable env s → Reachable env (s.onMove env g source position rotation forward now1 now2)
  | onPinch {s} (g : SceneGraph) (source : Int) (scaleFactor : ℚ) (pinchState : PinchState) :
      Reachable env s → Reachable env (s.onPinch env g source scaleFactor pinchState)
  | onRotate {s} (g : SceneGraph) (source : Int) (rotationFactor : ℚ) (rotateState : RotateState) :
      Reachable env s → Reachable env (s.onRotate env g source rotationFactor rotateState)
  | updateHitNode {s} (g : SceneGraph) (scene : Option VROScene) (k : ℚ) (camera : VROCamera)
      (origin ray : VROVector3f) :
      Reachable env s → Reachable env (s.updateHitNode env g scene k camera origin ray)
  | onControllerStatus {s} (g : SceneGraph) (source : Int) (status : ControllerStatus) :
      Reachable env s → Reachable env (s.onControllerStatus g source status)
  | onSwipe {s} (g : SceneGraph) (source : Int) (swipeState : SwipeState) :
      Reachable env s → Reachable env (s.onSwipe g source swipeState)
  | onScroll {s} (g : SceneGraph) (source : Int) (x y : ℚ) :
      Reachable env s → Reachable env (s.onScroll g source x y)

/-- The parent chain of a node reference: the node, its parent, the parent of that, up to the
root; empty for `nullptr`. -/
def parentChain (g : SceneGraph) (node : Option NodeId) : List NodeId :=
  match node with
  | none => []
  | some n => n :: parentChain g (g.node n).parentNode
termination_by (match node with
  | none => 0
  | some n => g.depth n + 1)
decreasing_by
  simp_wf
  cases h : (g.node n).parentNode with
  | none => simp
  | some p => simpa using g.parent_depth n p h

/-- Node `n` has an event delegate and the delegate reports the category enabled. -/
def HasEnabledDelegate (g : SceneGraph) (action : EventAction) (n : NodeId) : Prop :=
  ∃ delegate, (g.node n).eventDelegate = some delegate ∧ delegate.isEventEnabled action = true

/-! ## Reading the record of callbacks -/

/-- The callback is an `onDrag`. -/
def isDrag (n : Notification) : Bool :=
  match n.event with
  | Event.onDrag _ _ => true
  | _ => false

/-- The callback is an `onClick` with state `Clicked`. -/
def isClicked (n : Notification) : Bool :=
  match n.event with
  | Event.onClick _ ClickState.Clicked _ => true
  | _ => false

/-- The callback is an `onHover` with `isHovering = true`, delivered to the delegate of node
`m`. -/
def isHoverOnTo (m : NodeId) (n : Notification) : Bool :=
  match n.target, n.event with
  | Target.node k, Event.onHover _ true _ => decide (k = m)
  | _, _ => false

/-- The callback is an `onHover`. -/
def isHover (n : Notification) : Bool :=
  match n.event with
  | Event.onHover _ _ _ => true
  | _ => false

/-- The fuse ratio carried by the callback, when it is an `onFuse` with a ratio (not the reset
value) delivered to the delegate of node `m`. -/
def fuseRatioTo (m : NodeId) (n : Notification) : Option ℚ :=
  match n.target, n.event with
  | Target.node k, Event.onFuse _ (some r) => if k = m then some r else none
  | _, _ => none

/-- The fuse ratios delivered to the delegate of node `m`, oldest first. -/
def fuseRatiosTo (m : NodeId) (log : List Notification) : List ℚ :=
  log.filterMap (fuseRatioTo m)

/-- One `onMove` update: the scene graph at the call, the arguments and the clock readings. -/
structure MoveUpdate where
  g : SceneGraph
  source : Int
  position : VROVector3f
  rotation : VROQuaternion
  forward : VROVector3f
  now1 : ℚ
  now2 : ℚ

/-- Consecutive `onMove` updates. -/
def runMoves (env : ControllerEnv) (s : VROInputControllerBase) :
    List MoveUpdate → VROInputControllerBase
  | [] => s
  | m :: ms =>
    runMoves env (s.onMove env m.g m.source m.position m.rotation m.forward m.now1 m.now2) ms

/-- The clock readings of consecutive updates, in the order they are taken. -/
def clockReadings : List MoveUpdate → List ℚ
  | [] => []
  | m :: ms => m.now1 :: m.now2 :: clockReadings ms

/-- What one fuse step that resolves node `n`, with fuse duration `ttf` and clock readings
`now1`, `now2`, makes of the fuse members and of the ratios delivered to the delegate of `n`:
`n` is the fused node; the deadline is the one already set for `n`, or `now1 + ttf`; no ratio
is delivered when the trigger was already notified for `n`; otherwise the ratio
`(deadline - now2) / ttf` is delivered, as 0 and with the trigger marked as notified when it is
not positive. -/
def FuseStep (n : NodeId) (ttf now1 now2 : ℚ) (s s' : VROInputControllerBase) : Prop :=
  s'.currentFusedNode = some n ∧
  s'.fuseTriggerAtMillis
    = some ((if s.currentFusedNode = some n then s.fuseTriggerAtMillis else none).getD
        (now1 + ttf)) ∧
  (if (if s.currentFusedNode = some n then s.haveNotifiedOnFuseTriggered else false) = true then
    s'.haveNotifiedOnFuseTriggered = true ∧ fuseRatiosTo n s'.log = fuseRatiosTo n s.log
  else if ((if s.currentFusedNode = some n then s.fuseTriggerAtMillis else none).getD
        (now1 + ttf) - now2) / ttf ≤ 0 then
    s'.haveNotifiedOnFuseTriggered = true ∧ fuseRatiosTo n s'.log = fuseRatiosTo n s.log ++ [0]
  else
    s'.haveNotifiedOnFuseTriggered = false ∧
    fuseRatiosTo n s'.log
      = fuseRatiosTo n s.log ++
          [((if s.currentFusedNode = some n then s.fuseTriggerAtMillis else none).getD
            (now1 + ttf) - now2) / ttf])

/-! ## A sample scene -/

/-- An event delegate that has every category enabled and fuses after 1000 ms. -/
def sampleDelegate : VROEventDelegate :=
  { isEventEnabled := fun _ => true
    getTimeToFuse := 1000 }

/-- A sample graph: node 0 is the root, without delegate; node 1 is a child of the root with
`sampleDelegate`; node 2 is a child of the root that ignores event handling; node 3 is a child
of node 1 without delegate. -/
def sampleGraph : SceneGraph :=
  { node := fun n =>
      if n = 1 then
        { parentNode := some 0, eventDelegate := some sampleDelegate, ignoreEventHandling := false }
      else if n = 2 then
        { parentNode := some 0, eventDelegate := none, ignoreEventHandling := true }
      else if n = 3 then
        { parentNode := some 1, eventDelegate := none, ignoreEventHandling := false }
      else
        { parentNode := none, eventDelegate := none, ignoreEventHandling := false }
    depth := fun n => if n = 3 then 2 else if n = 0 then 0 else 1
    parent_depth := by
      intro n p h
      by_cases h1 : n = 1
      · subst h1; simp at h; subst h; simp
      · by_cases h2 : n = 2
        · subst h2; simp at h; subst h; simp
        · by_cases h3 : n = 3
          · subst h3; simp at h; subst h; simp
          · simp [h1, h2, h3] at h }

/-- Square root on `ℚ`: exact on squares of rationals (numerator and denominator of a reduced
square are squares), rounded otherwise. -/
def sqrtRat (q : ℚ) : ℚ := (Nat.sqrt q.num.toNat : ℚ) / (Nat.sqrt q.den : ℚ)

/-- Euclidean distance through `sqrtRat`. -/
def euclidDistance (a b : VROVector3f) : ℚ :=
  sqrtRat ((a.x - b.x) * (a.x - b.x) + (a.y - b.y) * (a.y - b.y) + (a.z - b.z) * (a.z - b.z))

/-- A sample environment: merge sort by distance for `std::sort`, Euclidean distance, exact
equality of vectors, the vector part of a rotation for `toEuler` (the controller only passes
that value on), and thresholds of 1/100, 1/50 and 1/100. -/
def sampleEnv : ControllerEnv :=
  { stdSort := fun l => l.mergeSort (fun a b => decide (a.distance ≤ b.distance))
    distance := euclidDistance
    distanceAccurate := euclidDistance
    isEqual := fun a b => decide (a = b)
    toEuler := fun q => ⟨q.qx, q.qy, q.qz⟩
    ON_DRAG_DISTANCE_THRESHOLD := 1 / 100
    ON_PINCH_SCALE_THRESHOLD := 1 / 50
    ON_ROTATE_THRESHOLD := 1 / 100 }

/-- A sample scene with root 0 whose query returns, in this order, a hit on node 1 at distance
5, a hit on the ignoring node 2 at distance 2 and a hit on node 3 at distance 7. -/
def sampleScene : VROScene :=
  { rootNode := 0
    hitTest := fun camera _ _ _ =>
      [ { node := 1, location := ⟨5, 0, 0⟩, distance := 5, background := false, camera := camera },
        { node := 2, location := ⟨2, 0, 0⟩, distance := 2, background := false, camera := camera },
        { node := 3, location := ⟨7, 0, 0⟩, distance := 7, background := false, camera := camera } ] }

/-- A sample scene with root 0 whose query returns only a hit on the ignoring node 2. -/
def sampleSceneIgnored : VROScene :=
  { rootNode := 0
    hitTest := fun camera _ _ _ =>
      [ { node := 2, location := ⟨2, 0, 0⟩, distance := 2, background := false, camera := camera } ] }

/-- A sample scene with root 0 whose query returns only a hit on node 1, at `(5, 0, 0)`. -/
def sampleSceneSingle : VROScene :=
  { rootNode := 0
    hitTest := fun camera _ _ _ =>
      [ { node := 1, location := ⟨5, 0, 0⟩, distance := 5, background := false, camera := camera } ] }

/-- The hit on node 1 of `sampleSceneSingle`, seen from camera 0. -/
def sampleHit : VROHitTestResult :=
  { node := 1, location := ⟨5, 0, 0⟩, distance := 5, background := false, camera := 0 }

/-- A controller as constructed, with one listener (7), every node at `(5, 0, 0)` and no node
being dragged. -/
def sampleStart : VROInputControllerBase :=
  VROInputControllerBase.construct ⟨1, 0, 0⟩ ⟨0, 0, 0, 1⟩ ⟨0, 0, 0⟩ 0 0 none false [7]
    (fun _ => ⟨5, 0, 0⟩) (fun _ => false)

/-- `sampleStart` after a hit update on `sampleSceneSingle`: the hit on node 1 is cached. -/
def sampleFocused : VROInputControllerBase :=
  sampleStart.updateHitNode sampleEnv sampleGraph (some sampleSceneSingle) 8 0 ⟨0, 0, 0⟩ ⟨1, 0, 0⟩

/-- `sampleFocused` after a click-down: node 1 is the last clicked node and is being dragged. -/
def samplePressed : VROInputControllerBase :=
  sampleFocused.onButtonEvent sampleEnv sampleGraph 0 ClickState.ClickDown ⟨0, 0, 0⟩

/-- The drag snapshot of `samplePressed`. -/
def sampleSnapshot : VRODraggedObject :=
  { draggedNode := 1
    originalHitLocation := ⟨5, 0, 0⟩
    originalDraggedNodePosition := ⟨5, 0, 0⟩
    forwardOffset := ⟨0, 0, 0⟩
    draggedDistanceFromController := 5 }

/-- `samplePressed` after a pinch start with scale 1: node 1 is dragged and pinched. -/
def samplePinching : VROInputControllerBase :=
  samplePressed.onPinch sampleEnv sampleGraph 0 1 PinchState.PinchStart

/-- The pinch moves of a session, in order, from the state after its start: `onPinch` with
`PinchMove` for every scale of the list. -/
def pinchMoves (env : ControllerEnv) (g : SceneGraph) (s : VROInputControllerBase) (source : Int)
    (scales : List ℚ) : VROInputControllerBase :=
  scales.foldl (fun st v => st.onPinch env g source v PinchState.PinchMove) s

/-- The rotate moves of a session, in order, from the state after its start: `onRotate` with
`RotateMove` for every rotation of the list. -/
def rotateMoves (env : ControllerEnv) (g : SceneGraph) (s : VROInputControllerBase) (source : Int)
    (rotations : List ℚ) : VROInputControllerBase :=
  rotations.foldl (fun st v => st.onRotate env g source v RotateState.RotateMove) s

/-! ## Vector arithmetic -/

/-- Sum of vectors, by components. -/
theorem VROVector3f.add_def (a b : VROVector3f) : a + b = ⟨a.x + b.x, a.y + b.y, a.z + b.z⟩ := rfl

/-- Difference of vectors, by components. -/
theorem VROVector3f.sub_def (a b : VROVector3f) : a - b = ⟨a.x - b.x, a.y - b.y, a.z - b.z⟩ := rfl

/-- Scaling of a vector, by components. -/
theorem VROVector3f.mul_def (a : VROVector3f) (k : ℚ) : a * k = ⟨a.x * k, a.y * k, a.z * k⟩ := rfl

/-! ## Facts about the binary search -/

namespace BodyPlaybackInfo

/-- On bounds inside the timestamp vector the search returns a row `r` of the interval, with a
timestamp below `time` just before `r` and a timestamp not below `time` at `r`. -/
theorem returnRowClosestToTime_bracket (d : VROBodyAnimData) (time : ℚ) :
    ∀ (k lo hi : Nat), hi - lo = k → lo ≤ hi → hi ≤ d.animationRowTimestamps.length →
      ∃ r, returnRowClosestToTime d time lo hi = some r ∧ lo ≤ r ∧ r ≤ hi ∧
        (lo < r → ∃ v, d.animationRowTimestamps[r - 1]? = some v ∧ v < time) ∧
        (r < hi → ∃ v, d.animationRowTimestamps[r]? = some v ∧ time ≤ v) := by
  intro k
  induction k using Nat.strong_induction_on with
  | _ k ih =>
    intro lo hi hk hle hlen
    rw [returnRowClosestToTime]
    by_cases heq : lo = hi
    · subst heq
      exact ⟨lo, by simp, le_refl _, le_refl _, fun h => absurd h (lt_irrefl _),
        fun h => absurd h (lt_irrefl _)⟩
    · have hlt : lo < hi := lt_of_le_of_ne hle heq
      have hmid : lo + (hi - lo) / 2 < d.animationRowTimestamps.length := by omega
      simp only [heq, hlt, if_false, dif_pos, VROBodyAnimData.getAnimRowTimestamp,
        List.getElem?_eq_getElem hmid]
      by_cases hgt : time > d.animationRowTimestamps[lo + (hi - lo) / 2]
      · simp only [hgt, if_true]
        obtain ⟨r, hr, h1, h2, h3, h4⟩ :=
          ih (hi - (lo + (hi - lo) / 2 + 1)) (by omega) (lo + (hi - lo) / 2 + 1) hi rfl
            (by omega) hlen
        refine ⟨r, hr, by omega, h2, fun _ => ?_, h4⟩
        by_cases hr' : lo + (hi - lo) / 2 + 1 < r
        · exact h3 hr'
        · have : r - 1 = lo + (hi - lo) / 2 := by omega
          rw [this]
          exact ⟨_, List.getElem?_eq_getElem hmid, hgt⟩
      · simp only [hgt, if_false]
        obtain ⟨r, hr, h1, h2, h3, h4⟩ :=
          ih (lo + (hi - lo) / 2 - lo) (by omega) lo (lo + (hi - lo) / 2) rfl
            (by omega) (by omega)
        refine ⟨r, hr, h1, by omega, h3, fun _ => ?_⟩
        by_cases hr' : r < lo + (hi - lo) / 2
        · exact h4 hr'
        · have : r = lo + (hi - lo) / 2 := by omega
          rw [this]
          exact ⟨_, List.getElem?_eq_getElem hmid, not_lt.mp hgt⟩

/-- The state after a seek whose search result is a row of the dataset. -/
theorem setTime_of_row (s : BodyPlaybackInfo) (time now : ℚ) (r : Nat) (v : ℚ)
    (hn : s.bodyAnimData.getTotalRows ≠ 0)
    (hr : returnRowClosestToTime s.bodyAnimData time 0 s.bodyAnimData.getTotalRows = some r)
    (hle : r ≤ s.bodyAnimData.getTotalRows - 1)
    (hv : s.bodyAnimData.animationRowTimestamps[r]? = some v) :
    s.setTime time now = some { s with currentPlaybackRow := r, startPlaybackTime := now - v } := by
  unfold setTime
  simp only [hn, if_false, hr, hle, if_true, getCurrentRowTimestamp,
    VROBodyAnimData.getAnimRowTimestamp]
  split_ifs <;> simp [hv]

/-- The state after a seek whose search runs past the last row. -/
theorem setTime_of_past (s : BodyPlaybackInfo) (time now : ℚ) (r : Nat)
    (hn : s.bodyAnimData.getTotalRows ≠ 0)
    (hr : returnRowClosestToTime s.bodyAnimData time 0 s.bodyAnimData.getTotalRows = some r)
    (hle : ¬ r ≤ s.bodyAnimData.getTotalRows - 1) :
    s.setTime time now = some
      (if time > s.totalPlaybackTime then
        { s with currentPlaybackRow := s.bodyAnimData.getTotalRows - 1 } else s) := by
  unfold setTime
  simp only [hn, if_false, hr, hle]

/-- In a sorted list an earlier entry is at most a later one. -/
theorem sorted_getElem?_le {ts : List ℚ} (hs : ts.Sorted (· ≤ ·)) {i j : Nat} {a b : ℚ}
    (hij : i ≤ j) (ha : ts[i]? = some a) (hb : ts[j]? = some b) : a ≤ b := by
  obtain ⟨hi, rfl⟩ := List.getElem?_eq_some.mp ha
  obtain ⟨hj, rfl⟩ := List.getElem?_eq_some.mp hb
  rcases Nat.eq_or_lt_of_le hij with h | h
  · subst h; exact le_refl _
  · exact (List.pairwise_iff_getElem.mp hs) i j hi hj h

/-- On a sorted dataset the search from `0` to the row count returns the first row whose
timestamp is `≥ time`, or the row count when there is none. -/
theorem returnRowClosestToTime_sorted (d : VROBodyAnimData) (time : ℚ)
    (hs : d.animationRowTimestamps.Sorted (· ≤ ·)) :
    ∃ r, returnRowClosestToTime d time 0 d.animationRowTimestamps.length = some r ∧
      r ≤ d.animationRowTimestamps.length ∧
      (∀ (j : Nat) (w : ℚ), j < r → d.animationRowTimestamps[j]? = some w → w < time) ∧
      (∀ (j : Nat) (w : ℚ), r ≤ j → d.animationRowTimestamps[j]? = some w → time ≤ w) := by
  obtain ⟨r, hr, _, h2, h3, h4⟩ :=
    returnRowClosestToTime_bracket d time _ 0 d.animationRowTimestamps.length rfl
      (Nat.zero_le _) (le_refl _)
  refine ⟨r, hr, h2, fun j w hj hw => ?_, fun j w hj hw => ?_⟩
  · obtain ⟨v, hv, hvt⟩ := h3 (by omega)
    exact lt_of_le_of_lt (sorted_getElem?_le hs (by omega) hw hv) hvt
  · have hjlt : j < d.animationRowTimestamps.length := (List.getElem?_eq_some.mp hw).1
    obtain ⟨v, hv, hvt⟩ := h4 (by omega)
    exact le_trans hvt (sorted_getElem?_le hs hj hv hw)

end BodyPlaybackInfo

/-! ## C1 -/

/-- C1 (as amended): over a non-empty dataset with non-decreasing timestamps, `setTime(t)` with
`t` not above the total playback time returns, and the current row index is then the index of
the first row whose timestamp is `≥ t`; when every timestamp is below `t` the row index is
left as it was. -/
theorem C1_setTime_selects_first_row_at_or_after (s : BodyPlaybackInfo) (t now : ℚ)
    (hal : s.bodyAnimData.Aligned) (hn : s.bodyAnimData.getTotalRows ≠ 0)
    (hs : s.bodyAnimData.animationRowTimestamps.Sorted (· ≤ ·))
    (ht : t ≤ s.totalPlaybackTime) :
    ∃ s', s.setTime t now = some s' ∧
      (IsFirstRowAtOrAfter s.bodyAnimData.animationRowTimestamps t s'.currentPlaybackRow ∨
        ((∀ w ∈ s.bodyAnimData.animationRowTimestamps, w < t) ∧
          s'.currentPlaybackRow = s.currentPlaybackRow)) := by
  obtain ⟨r, hr, hrle, hlo, hhi⟩ :=
    BodyPlaybackInfo.returnRowClosestToTime_sorted s.bodyAnimData t hs
  have hlen : s.bodyAnimData.animationRowTimestamps.length = s.bodyAnimData.getTotalRows := hal
  rw [hlen] at hr hrle
  by_cases hle : r ≤ s.bodyAnimData.getTotalRows - 1
  · have hrlt : r < s.bodyAnimData.animationRowTimestamps.length := by omega
    refine ⟨_, BodyPlaybackInfo.setTime_of_row s t now r _ hn hr hle
      (List.getElem?_eq_getElem hrlt), Or.inl ⟨⟨_, List.getElem?_eq_getElem hrlt, ?_⟩, ?_⟩⟩
    · exact hhi r _ (le_refl _) (List.getElem?_eq_getElem hrlt)
    · intro j w hj hw
      exact hlo j w hj hw
  · refine ⟨_, BodyPlaybackInfo.setTime_of_past s t now r hn hr hle, Or.inr ⟨?_, ?_⟩⟩
    · intro w hw
      obtain ⟨j, hj, rfl⟩ := List.getElem_of_mem hw
      exact hlo j _ (by omega) (List.getElem?_eq_getElem hj)
    · simp [not_lt.mpr ht]

/-- C1, witness: the scenario dataset (timestamps 0, 100, 250) and `setTime(150)`. -/
theorem C1_setTime_selects_first_row_at_or_after_witness :
    ∃ s', scenarioInfo.setTime 150 0 = some s' ∧
      (IsFirstRowAtOrAfter scenarioInfo.bodyAnimData.animationRowTimestamps 150
          s'.currentPlaybackRow ∨
        ((∀ w ∈ scenarioInfo.bodyAnimData.animationRowTimestamps, w < 150) ∧
          s'.currentPlaybackRow = scenarioInfo.currentPlaybackRow)) :=
  C1_setTime_selects_first_row_at_or_after scenarioInfo 150 0 rfl (by decide)
    (by simp [scenarioInfo, scenarioData]; norm_num) (by norm_num [scenarioInfo])

/-- C1, counterexample: on timestamps 0, 100, 250 (sorted, total playback time 250) the row
with the greatest timestamp `≤ 150` is row 1, and `setTime(150)` leaves the current row index
equal to 2. -/
theorem C1_counterexample :
    scenarioInfo.bodyAnimData.animationRowTimestamps = [0, 100, 250] ∧
    scenarioInfo.bodyAnimData.animationRowTimestamps.Sorted (· ≤ ·) ∧
    scenarioInfo.totalPlaybackTime = 250 ∧
    ((0 : ℚ) ≤ 150 ∧ (150 : ℚ) ≤ scenarioInfo.totalPlaybackTime) ∧
    IsRowAtOrBefore [0, 100, 250] 150 1 ∧
    ¬ IsRowAtOrBefore [0, 100, 250] 150 2 ∧
    (scenarioInfo.setTime 150 0).map (fun s' => s'.currentPlaybackRow) = some 2 := by
  have hsearch : BodyPlaybackInfo.returnRowClosestToTime scenarioInfo.bodyAnimData 150 0
      scenarioInfo.bodyAnimData.getTotalRows = some 2 := by
    simp [BodyPlaybackInfo.returnRowClosestToTime, scenarioInfo, scenarioData,
      VROBodyAnimData.getAnimRowTimestamp, VROBodyAnimData.getTotalRows]
    norm_num
  refine ⟨rfl, by simp [scenarioInfo, scenarioData]; norm_num, rfl,
    by norm_num [scenarioInfo], ?_, ?_, ?_⟩
  · refine Or.inl ⟨100, rfl, by norm_num, ?_⟩
    intro j w hj hw
    match j, hj with
    | 0, hj => simp at hj; subst hj; norm_num
    | 1, hj => simp at hj; subst hj; norm_num
    | 2, hj => simp at hj; subst hj; norm_num at hw
    | (n + 3), hj => simp at hj
  · rintro (⟨v, hv, hvt, -⟩ | ⟨h, -⟩)
    · simp at hv; subst hv; norm_num at hvt
    · exact absurd h (by decide)
  · rw [BodyPlaybackInfo.setTime_of_row scenarioInfo 150 0 2 250 (by decide) hsearch
      (by decide) rfl]
    rfl

/-! ## Facts about the scene walk and the hit test -/

/-- The walk returns the first node of the parent chain that handles the category. -/
theorem getNodeToHandleEvent_eq_find (g : SceneGraph) (action : EventAction)
    (node : Option NodeId) :
    getNodeToHandleEvent g action node =
      (parentChain g node).find? (fun n => g.handles action n) := by
  induction node using getNodeToHandleEvent.induct g action with
  | case1 => simp [getNodeToHandleEvent, parentChain]
  | case2 n h =>
    rw [getNodeToHandleEvent, parentChain]
    simp [h]
  | case3 n h ih =>
    rw [getNodeToHandleEvent, parentChain]
    simp [h, ih]

/-- A node returned by the walk has a delegate with the category enabled. -/
theorem getNodeToHandleEvent_handles {g : SceneGraph} {action : EventAction}
    {node : Option NodeId} {r : NodeId} (h : getNodeToHandleEvent g action node = some r) :
    g.handles action r = true := by
  rw [getNodeToHandleEvent_eq_find] at h
  simpa using List.find?_some h

/-- A node that handles a category has an event delegate. -/
theorem SceneGraph.delegate_of_handles {g : SceneGraph} {action : EventAction} {n : NodeId}
    (h : g.handles action n = true) : (g.node n).eventDelegate.isSome = true := by
  unfold SceneGraph.handles at h
  cases hd : (g.node n).eventDelegate with
  | none => simp [hd] at h
  | some d => rfl

/-- The loop finds nothing exactly when every hit is on an ignoring node. -/
theorem firstAccepting_eq_none (g : SceneGraph) (l : List VROHitTestResult) :
    firstAccepting g l = none ↔ ∀ c ∈ l, (g.node c.node).ignoreEventHandling = true := by
  induction l with
  | nil => simp [firstAccepting]
  | cons r rest ih =>
    unfold firstAccepting
    by_cases h : (g.node r.node).ignoreEventHandling = true
    · simp [h, ih]
    · simp [h]

/-- What the loop finds splits the list: ignoring hits, then the accepted hit. -/
theorem firstAccepting_eq_some (g : SceneGraph) (l : List VROHitTestResult)
    (r : VROHitTestResult) (h : firstAccepting g l = some r) :
    ∃ pre post, l = pre ++ r :: post ∧ (g.node r.node).ignoreEventHandling = false ∧
      ∀ c ∈ pre, (g.node c.node).ignoreEventHandling = true := by
  induction l with
  | nil => simp [firstAccepting] at h
  | cons a rest ih =>
    unfold firstAccepting at h
    by_cases ha : (g.node a.node).ignoreEventHandling = true
    · simp only [ha, Bool.not_true] at h
      obtain ⟨pre, post, hl, hr, hpre⟩ := ih (by simpa using h)
      refine ⟨a :: pre, post, by simp [hl], hr, ?_⟩
      intro c hc
      rcases List.mem_cons.mp hc with rfl | hc
      · exact ha
      · exact hpre c hc
    · simp only [ha, Bool.not_false, if_true, Option.some.injEq] at h
      subst h
      exact ⟨[], rest, rfl, by simpa using ha, by simp⟩

/-- The sort of the sample environment meets the contract of `std::sort`. -/
theorem sampleEnv_stdSort : StdSortContract sampleEnv.stdSort := by
  intro l
  refine ⟨List.mergeSort_perm l _, ?_⟩
  have hs : (l.mergeSort (fun a b : VROHitTestResult => decide (a.distance ≤ b.distance))).Pairwise
      (fun a b => decide (a.distance ≤ b.distance) = true) :=
    List.sorted_mergeSort
      (by intro a b c hab hbc; simp only [decide_eq_true_eq] at *; exact le_trans hab hbc)
      (by intro a b; simp only [Bool.or_eq_true, decide_eq_true_eq]; exact le_total _ _) l
  refine List.Pairwise.imp ?_ hs
  intro a b hab
  simp only [decide_eq_true_eq] at hab
  exact not_lt.mpr hab

/-- The test of the walk holds exactly for the nodes with an enabled delegate. -/
theorem SceneGraph.handles_iff (g : SceneGraph) (action : EventAction) (n : NodeId) :
    g.handles action n = true ↔ HasEnabledDelegate g action n := by
  unfold SceneGraph.handles HasEnabledDelegate
  cases (g.node n).eventDelegate with
  | none => simp
  | some d => simp

/-- When the loop accepts a hit, `hitTest` returns it. -/
theorem hitTest_of_accepting (env : ControllerEnv) (g : SceneGraph) (scene : VROScene) (k : ℚ)
    (camera : VROCamera) (origin ray : VROVector3f) (boundsOnly : Bool) (r : VROHitTestResult)
    (h : firstAccepting g (env.stdSort (scene.hitTest camera origin ray boundsOnly)) = some r) :
    hitTest env g scene k camera origin ray boundsOnly = r := by
  simp [hitTest, h]

/-- When the loop accepts no hit, `hitTest` returns the background hit. -/
theorem hitTest_of_none (env : ControllerEnv) (g : SceneGraph) (scene : VROScene) (k : ℚ)
    (camera : VROCamera) (origin ray : VROVector3f) (boundsOnly : Bool)
    (h : firstAccepting g (env.stdSort (scene.hitTest camera origin ray boundsOnly)) = none) :
    hitTest env g scene k camera origin ray boundsOnly =
      { node := scene.rootNode, location := origin + ray * k, distance := k, background := true,
        camera := camera } := by
  simp [hitTest, h]

/-- With a candidate that does not ignore events, the loop accepts a hit. -/
theorem firstAccepting_of_exists (env : ControllerEnv) (g : SceneGraph)
    (l : List VROHitTestResult) (hsort : StdSortContract env.stdSort)
    (hex : ∃ c ∈ l, (g.node c.node).ignoreEventHandling = false) :
    ∃ r, firstAccepting g (env.stdSort l) = some r := by
  cases hf : firstAccepting g (env.stdSort l) with
  | some r => exact ⟨r, rfl⟩
  | none =>
    obtain ⟨c, hc, hci⟩ := hex
    have := (firstAccepting_eq_none g _).mp hf c ((hsort l).1.mem_iff.mpr hc)
    rw [hci] at this
    exact absurd this (by decide)

/-! ## C2 -/

/-- C2: when some candidate of the scene query is on a node that does not ignore event
handling, `hitTest` returns one of the candidates, its node does not ignore events, and its
distance is at most the distance of every candidate whose node does not ignore events. -/
theorem C2_hitTest_returns_nearest_accepting (env : ControllerEnv) (g : SceneGraph)
    (scene : VROScene) (k : ℚ) (camera : VROCamera) (origin ray : VROVector3f) (boundsOnly : Bool)
    (hsort : StdSortContract env.stdSort)
    (hex : ∃ c ∈ scene.hitTest camera origin ray boundsOnly,
      (g.node c.node).ignoreEventHandling = false) :
    hitTest env g scene k camera origin ray boundsOnly ∈
        scene.hitTest camera origin ray boundsOnly ∧
      (g.node (hitTest env g scene k camera origin ray boundsOnly).node).ignoreEventHandling
        = false ∧
      ∀ c ∈ scene.hitTest camera origin ray boundsOnly,
        (g.node c.node).ignoreEventHandling = false →
          (hitTest env g scene k camera origin ray boundsOnly).distance ≤ c.distance := by
  obtain ⟨r, hr⟩ := firstAccepting_of_exists env g _ hsort hex
  rw [hitTest_of_accepting env g scene k camera origin ray boundsOnly r hr]
  obtain ⟨pre, post, hl, hacc, hpre⟩ := firstAccepting_eq_some g _ r hr
  obtain ⟨hperm, hsorted⟩ := hsort (scene.hitTest camera origin ray boundsOnly)
  refine ⟨hperm.mem_iff.mp (by rw [hl]; simp), hacc, ?_⟩
  intro c hc hci
  have hc' : c ∈ pre ++ r :: post := by rw [← hl]; exact hperm.mem_iff.mpr hc
  rcases List.mem_append.mp hc' with hcp | hcp
  · have := hpre c hcp
    rw [hci] at this
    exact absurd this (by decide)
  · rcases List.mem_cons.mp hcp with rfl | hcpost
    · exact le_refl _
    · rw [hl] at hsorted
      have h2 := (List.pairwise_append.mp hsorted).2.1
      exact not_lt.mp ((List.pairwise_cons.mp h2).1 c hcpost)

/-- C2, witness: on the sample scene the nearest candidate (distance 2) ignores events and the
hit returned is among the other two. -/
theorem C2_hitTest_returns_nearest_accepting_witness :
    hitTest sampleEnv sampleGraph sampleScene 8 0 ⟨0, 0, 0⟩ ⟨1, 0, 0⟩ true ∈
        sampleScene.hitTest 0 ⟨0, 0, 0⟩ ⟨1, 0, 0⟩ true ∧
      (sampleGraph.node
        (hitTest sampleEnv sampleGraph sampleScene 8 0 ⟨0, 0, 0⟩ ⟨1, 0, 0⟩ true).node).ignoreEventHandling
        = false ∧
      ∀ c ∈ sampleScene.hitTest 0 ⟨0, 0, 0⟩ ⟨1, 0, 0⟩ true,
        (sampleGraph.node c.node).ignoreEventHandling = false →
          (hitTest sampleEnv sampleGraph sampleScene 8 0 ⟨0, 0, 0⟩ ⟨1, 0, 0⟩ true).distance
            ≤ c.distance :=
  C2_hitTest_returns_nearest_accepting sampleEnv sampleGraph sampleScene 8 0 ⟨0, 0, 0⟩ ⟨1, 0, 0⟩
    true sampleEnv_stdSort
    ⟨{ node := 1, location := ⟨5, 0, 0⟩, distance := 5, background := false, camera := 0 },
      by simp [sampleScene], by simp [sampleGraph]⟩

/-! ## C3 -/

/-- C3: `getNodeToHandleEvent` returns the first node of the parent chain of the start node
that has a delegate with the category enabled (every node before it on the chain has none), and
it returns `nullptr` exactly when no node of the chain has one. -/
theorem C3_getNodeToHandleEvent_first_on_chain (g : SceneGraph) (action : EventAction)
    (start : Option NodeId) :
    (∀ r, getNodeToHandleEvent g action start = some r →
      ∃ pre post, parentChain g start = pre ++ r :: post ∧ HasEnabledDelegate g action r ∧
        ∀ n ∈ pre, ¬ HasEnabledDelegate g action n) ∧
    (getNodeToHandleEvent g action start = none ↔
      ∀ n ∈ parentChain g start, ¬ HasEnabledDelegate g action n) := by
  rw [getNodeToHandleEvent_eq_find]
  constructor
  · intro r hr
    obtain ⟨hp, pre, post, hl, hpre⟩ := List.find?_eq_some.mp hr
    refine ⟨pre, post, hl, (g.handles_iff action r).mp hp, ?_⟩
    intro n hn hdel
    have := hpre n hn
    rw [(g.handles_iff action n).mpr hdel] at this
    exact absurd this (by decide)
  · rw [List.find?_eq_none]
    constructor
    · intro h n hn hdel
      exact h n hn ((g.handles_iff action n).mpr hdel)
    · intro h n hn hdel
      exact h n hn ((g.handles_iff action n).mp hdel)

/-! ## C4 -/

/-- C4: `hitTest` returns the background hit (scene root, `origin + ray * backgroundDistance`,
`backgroundDistance`, background flag set) when every candidate is on a node that ignores event
handling, and one of the candidates otherwise; in both cases the result carries a node, the
scene root or the node of a candidate, and it is what `updateHitNode` caches. -/
theorem C4_hitTest_background_or_candidate (env : ControllerEnv) (g : SceneGraph)
    (scene : VROScene) (k : ℚ) (camera : VROCamera) (origin ray : VROVector3f) (boundsOnly : Bool)
    (hsort : StdSortContract env.stdSort) :
    ((∀ c ∈ scene.hitTest camera origin ray boundsOnly,
        (g.node c.node).ignoreEventHandling = true) →
      hitTest env g scene k camera origin ray boundsOnly =
        { node := scene.rootNode, location := origin + ray * k, distance := k,
          background := true, camera := camera }) ∧
    ((∃ c ∈ scene.hitTest camera origin ray boundsOnly,
        (g.node c.node).ignoreEventHandling = false) →
      hitTest env g scene k camera origin ray boundsOnly ∈
        scene.hitTest camera origin ray boundsOnly) ∧
    ((hitTest env g scene k camera origin ray boundsOnly).node = scene.rootNode ∨
      ∃ c ∈ scene.hitTest camera origin ray boundsOnly,
        (hitTest env g scene k camera origin ray boundsOnly).node = c.node) ∧
    (∀ s : VROInputControllerBase, s.lastDraggedNode = none →
      (s.updateHitNode env g (some scene) k camera origin ray).hitResult =
        some (hitTest env g scene k camera origin ray true)) := by
  have hback : (∀ c ∈ scene.hitTest camera origin ray boundsOnly,
        (g.node c.node).ignoreEventHandling = true) →
      hitTest env g scene k camera origin ray boundsOnly =
        { node := scene.rootNode, location := origin + ray * k, distance := k,
          background := true, camera := camera } := by
    intro hall
    apply hitTest_of_none
    rw [firstAccepting_eq_none]
    intro c hc
    exact hall c ((hsort _).1.mem_iff.mp hc)
  have hcand : (∃ c ∈ scene.hitTest camera origin ray boundsOnly,
        (g.node c.node).ignoreEventHandling = false) →
      hitTest env g scene k camera origin ray boundsOnly ∈
        scene.hitTest camera origin ray boundsOnly := by
    intro hex
    obtain ⟨r, hr⟩ := firstAccepting_of_exists env g _ hsort hex
    rw [hitTest_of_accepting env g scene k camera origin ray boundsOnly r hr]
    obtain ⟨pre, post, hl, -, -⟩ := firstAccepting_eq_some g _ r hr
    exact (hsort _).1.mem_iff.mp (by rw [hl]; simp)
  refine ⟨hback, hcand, ?_, ?_⟩
  · by_cases hall : ∀ c ∈ scene.hitTest camera origin ray boundsOnly,
        (g.node c.node).ignoreEventHandling = true
    · left
      rw [hback hall]
    · right
      push_neg at hall
      obtain ⟨c, hc, hci⟩ := hall
      exact ⟨_, hcand ⟨c, hc, by simpa using hci⟩, rfl⟩
  · intro s hs
    simp [VROInputControllerBase.updateHitNode, hs]

/-- C4, witness: on the sample scene whose only candidate ignores events the result is the
background hit on the root, at distance 8 along the ray. -/
theorem C4_hitTest_background_or_candidate_witness :
    hitTest sampleEnv sampleGraph sampleSceneIgnored 8 0 ⟨0, 0, 0⟩ ⟨1, 0, 0⟩ true =
      { node := 0, location := ⟨8, 0, 0⟩, distance := 8, background := true, camera := 0 } := by
  have h := (C4_hitTest_background_or_candidate sampleEnv sampleGraph sampleSceneIgnored 8 0
    ⟨0, 0, 0⟩ ⟨1, 0, 0⟩ true sampleEnv_stdSort).1
    (by intro c hc; simp [sampleSceneIgnored] at hc; subst hc; simp [sampleGraph])
  rw [h]
  simp [sampleSceneIgnored, VROVector3f.add_def, VROVector3f.mul_def]

/-! ## Frame facts of the controller operations -/

namespace VROInputControllerBase

/-- A filter that rejects the event rejects the callbacks of the listener loop. -/
theorem filter_toDelegates (s : VROInputControllerBase) (e : Event) (p : Notification → Bool)
    (h : ∀ t, p ⟨t, e⟩ = false) : (s.toDelegates e).filter p = [] := by
  simp [toDelegates, List.filter_eq_nil_iff, h]

/-- A filter that rejects the event rejects the guarded node callback. -/
theorem filter_toNodeIfDelegate (g : SceneGraph) (node : Option NodeId) (e : Event)
    (p : Notification → Bool) (h : ∀ t, p ⟨t, e⟩ = false) :
    (toNodeIfDelegate g node e).filter p = [] := by
  unfold toNodeIfDelegate
  split
  · rfl
  · split_ifs <;> simp [h]

/-- A filter that rejects the event rejects the callback of the focused node. -/
theorem filter_toFocused (node : Option NodeId) (e : Event) (p : Notification → Bool)
    (h : ∀ t, p ⟨t, e⟩ = false) : (toFocused node e).filter p = [] := by
  unfold toFocused
  split <;> simp [h]

/-- A reading that rejects the event rejects the callbacks of the listener loop. -/
theorem filterMap_toDelegates {β : Type} (s : VROInputControllerBase) (e : Event)
    (f : Notification → Option β) (h : ∀ t, f ⟨t, e⟩ = none) :
    (s.toDelegates e).filterMap f = [] := by
  simp [toDelegates, List.filterMap_eq_nil_iff, h]

/-- A reading that rejects the event rejects the guarded node callback. -/
theorem filterMap_toNodeIfDelegate {β : Type} (g : SceneGraph) (node : Option NodeId)
    (e : Event) (f : Notification → Option β) (h : ∀ t, f ⟨t, e⟩ = none) :
    (toNodeIfDelegate g node e).filterMap f = [] := by
  unfold toNodeIfDelegate
  split
  · rfl
  · split_ifs <;> simp [h]

/-- A reading that rejects the event rejects the callback of the focused node. -/
theorem filterMap_toFocused {β : Type} (node : Option NodeId) (e : Event)
    (f : Notification → Option β) (h : ∀ t, f ⟨t, e⟩ = none) :
    (toFocused node e).filterMap f = [] := by
  unfold toFocused
  split <;> simp [h]

/-! ### Members left as they are by the fuse and hover steps -/

/-- `processOnFuseEvent` does not write `lastKnownPosition`. -/
@[simp] theorem processOnFuseEvent_lastKnownPosition (g : SceneGraph) (s : VROInputControllerBase)
    (source : Int) (newNode : Option NodeId) (now1 now2 : ℚ) :
    (processOnFuseEvent g s source newNode now1 now2).lastKnownPosition = s.lastKnownPosition := by
  unfold processOnFuseEvent
  simp only [notifyOnFuseEvent, notifyNodeIfDelegate, notifyDelegates, emit]
  split_ifs <;> split <;> (try split_ifs) <;> simp

/-- `processOnFuseEvent` does not write `lastKnownForward`. -/
@[simp] theorem processOnFuseEvent_lastKnownForward (g : SceneGraph) (s : VROInputControllerBase)
    (source : Int) (newNode : Option NodeId) (now1 now2 : ℚ) :
    (processOnFuseEvent g s source newNode now1 now2).lastKnownForward = s.lastKnownForward := by
  unfold processOnFuseEvent
  simp only [notifyOnFuseEvent, notifyNodeIfDelegate, notifyDelegates, emit]
  split_ifs <;> split <;> (try split_ifs) <;> simp

/-- `processOnFuseEvent` does not write `lastKnownRotation`. -/
@[simp] theorem processOnFuseEvent_lastKnownRotation (g : SceneGraph) (s : VROInputControllerBase)
    (source : Int) (newNode : Option NodeId) (now1 now2 : ℚ) :
    (processOnFuseEvent g s source newNode now1 now2).lastKnownRotation = s.lastKnownRotation := by
  unfold processOnFuseEvent
  simp only [notifyOnFuseEvent, notifyNodeIfDelegate, notifyDelegates, emit]
  split_ifs <;> split <;> (try split_ifs) <;> simp

/-- `processOnFuseEvent` does not write `lastDraggedNodePosition`. -/
@[simp] theorem processOnFuseEvent_lastDraggedNodePosition (g : SceneGraph) (s : VROInputControllerBase)
    (source : Int) (newNode : Option NodeId) (now1 now2 : ℚ) :
    (processOnFuseEvent g s source newNode now1 now2).lastDraggedNodePosition = s.lastDraggedNodePosition := by
  unfold processOnFuseEvent
  simp only [notifyOnFuseEvent, notifyNodeIfDelegate, notifyDelegates, emit]
  split_ifs <;> split <;> (try split_ifs) <;> simp

/-- `processOnFuseEvent` does not write `lastTouchedPosition`. -/
@[simp] theorem processOnFuseEvent_lastTouchedPosition (g : SceneGraph) (s : VROInputControllerBase)
    (source : Int) (newNode : Option NodeId) (now1 now2 : ℚ) :
    (processOnFuseEvent g s source newNode now1 now2).lastTouchedPosition = s.lastTouchedPosition := by
  unfold processOnFuseEvent
  simp only [notifyOnFuseEvent, notifyNodeIfDelegate, notifyDelegates, emit]
  split_ifs <;> split <;> (try split_ifs) <;> simp

/-- `processOnFuseEvent` does not write `lastClickedNode`. -/
@[simp] theorem processOnFuseEvent_lastClickedNode (g : SceneGraph) (s : VROInputControllerBase)
    (source : Int) (newNode : Option NodeId) (now1 now2 : ℚ) :
    (processOnFuseEvent g s source newNode now1 now2).lastClickedNode = s.lastClickedNode := by
  unfold processOnFuseEvent
  simp only [notifyOnFuseEvent, notifyNodeIfDelegate, notifyDelegates, emit]
  split_ifs <;> split <;> (try split_ifs) <;> simp

/-- `processOnFuseEvent` does not write `lastHoveredNode`. -/
@[simp] theorem processOnFuseEvent_lastHoveredNode (g : SceneGraph) (s : VROInputControllerBase)
    (source : Int) (newNode : Option NodeId) (now1 now2 : ℚ) :
    (processOnFuseEvent g s source newNode now1 now2).lastHoveredNode = s.lastHoveredNode := by
  unfold processOnFuseEvent
  simp only [notifyOnFuseEvent, notifyNodeIfDelegate, notifyDelegates, emit]
  split_ifs <;> split <;> (try split_ifs) <;> simp

/-- `processOnFuseEvent` does not write `lastDraggedNode`. -/
@[simp] theorem processOnFuseEvent_lastDraggedNode (g : SceneGraph) (s : VROInputControllerBase)
    (source : Int) (newNode : Option NodeId) (now1 now2 : ℚ) :
    (processOnFuseEvent g s source newNode now1 now2).lastDraggedNode = s.lastDraggedNode := by
  unfold processOnFuseEvent
  simp only [notifyOnFuseEvent, notifyNodeIfDelegate, notifyDelegates, emit]
  split_ifs <;> split <;> (try split_ifs) <;> simp

/-- `processOnFuseEvent` does not write `currentPinchedNode`. -/
@[simp] theorem processOnFuseEvent_currentPinchedNode (g : SceneGraph) (s : VROInputControllerBase)
    (source : Int) (newNode : Option NodeId) (now1 now2 : ℚ) :
    (processOnFuseEvent g s source newNode now1 now2).currentPinchedNode = s.currentPinchedNode := by
  unfold processOnFuseEvent
  simp only [notifyOnFuseEvent, notifyNodeIfDelegate, notifyDelegates, emit]
  split_ifs <;> split <;> (try split_ifs) <;> simp

/-- `processOnFuseEvent` does not write `currentRotateNode`. -/
@[simp] theorem processOnFuseEvent_currentRotateNode (g : SceneGraph) (s : VROInputControllerBase)
    (source : Int) (newNode : Option NodeId) (now1 now2 : ℚ) :
    (processOnFuseEvent g s source newNode now1 now2).currentRotateNode = s.currentRotateNode := by
  unfold processOnFuseEvent
  simp only [notifyOnFuseEvent, notifyNodeIfDelegate, notifyDelegates, emit]
  split_ifs <;> split <;> (try split_ifs) <;> simp

/-- `processOnFuseEvent` does not write `lastPinchScale`. -/
@[simp] theorem processOnFuseEvent_lastPinchScale (g : SceneGraph) (s : VROInputControllerBase)
    (source : Int) (newNode : Option NodeId) (now1 now2 : ℚ) :
    (processOnFuseEvent g s source newNode now1 now2).lastPinchScale = s.lastPinchScale := by
  unfold processOnFuseEvent
  simp only [notifyOnFuseEvent, notifyNodeIfDelegate, notifyDelegates, emit]
  split_ifs <;> split <;> (try split_ifs) <;> simp

/-- `processOnFuseEvent` does not write `lastRotation`. -/
@[simp] theorem processOnFuseEvent_lastRotation (g : SceneGraph) (s : VROInputControllerBase)
    (source : Int) (newNode : Option NodeId) (now1 now2 : ℚ) :
    (processOnFuseEvent g s source newNode now1 now2).lastRotation = s.lastRotation := by
  unfold processOnFuseEvent
  simp only [notifyOnFuseEvent, notifyNodeIfDelegate, notifyDelegates, emit]
  split_ifs <;> split <;> (try split_ifs) <;> simp

/-- `processOnFuseEvent` does not write `currentControllerStatus`. -/
@[simp] theorem processOnFuseEvent_currentControllerStatus (g : SceneGraph) (s : VROInputControllerBase)
    (source : Int) (newNode : Option NodeId) (now1 now2 : ℚ) :
    (processOnFuseEvent g s source newNode now1 now2).currentControllerStatus = s.currentControllerStatus := by
  unfold processOnFuseEvent
  simp only [notifyOnFuseEvent, notifyNodeIfDelegate, notifyDelegates, emit]
  split_ifs <;> split <;> (try split_ifs) <;> simp

/-- `processOnFuseEvent` does not write `hitResult`. -/
@[simp] theorem processOnFuseEvent_hitResult (g : SceneGraph) (s : VROInputControllerBase)
    (source : Int) (newNode : Option NodeId) (now1 now2 : ℚ) :
    (processOnFuseEvent g s source newNode now1 now2).hitResult = s.hitResult := by
  unfold processOnFuseEvent
  simp only [notifyOnFuseEvent, notifyNodeIfDelegate, notifyDelegates, emit]
  split_ifs <;> split <;> (try split_ifs) <;> simp

/-- `processOnFuseEvent` does not write `delegates`. -/
@[simp] theorem processOnFuseEvent_delegates (g : SceneGraph) (s : VROInputControllerBase)
    (source : Int) (newNode : Option NodeId) (now1 now2 : ℚ) :
    (processOnFuseEvent g s source newNode now1 now2).delegates = s.delegates := by
  unfold processOnFuseEvent
  simp only [notifyOnFuseEvent, notifyNodeIfDelegate, notifyDelegates, emit]
  split_ifs <;> split <;> (try split_ifs) <;> simp

/-- `processOnFuseEvent` does not write `nodePosition`. -/
@[simp] theorem processOnFuseEvent_nodePosition (g : SceneGraph) (s : VROInputControllerBase)
    (source : Int) (newNode : Option NodeId) (now1 now2 : ℚ) :
    (processOnFuseEvent g s source newNode now1 now2).nodePosition = s.nodePosition := by
  unfold processOnFuseEvent
  simp only [notifyOnFuseEvent, notifyNodeIfDelegate, notifyDelegates, emit]
  split_ifs <;> split <;> (try split_ifs) <;> simp

/-- `processOnFuseEvent` does not write `nodeIsBeingDragged`. -/
@[simp] theorem processOnFuseEvent_nodeIsBeingDragged (g : SceneGraph) (s : VROInputControllerBase)
    (source : Int) (newNode : Option NodeId) (now1 now2 : ℚ) :
    (processOnFuseEvent g s source newNode now1 now2).nodeIsBeingDragged = s.nodeIsBeingDragged := by
  unfold processOnFuseEvent
  simp only [notifyOnFuseEvent, notifyNodeIfDelegate, notifyDelegates, emit]
  split_ifs <;> split <;> (try split_ifs) <;> simp

/-- `processGazeEvent` does not write `lastKnownPosition`. -/
@[simp] theorem processGazeEvent_lastKnownPosition (g : SceneGraph) (s : VROInputControllerBase)
    (hit : VROHitTestResult) (source : Int) (newNode : Option NodeId) :
    (processGazeEvent g s hit source newNode).lastKnownPosition = s.lastKnownPosition := by
  unfold processGazeEvent
  simp only [notifyNodeIfDelegate, emit]
  split_ifs <;> simp

/-- `processGazeEvent` does not write `lastKnownForward`. -/
@[simp] theorem processGazeEvent_lastKnownForward (g : SceneGraph) (s : VROInputControllerBase)
    (hit : VROHitTestResult) (source : Int) (newNode : Option NodeId) :
    (processGazeEvent g s hit source newNode).lastKnownForward = s.lastKnownForward := by
  unfold processGazeEvent
  simp only [notifyNodeIfDelegate, emit]
  split_ifs <;> simp

/-- `processGazeEvent` does not write `lastKnownRotation`. -/
@[simp] theorem processGazeEvent_lastKnownRotation (g : SceneGraph) (s : VROInputControllerBase)
    (hit : VROHitTestResult) (source : Int) (newNode : Option NodeId) :
    (processGazeEvent g s hit source newNode).lastKnownRotation = s.lastKnownRotation := by
  unfold processGazeEvent
  simp only [notifyNodeIfDelegate, emit]
  split_ifs <;> simp

/-- `processGazeEvent` does not write `lastDraggedNodePosition`. -/
@[simp] theorem processGazeEvent_lastDraggedNodePosition (g : SceneGraph) (s : VROInputControllerBase)
    (hit : VROHitTestResult) (source : Int) (newNode : Option NodeId) :
    (processGazeEvent g s hit source newNode).lastDraggedNodePosition = s.lastDraggedNodePosition := by
  unfold processGazeEvent
  simp only [notifyNodeIfDelegate, emit]
  split_ifs <;> simp

/-- `processGazeEvent` does not write `lastTouchedPosition`. -/
@[simp] theorem processGazeEvent_lastTouchedPosition (g : SceneGraph) (s : VROInputControllerBase)
    (hit : VROHitTestResult) (source : Int) (newNode : Option NodeId) :
    (processGazeEvent g s hit source newNode).lastTouchedPosition = s.lastTouchedPosition := by
  unfold processGazeEvent
  simp only [notifyNodeIfDelegate, emit]
  split_ifs <;> simp

/-- `processGazeEvent` does not write `lastClickedNode`. -/
@[simp] theorem processGazeEvent_lastClickedNode (g : SceneGraph) (s : VROInputControllerBase)
    (hit : VROHitTestResult) (source : Int) (newNode : Option NodeId) :
    (processGazeEvent g s hit source newNode).lastClickedNode = s.lastClickedNode := by
  unfold processGazeEvent
  simp only [notifyNodeIfDelegate, emit]
  split_ifs <;> simp

/-- `processGazeEvent` does not write `lastDraggedNode`. -/
@[simp] theorem processGazeEvent_lastDraggedNode (g : SceneGraph) (s : VROInputControllerBase)
    (hit : VROHitTestResult) (source : Int) (newNode : Option NodeId) :
    (processGazeEvent g s hit source newNode).lastDraggedNode = s.lastDraggedNode := by
  unfold processGazeEvent
  simp only [notifyNodeIfDelegate, emit]
  split_ifs <;> simp

/-- `processGazeEvent` does not write `currentPinchedNode`. -/
@[simp] theorem processGazeEvent_currentPinchedNode (g : SceneGraph) (s : VROInputControllerBase)
    (hit : VROHitTestResult) (source : Int) (newNode : Option NodeId) :
    (processGazeEvent g s hit source newNode).currentPinchedNode = s.currentPinchedNode := by
  unfold processGazeEvent
  simp only [notifyNodeIfDelegate, emit]
  split_ifs <;> simp

/-- `processGazeEvent` does not write `currentRotateNode`. -/
@[simp] theorem processGazeEvent_currentRotateNode (g : SceneGraph) (s : VROInputControllerBase)
    (hit : VROHitTestResult) (source : Int) (newNode : Option NodeId) :
    (processGazeEvent g s hit source newNode).currentRotateNode = s.currentRotateNode := by
  unfold processGazeEvent
  simp only [notifyNodeIfDelegate, emit]
  split_ifs <;> simp

/-- `processGazeEvent` does not write `currentFusedNode`. -/
@[simp] theorem processGazeEvent_currentFusedNode (g : SceneGraph) (s : VROInputControllerBase)
    (hit : VROHitTestResult) (source : Int) (newNode : Option NodeId) :
    (processGazeEvent g s hit source newNode).currentFusedNode = s.currentFusedNode := by
  unfold processGazeEvent
  simp only [notifyNodeIfDelegate, emit]
  split_ifs <;> simp

/-- `processGazeEvent` does not write `lastPinchScale`. -/
@[simp] theorem processGazeEvent_lastPinchScale (g : SceneGraph) (s : VROInputControllerBase)
    (hit : VROHitTestResult) (source : Int) (newNode : Option NodeId) :
    (processGazeEvent g s hit source newNode).lastPinchScale = s.lastPinchScale := by
  unfold processGazeEvent
  simp only [notifyNodeIfDelegate, emit]
  split_ifs <;> simp

/-- `processGazeEvent` does not write `lastRotation`. -/
@[simp] theorem processGazeEvent_lastRotation (g : SceneGraph) (s : VROInputControllerBase)
    (hit : VROHitTestResult) (source : Int) (newNode : Option NodeId) :
    (processGazeEvent g s hit source newNode).lastRotation = s.lastRotation := by
  unfold processGazeEvent
  simp only [notifyNodeIfDelegate, emit]
  split_ifs <;> simp

/-- `processGazeEvent` does not write `fuseTriggerAtMillis`. -/
@[simp] theorem processGazeEvent_fuseTriggerAtMillis (g : SceneGraph) (s : VROInputControllerBase)
    (hit : VROHitTestResult) (source : Int) (newNode : Option NodeId) :
    (processGazeEvent g s hit source newNode).fuseTriggerAtMillis = s.fuseTriggerAtMillis := by
  unfold processGazeEvent
  simp only [notifyNodeIfDelegate, emit]
  split_ifs <;> simp

/-- `processGazeEvent` does not write `haveNotifiedOnFuseTriggered`. -/
@[simp] theorem processGazeEvent_haveNotifiedOnFuseTriggered (g : SceneGraph) (s : VROInputControllerBase)
    (hit : VROHitTestResult) (source : Int) (newNode : Option NodeId) :
    (processGazeEvent g s hit source newNode).haveNotifiedOnFuseTriggered = s.haveNotifiedOnFuseTriggered := by
  unfold processGazeEvent
  simp only [notifyNodeIfDelegate, emit]
  split_ifs <;> simp

/-- `processGazeEvent` does not write `currentControllerStatus`. -/
@[simp] theorem processGazeEvent_currentControllerStatus (g : SceneGraph) (s : VROInputControllerBase)
    (hit : VROHitTestResult) (source : Int) (newNode : Option NodeId) :
    (processGazeEvent g s hit source newNode).currentControllerStatus = s.currentControllerStatus := by
  unfold processGazeEvent
  simp only [notifyNodeIfDelegate, emit]
  split_ifs <;> simp

/-- `processGazeEvent` does not write `hitResult`. -/
@[simp] theorem processGazeEvent_hitResult (g : SceneGraph) (s : VROInputControllerBase)
    (hit : VROHitTestResult) (source : Int) (newNode : Option NodeId) :
    (processGazeEvent g s hit source newNode).hitResult = s.hitResult := by
  unfold processGazeEvent
  simp only [notifyNodeIfDelegate, emit]
  split_ifs <;> simp

/-- `processGazeEvent` does not write `delegates`. -/
@[simp] theorem processGazeEvent_delegates (g : SceneGraph) (s : VROInputControllerBase)
    (hit : VROHitTestResult) (source : Int) (newNode : Option NodeId) :
    (processGazeEvent g s hit source newNode).delegates = s.delegates := by
  unfold processGazeEvent
  simp only [notifyNodeIfDelegate, emit]
  split_ifs <;> simp

/-- `processGazeEvent` does not write `nodePosition`. -/
@[simp] theorem processGazeEvent_nodePosition (g : SceneGraph) (s : VROInputControllerBase)
    (hit : VROHitTestResult) (source : Int) (newNode : Option NodeId) :
    (processGazeEvent g s hit source newNode).nodePosition = s.nodePosition := by
  unfold processGazeEvent
  simp only [notifyNodeIfDelegate, emit]
  split_ifs <;> simp

/-- `processGazeEvent` does not write `nodeIsBeingDragged`. -/
@[simp] theorem processGazeEvent_nodeIsBeingDragged (g : SceneGraph) (s : VROInputControllerBase)
    (hit : VROHitTestResult) (source : Int) (newNode : Option NodeId) :
    (processGazeEvent g s hit source newNode).nodeIsBeingDragged = s.nodeIsBeingDragged := by
  unfold processGazeEvent
  simp only [notifyNodeIfDelegate, emit]
  split_ifs <;> simp

/-- After `processGazeEvent` the remembered hovered node is the node passed in. -/
@[simp] theorem processGazeEvent_lastHoveredNode (g : SceneGraph) (s : VROInputControllerBase)
    (hit : VROHitTestResult) (source : Int) (newNode : Option NodeId) :
    (processGazeEvent g s hit source newNode).lastHoveredNode = newNode := by
  unfold processGazeEvent
  simp only [notifyNodeIfDelegate, emit]
  split_ifs with h <;> simp [h]

/-- `processOnFuseEvent` delivers no `onDrag` and no `onHover`. -/
theorem processOnFuseEvent_log (g : SceneGraph) (s : VROInputControllerBase) (source : Int)
    (newNode : Option NodeId) (now1 now2 : ℚ) :
    (processOnFuseEvent g s source newNode now1 now2).log.filter isDrag = s.log.filter isDrag ∧
    (processOnFuseEvent g s source newNode now1 now2).log.filter isHover
      = s.log.filter isHover := by
  unfold processOnFuseEvent
  simp only [notifyOnFuseEvent, notifyNodeIfDelegate, notifyDelegates, emit]
  split_ifs <;> split <;> (try split_ifs) <;>
    simp [List.filter_append, filter_toDelegates, filter_toNodeIfDelegate, isDrag, isHover]

/-- `processGazeEvent` delivers no `onDrag` and no fuse ratio. -/
theorem processGazeEvent_log (g : SceneGraph) (s : VROInputControllerBase)
    (hit : VROHitTestResult) (source : Int) (newNode : Option NodeId) (m : NodeId) :
    (processGazeEvent g s hit source newNode).log.filter isDrag = s.log.filter isDrag ∧
    fuseRatiosTo m (processGazeEvent g s hit source newNode).log = fuseRatiosTo m s.log := by
  unfold processGazeEvent
  simp only [notifyNodeIfDelegate, emit]
  split_ifs <;>
    simp [List.filter_append, filter_toNodeIfDelegate, isDrag, fuseRatiosTo,
      List.filterMap_append, filterMap_toNodeIfDelegate, fuseRatioTo]

/-- What `processDragging` does: the dragged node is moved to the projected location; below
the threshold nothing else changes, otherwise the location is remembered and `onDrag` goes to
the delegate of the node and to every listener. -/
theorem processDragging_eq (env : ControllerEnv) (g : SceneGraph) (s : VROInputControllerBase)
    (d : VRODraggedObject) (source : Int) :
    processDragging env g s d source =
      if env.distance (draggedToLocation s.lastKnownPosition s.lastKnownForward d)
          s.lastDraggedNodePosition < env.ON_DRAG_DISTANCE_THRESHOLD then
        { s with
          nodePosition := Function.update s.nodePosition d.draggedNode
            (draggedToLocation s.lastKnownPosition s.lastKnownForward d) }
      else
        { s with
          nodePosition := Function.update s.nodePosition d.draggedNode
            (draggedToLocation s.lastKnownPosition s.lastKnownForward d)
          lastDraggedNodePosition := draggedToLocation s.lastKnownPosition s.lastKnownForward d
          log := s.log ++
            (toNodeIfDelegate g (some d.draggedNode)
                (Event.onDrag source (draggedToLocation s.lastKnownPosition s.lastKnownForward d)) ++
              s.toDelegates
                (Event.onDrag source
                  (draggedToLocation s.lastKnownPosition s.lastKnownForward d))) } := by
  unfold processDragging
  simp only [notifyNodeIfDelegate, notifyDelegates, emit, toDelegates]
  split_ifs <;> simp

/-- With a hit result cached, `onMove` is the drag step applied to `onMoveBeforeDrag`. -/
theorem onMove_of_hit (env : ControllerEnv) (g : SceneGraph) (s : VROInputControllerBase)
    (hit : VROHitTestResult) (source : Int) (position : VROVector3f) (rotation : VROQuaternion)
    (forward : VROVector3f) (now1 now2 : ℚ) (hhit : s.hitResult = some hit) :
    s.onMove env g source position rotation forward now1 now2 =
      match (onMoveBeforeDrag env g s hit source position rotation forward now1 now2).lastDraggedNode with
      | none => onMoveBeforeDrag env g s hit source position rotation forward now1 now2
      | some d =>
        if (onMoveBeforeDrag env g s hit source position rotation forward now1 now2).currentPinchedNode
              = none ∧
            (onMoveBeforeDrag env g s hit source position rotation forward now1 now2).currentRotateNode
              = none then
          processDragging env g
            (onMoveBeforeDrag env g s hit source position rotation forward now1 now2) d source
        else onMoveBeforeDrag env g s hit source position rotation forward now1 now2 := by
  unfold onMove onMoveBeforeDrag
  simp only [hhit]

/-- Without a hit result, `onMove` only stores the pose. -/
theorem onMove_of_no_hit (env : ControllerEnv) (g : SceneGraph) (s : VROInputControllerBase)
    (source : Int) (position : VROVector3f) (rotation : VROQuaternion)
    (forward : VROVector3f) (now1 now2 : ℚ) (hhit : s.hitResult = none) :
    s.onMove env g source position rotation forward now1 now2 =
      { s with
        lastKnownRotation := rotation
        lastKnownPosition := position
        lastKnownForward := forward } := by
  unfold onMove
  simp only [hhit]

/-! ### The state before the drag step of `onMove` -/

/-- `onMove` does not write `lastDraggedNodePosition` before its drag step. -/
@[simp] theorem onMoveBeforeDrag_lastDraggedNodePosition (env : ControllerEnv) (g : SceneGraph)
    (s : VROInputControllerBase) (hit : VROHitTestResult) (source : Int)
    (position : VROVector3f) (rotation : VROQuaternion) (forward : VROVector3f)
    (now1 now2 : ℚ) :
    (onMoveBeforeDrag env g s hit source position rotation forward now1 now2).lastDraggedNodePosition = s.lastDraggedNodePosition := by
  simp [onMoveBeforeDrag, notifyFocused, emit]

/-- `onMove` does not write `lastTouchedPosition` before its drag step. -/
@[simp] theorem onMoveBeforeDrag_lastTouchedPosition (env : ControllerEnv) (g : SceneGraph)
    (s : VROInputControllerBase) (hit : VROHitTestResult) (source : Int)
    (position : VROVector3f) (rotation : VROQuaternion) (forward : VROVector3f)
    (now1 now2 : ℚ) :
    (onMoveBeforeDrag env g s hit source position rotation forward now1 now2).lastTouchedPosition = s.lastTouchedPosition := by
  simp [onMoveBeforeDrag, notifyFocused, emit]

/-- `onMove` does not write `lastClickedNode` before its drag step. -/
@[simp] theorem onMoveBeforeDrag_lastClickedNode (env : ControllerEnv) (g : SceneGraph)
    (s : VROInputControllerBase) (hit : VROHitTestResult) (source : Int)
    (position : VROVector3f) (rotation : VROQuaternion) (forward : VROVector3f)
    (now1 now2 : ℚ) :
    (onMoveBeforeDrag env g s hit source position rotation forward now1 now2).lastClickedNode = s.lastClickedNode := by
  simp [onMoveBeforeDrag, notifyFocused, emit]

/-- `onMove` does not write `lastDraggedNode` before its drag step. -/
@[simp] theorem onMoveBeforeDrag_lastDraggedNode (env : ControllerEnv) (g : SceneGraph)
    (s : VROInputControllerBase) (hit : VROHitTestResult) (source : Int)
    (position : VROVector3f) (rotation : VROQuaternion) (forward : VROVector3f)
    (now1 now2 : ℚ) :
    (onMoveBeforeDrag env g s hit source position rotation forward now1 now2).lastDraggedNode = s.lastDraggedNode := by
  simp [onMoveBeforeDrag, notifyFocused, emit]

/-- `onMove` does not write `currentPinchedNode` before its drag step. -/
@[simp] theorem onMoveBeforeDrag_currentPinchedNode (env : ControllerEnv) (g : SceneGraph)
    (s : VROInputControllerBase) (hit : VROHitTestResult) (source : Int)
    (position : VROVector3f) (rotation : VROQuaternion) (forward : VROVector3f)
    (now1 now2 : ℚ) :
    (onMoveBeforeDrag env g s hit source position rotation forward now1 now2).currentPinchedNode = s.currentPinchedNode := by
  simp [onMoveBeforeDrag, notifyFocused, emit]

/-- `onMove` does not write `currentRotateNode` before its drag step. -/
@[simp] theorem onMoveBeforeDrag_currentRotateNode (env : ControllerEnv) (g : SceneGraph)
    (s : VROInputControllerBase) (hit : VROHitTestResult) (source : Int)
    (position : VROVector3f) (rotation : VROQuaternion) (forward : VROVector3f)
    (now1 now2 : ℚ) :
    (onMoveBeforeDrag env g s hit source position rotation forward now1 now2).currentRotateNode = s.currentRotateNode := by
  simp [onMoveBeforeDrag, notifyFocused, emit]

/-- `onMove` does not write `lastPinchScale` before its drag step. -/
@[simp] theorem onMoveBeforeDrag_lastPinchScale (env : ControllerEnv) (g : SceneGraph)
    (s : VROInputControllerBase) (hit : VROHitTestResult) (source : Int)
    (position : VROVector3f) (rotation : VROQuaternion) (forward : VROVector3f)
    (now1 now2 : ℚ) :
    (onMoveBeforeDrag env g s hit source position rotation forward now1 now2).lastPinchScale = s.lastPinchScale := by
  simp [onMoveBeforeDrag, notifyFocused, emit]

/-- `onMove` does not write `lastRotation` before its drag step. -/
@[simp] theorem onMoveBeforeDrag_lastRotation (env : ControllerEnv) (g : SceneGraph)
    (s : VROInputControllerBase) (hit : VROHitTestResult) (source : Int)
    (position : VROVector3f) (rotation : VROQuaternion) (forward : VROVector3f)
    (now1 now2 : ℚ) :
    (onMoveBeforeDrag env g s hit source position rotation forward now1 now2).lastRotation = s.lastRotation := by
  simp [onMoveBeforeDrag, notifyFocused, emit]

/-- `onMove` does not write `currentControllerStatus` before its drag step. -/
@[simp] theorem onMoveBeforeDrag_currentControllerStatus (env : ControllerEnv) (g : SceneGraph)
    (s : VROInputControllerBase) (hit : VROHitTestResult) (source : Int)
    (position : VROVector3f) (rotation : VROQuaternion) (forward : VROVector3f)
    (now1 now2 : ℚ) :
    (onMoveBeforeDrag env g s hit source position rotation forward now1 now2).currentControllerStatus = s.currentControllerStatus := by
  simp [onMoveBeforeDrag, notifyFocused, emit]

/-- `onMove` does not write `hitResult` before its drag step. -/
@[simp] theorem onMoveBeforeDrag_hitResult (env : ControllerEnv) (g : SceneGraph)
    (s : VROInputControllerBase) (hit : VROHitTestResult) (source : Int)
    (position : VROVector3f) (rotation : VROQuaternion) (forward : VROVector3f)
    (now1 now2 : ℚ) :
    (onMoveBeforeDrag env g s hit source position rotation forward now1 now2).hitResult = s.hitResult := by
  simp [onMoveBeforeDrag, notifyFocused, emit]

/-- `onMove` does not write `delegates` before its drag step. -/
@[simp] theorem onMoveBeforeDrag_delegates (env : ControllerEnv) (g : SceneGraph)
    (s : VROInputControllerBase) (hit : VROHitTestResult) (source : Int)
    (position : VROVector3f) (rotation : VROQuaternion) (forward : VROVector3f)
    (now1 now2 : ℚ) :
    (onMoveBeforeDrag env g s hit source position rotation forward now1 now2).delegates = s.delegates := by
  simp [onMoveBeforeDrag, notifyFocused, emit]

/-- `onMove` does not write `nodePosition` before its drag step. -/
@[simp] theorem onMoveBeforeDrag_nodePosition (env : ControllerEnv) (g : SceneGraph)
    (s : VROInputControllerBase) (hit : VROHitTestResult) (source : Int)
    (position : VROVector3f) (rotation : VROQuaternion) (forward : VROVector3f)
    (now1 now2 : ℚ) :
    (onMoveBeforeDrag env g s hit source position rotation forward now1 now2).nodePosition = s.nodePosition := by
  simp [onMoveBeforeDrag, notifyFocused, emit]

/-- `onMove` does not write `nodeIsBeingDragged` before its drag step. -/
@[simp] theorem onMoveBeforeDrag_nodeIsBeingDragged (env : ControllerEnv) (g : SceneGraph)
    (s : VROInputControllerBase) (hit : VROHitTestResult) (source : Int)
    (position : VROVector3f) (rotation : VROQuaternion) (forward : VROVector3f)
    (now1 now2 : ℚ) :
    (onMoveBeforeDrag env g s hit source position rotation forward now1 now2).nodeIsBeingDragged = s.nodeIsBeingDragged := by
  simp [onMoveBeforeDrag, notifyFocused, emit]

/-- The position `onMove` stores. -/
@[simp] theorem onMoveBeforeDrag_lastKnownPosition (env : ControllerEnv) (g : SceneGraph)
    (s : VROInputControllerBase) (hit : VROHitTestResult) (source : Int)
    (position : VROVector3f) (rotation : VROQuaternion) (forward : VROVector3f)
    (now1 now2 : ℚ) :
    (onMoveBeforeDrag env g s hit source position rotation forward now1 now2).lastKnownPosition
      = position := by
  simp [onMoveBeforeDrag, notifyFocused, emit]

/-- The forward vector `onMove` stores. -/
@[simp] theorem onMoveBeforeDrag_lastKnownForward (env : ControllerEnv) (g : SceneGraph)
    (s : VROInputControllerBase) (hit : VROHitTestResult) (source : Int)
    (position : VROVector3f) (rotation : VROQuaternion) (forward : VROVector3f)
    (now1 now2 : ℚ) :
    (onMoveBeforeDrag env g s hit source position rotation forward now1 now2).lastKnownForward
      = forward := by
  simp [onMoveBeforeDrag, notifyFocused, emit]

/-- After the hover step of `onMove` the remembered hovered node is the resolved one. -/
@[simp] theorem onMoveBeforeDrag_lastHoveredNode (env : ControllerEnv) (g : SceneGraph)
    (s : VROInputControllerBase) (hit : VROHitTestResult) (source : Int)
    (position : VROVector3f) (rotation : VROQuaternion) (forward : VROVector3f)
    (now1 now2 : ℚ) :
    (onMoveBeforeDrag env g s hit source position rotation forward now1 now2).lastHoveredNode
      = getNodeToHandleEvent g EventAction.OnHover (some hit.node) := by
  simp [onMoveBeforeDrag, notifyFocused, emit]

/-- `onMove` delivers no `onDrag` before its drag step. -/
@[simp] theorem onMoveBeforeDrag_drags (env : ControllerEnv) (g : SceneGraph)
    (s : VROInputControllerBase) (hit : VROHitTestResult) (source : Int)
    (position : VROVector3f) (rotation : VROQuaternion) (forward : VROVector3f)
    (now1 now2 : ℚ) :
    (onMoveBeforeDrag env g s hit source position rotation forward now1 now2).log.filter isDrag
      = s.log.filter isDrag := by
  simp only [onMoveBeforeDrag, notifyFocused, emit, List.filter_append,
    (processGazeEvent_log _ _ _ _ _ 0).1, (processOnFuseEvent_log _ _ _ _ _ _).1]
  rw [filter_toFocused _ _ _ (by intro t; rfl)]
  simp only [List.append_nil, List.append_right_eq_self, List.filter_eq_nil_iff,
    List.mem_flatMap]
  rintro a ⟨x, -, hx⟩
  simp only [List.mem_cons, List.mem_singleton, List.not_mem_nil, or_false] at hx
  rcases hx with rfl | rfl <;> simp [isDrag]

/-- With a hit result cached, a drag snapshot and no pinch or rotate, `onMove` ends with
`processDragging`. -/
theorem onMove_dragging (env : ControllerEnv) (g : SceneGraph) (s : VROInputControllerBase)
    (hit : VROHitTestResult) (d : VRODraggedObject) (source : Int) (position : VROVector3f)
    (rotation : VROQuaternion) (forward : VROVector3f) (now1 now2 : ℚ)
    (hhit : s.hitResult = some hit) (hd : s.lastDraggedNode = some d)
    (hp : s.currentPinchedNode = none) (hr : s.currentRotateNode = none) :
    s.onMove env g source position rotation forward now1 now2 =
      processDragging env g
        (onMoveBeforeDrag env g s hit source position rotation forward now1 now2) d source := by
  rw [onMove_of_hit env g s hit source position rotation forward now1 now2 hhit]
  simp [hd, hp, hr]

/-! ### The hit result and the click and drag members under the input handlers -/

/-- `onButtonEvent` does not write the hit result. -/
@[simp] theorem onButtonEvent_hitResult (env : ControllerEnv) (g : SceneGraph)
    (s : VROInputControllerBase) (source : Int) (clickState : ClickState)
    (forwardOffset : VROVector3f) :
    (s.onButtonEvent env g source clickState forwardOffset).hitResult = s.hitResult := by
  unfold onButtonEvent
  simp only [notifyFocused, notifyDelegates, notifyNodeIfDelegate, emit]
  repeat' split
  all_goals simp_all

/-- `onTouchpadEvent` does not write `hitResult`. -/
@[simp] theorem onTouchpadEvent_hitResult (env : ControllerEnv) (g : SceneGraph) (s : VROInputControllerBase)
    (source : Int) (touchState : TouchState) (posX posY : ℚ) :
    (s.onTouchpadEvent env g source touchState posX posY).hitResult = s.hitResult := by
  unfold onTouchpadEvent
  simp only [notify, notifyFocused, notifyDelegates, notifyNodeIfDelegate, emit]
  repeat' split
  all_goals simp_all

/-- `onTouchpadEvent` does not write `lastClickedNode`. -/
@[simp] theorem onTouchpadEvent_lastClickedNode (env : ControllerEnv) (g : SceneGraph) (s : VROInputControllerBase)
    (source : Int) (touchState : TouchState) (posX posY : ℚ) :
    (s.onTouchpadEvent env g source touchState posX posY).lastClickedNode = s.lastClickedNode := by
  unfold onTouchpadEvent
  simp only [notify, notifyFocused, notifyDelegates, notifyNodeIfDelegate, emit]
  repeat' split
  all_goals simp_all

/-- `onTouchpadEvent` does not write `lastDraggedNode`. -/
@[simp] theorem onTouchpadEvent_lastDraggedNode (env : ControllerEnv) (g : SceneGraph) (s : VROInputControllerBase)
    (source : Int) (touchState : TouchState) (posX posY : ℚ) :
    (s.onTouchpadEvent env g source touchState posX posY).lastDraggedNode = s.lastDraggedNode := by
  unfold onTouchpadEvent
  simp only [notify, notifyFocused, notifyDelegates, notifyNodeIfDelegate, emit]
  repeat' split
  all_goals simp_all

/-- `onPinch` does not write `hitResult`. -/
@[simp] theorem onPinch_hitResult (env : ControllerEnv) (g : SceneGraph) (s : VROInputControllerBase)
    (source : Int) (scaleFactor : ℚ) (pinchState : PinchState) :
    (s.onPinch env g source scaleFactor pinchState).hitResult = s.hitResult := by
  cases pinchState <;> cases hh : s.hitResult <;> simp [onPinch, notify, emit, hh, apply_ite] <;>
    (repeat' split) <;> simp_all

/-- `onPinch` does not write `lastClickedNode`. -/
@[simp] theorem onPinch_lastClickedNode (env : ControllerEnv) (g : SceneGraph) (s : VROInputControllerBase)
    (source : Int) (scaleFactor : ℚ) (pinchState : PinchState) :
    (s.onPinch env g source scaleFactor pinchState).lastClickedNode = s.lastClickedNode := by
  cases pinchState <;> cases hh : s.hitResult <;> simp [onPinch, notify, emit, hh, apply_ite] <;>
    (repeat' split) <;> simp_all

/-- `onPinch` does not write `lastDraggedNode`. -/
@[simp] theorem onPinch_lastDraggedNode (env : ControllerEnv) (g : SceneGraph) (s : VROInputControllerBase)
    (source : Int) (scaleFactor : ℚ) (pinchState : PinchState) :
    (s.onPinch env g source scaleFactor pinchState).lastDraggedNode = s.lastDraggedNode := by
  cases pinchState <;> cases hh : s.hitResult <;> simp [onPinch, notify, emit, hh, apply_ite] <;>
    (repeat' split) <;> simp_all

/-- `onRotate` does not write `hitResult`. -/
@[simp] theorem onRotate_hitResult (env : ControllerEnv) (g : SceneGraph) (s : VROInputControllerBase)
    (source : Int) (rotationFactor : ℚ) (rotateState : RotateState) :
    (s.onRotate env g source rotationFactor rotateState).hitResult = s.hitResult := by
  cases rotateState <;> cases hh : s.hitResult <;> simp [onRotate, notify, emit, hh, apply_ite] <;>
    (repeat' split) <;> simp_all

/-- `onRotate` does not write `lastClickedNode`. -/
@[simp] theorem onRotate_lastClickedNode (env : ControllerEnv) (g : SceneGraph) (s : VROInputControllerBase)
    (source : Int) (rotationFactor : ℚ) (rotateState : RotateState) :
    (s.onRotate env g source rotationFactor rotateState).lastClickedNode = s.lastClickedNode := by
  cases rotateState <;> cases hh : s.hitResult <;> simp [onRotate, notify, emit, hh, apply_ite] <;>
    (repeat' split) <;> simp_all

/-- `onRotate` does not write `lastDraggedNode`. -/
@[simp] theorem onRotate_lastDraggedNode (env : ControllerEnv) (g : SceneGraph) (s : VROInputControllerBase)
    (source : Int) (rotationFactor : ℚ) (rotateState : RotateState) :
    (s.onRotate env g source rotationFactor rotateState).lastDraggedNode = s.lastDraggedNode := by
  cases rotateState <;> cases hh : s.hitResult <;> simp [onRotate, notify, emit, hh, apply_ite] <;>
    (repeat' split) <;> simp_all

/-- `onControllerStatus` does not write `hitResult`. -/
@[simp] theorem onControllerStatus_hitResult (g : SceneGraph) (s : VROInputControllerBase) (source : Int)
    (status : ControllerStatus) :
    (s.onControllerStatus g source status).hitResult = s.hitResult := by
  unfold onControllerStatus
  simp only [notify, notifyFocused, notifyDelegates, notifyNodeIfDelegate, emit]
  repeat' split
  all_goals simp_all

/-- `onControllerStatus` does not write `lastClickedNode`. -/
@[simp] theorem onControllerStatus_lastClickedNode (g : SceneGraph) (s : VROInputControllerBase) (source : Int)
    (status : ControllerStatus) :
    (s.onControllerStatus g source status).lastClickedNode = s.lastClickedNode := by
  unfold onControllerStatus
  simp only [notify, notifyFocused, notifyDelegates, notifyNodeIfDelegate, emit]
  repeat' split
  all_goals simp_all

/-- `onControllerStatus` does not write `lastDraggedNode`. -/
@[simp] theorem onControllerStatus_lastDraggedNode (g : SceneGraph) (s : VROInputControllerBase) (source : Int)
    (status : ControllerStatus) :
    (s.onControllerStatus g source status).lastDraggedNode = s.lastDraggedNode := by
  unfold onControllerStatus
  simp only [notify, notifyFocused, notifyDelegates, notifyNodeIfDelegate, emit]
  repeat' split
  all_goals simp_all

/-- `onSwipe` does not write `hitResult`. -/
@[simp] theorem onSwipe_hitResult (g : SceneGraph) (s : VROInputControllerBase) (source : Int)
    (swipeState : SwipeState) :
    (s.onSwipe g source swipeState).hitResult = s.hitResult := by
  unfold onSwipe
  simp only [notify, notifyFocused, notifyDelegates, notifyNodeIfDelegate, emit]
  repeat' split
  all_goals simp_all

/-- `onSwipe` does not write `lastClickedNode`. -/
@[simp] theorem onSwipe_lastClickedNode (g : SceneGraph) (s : VROInputControllerBase) (source : Int)
    (swipeState : SwipeState) :
    (s.onSwipe g source swipeState).lastClickedNode = s.lastClickedNode := by
  unfold onSwipe
  simp only [notify, notifyFocused, notifyDelegates, notifyNodeIfDelegate, emit]
  repeat' split
  all_goals simp_all

/-- `onSwipe` does not write `lastDraggedNode`. -/
@[simp] theorem onSwipe_lastDraggedNode (g : SceneGraph) (s : VROInputControllerBase) (source : Int)
    (swipeState : SwipeState) :
    (s.onSwipe g source swipeState).lastDraggedNode = s.lastDraggedNode := by
  unfold onSwipe
  simp only [notify, notifyFocused, notifyDelegates, notifyNodeIfDelegate, emit]
  repeat' split
  all_goals simp_all

/-- `onScroll` does not write `hitResult`. -/
@[simp] theorem onScroll_hitResult (g : SceneGraph) (s : VROInputControllerBase) (source : Int) (x y : ℚ) :
    (s.onScroll g source x y).hitResult = s.hitResult := by
  unfold onScroll
  simp only [notify, notifyFocused, notifyDelegates, notifyNodeIfDelegate, emit]
  repeat' split
  all_goals simp_all

/-- `onScroll` does not write `lastClickedNode`. -/
@[simp] theorem onScroll_lastClickedNode (g : SceneGraph) (s : VROInputControllerBase) (source : Int) (x y : ℚ) :
    (s.onScroll g source x y).lastClickedNode = s.lastClickedNode := by
  unfold onScroll
  simp only [notify, notifyFocused, notifyDelegates, notifyNodeIfDelegate, emit]
  repeat' split
  all_goals simp_all

/-- `onScroll` does not write `lastDraggedNode`. -/
@[simp] theorem onScroll_lastDraggedNode (g : SceneGraph) (s : VROInputControllerBase) (source : Int) (x y : ℚ) :
    (s.onScroll g source x y).lastDraggedNode = s.lastDraggedNode := by
  unfold onScroll
  simp only [notify, notifyFocused, notifyDelegates, notifyNodeIfDelegate, emit]
  repeat' split
  all_goals simp_all

/-- `updateHitNode` does not write `lastClickedNode`. -/
@[simp] theorem updateHitNode_lastClickedNode (env : ControllerEnv) (g : SceneGraph)
    (s : VROInputControllerBase) (scene : Option VROScene) (k : ℚ) (camera : VROCamera)
    (origin ray : VROVector3f) :
    (s.updateHitNode env g scene k camera origin ray).lastClickedNode = s.lastClickedNode := by
  unfold updateHitNode
  repeat' split
  all_goals simp_all

/-- `updateHitNode` does not write `lastDraggedNode`. -/
@[simp] theorem updateHitNode_lastDraggedNode (env : ControllerEnv) (g : SceneGraph)
    (s : VROInputControllerBase) (scene : Option VROScene) (k : ℚ) (camera : VROCamera)
    (origin ray : VROVector3f) :
    (s.updateHitNode env g scene k camera origin ray).lastDraggedNode = s.lastDraggedNode := by
  unfold updateHitNode
  repeat' split
  all_goals simp_all

/-- `onMove` does not write `hitResult`. -/
@[simp] theorem onMove_hitResult (env : ControllerEnv) (g : SceneGraph) (s : VROInputControllerBase)
    (source : Int) (position : VROVector3f) (rotation : VROQuaternion) (forward : VROVector3f)
    (now1 now2 : ℚ) :
    (s.onMove env g source position rotation forward now1 now2).hitResult = s.hitResult := by
  cases hh : s.hitResult with
  | none =>
    rw [onMove_of_no_hit env g s source position rotation forward now1 now2 hh]
    try simp [hh]
  | some hit =>
    rw [onMove_of_hit env g s hit source position rotation forward now1 now2 hh]
    split
    · simp [hh]
    · split_ifs
      · rw [processDragging_eq]
        split_ifs <;> simp [hh]
      · simp [hh]

/-- `onMove` does not write `lastClickedNode`. -/
@[simp] theorem onMove_lastClickedNode (env : ControllerEnv) (g : SceneGraph) (s : VROInputControllerBase)
    (source : Int) (position : VROVector3f) (rotation : VROQuaternion) (forward : VROVector3f)
    (now1 now2 : ℚ) :
    (s.onMove env g source position rotation forward now1 now2).lastClickedNode = s.lastClickedNode := by
  cases hh : s.hitResult with
  | none =>
    rw [onMove_of_no_hit env g s source position rotation forward now1 now2 hh]
    try simp [hh]
  | some hit =>
    rw [onMove_of_hit env g s hit source position rotation forward now1 now2 hh]
    split
    · simp [hh]
    · split_ifs
      · rw [processDragging_eq]
        split_ifs <;> simp [hh]
      · simp [hh]

/-- `onMove` does not write `lastDraggedNode`. -/
@[simp] theorem onMove_lastDraggedNode (env : ControllerEnv) (g : SceneGraph) (s : VROInputControllerBase)
    (source : Int) (position : VROVector3f) (rotation : VROQuaternion) (forward : VROVector3f)
    (now1 now2 : ℚ) :
    (s.onMove env g source position rotation forward now1 now2).lastDraggedNode = s.lastDraggedNode := by
  cases hh : s.hitResult with
  | none =>
    rw [onMove_of_no_hit env g s source position rotation forward now1 now2 hh]
    try simp [hh]
  | some hit =>
    rw [onMove_of_hit env g s hit source position rotation forward now1 now2 hh]
    split
    · simp [hh]
    · split_ifs
      · rw [processDragging_eq]
        split_ifs <;> simp [hh]
      · simp [hh]

/-- `onMove` does not write `currentPinchedNode`. -/
@[simp] theorem onMove_currentPinchedNode (env : ControllerEnv) (g : SceneGraph) (s : VROInputControllerBase)
    (source : Int) (position : VROVector3f) (rotation : VROQuaternion) (forward : VROVector3f)
    (now1 now2 : ℚ) :
    (s.onMove env g source position rotation forward now1 now2).currentPinchedNode = s.currentPinchedNode := by
  cases hh : s.hitResult with
  | none =>
    rw [onMove_of_no_hit env g s source position rotation forward now1 now2 hh]
    try simp [hh]
  | some hit =>
    rw [onMove_of_hit env g s hit source position rotation forward now1 now2 hh]
    split
    · simp [hh]
    · split_ifs
      · rw [processDragging_eq]
        split_ifs <;> simp [hh]
      · simp [hh]

/-- `onMove` does not write `currentRotateNode`. -/
@[simp] theorem onMove_currentRotateNode (env : ControllerEnv) (g : SceneGraph) (s : VROInputControllerBase)
    (source : Int) (position : VROVector3f) (rotation : VROQuaternion) (forward : VROVector3f)
    (now1 now2 : ℚ) :
    (s.onMove env g source position rotation forward now1 now2).currentRotateNode = s.currentRotateNode := by
  cases hh : s.hitResult with
  | none =>
    rw [onMove_of_no_hit env g s source position rotation forward now1 now2 hh]
    try simp [hh]
  | some hit =>
    rw [onMove_of_hit env g s hit source position rotation forward now1 now2 hh]
    split
    · simp [hh]
    · split_ifs
      · rw [processDragging_eq]
        split_ifs <;> simp [hh]
      · simp [hh]

/-- `onMove` does not write `delegates`. -/
@[simp] theorem onMove_delegates (env : ControllerEnv) (g : SceneGraph) (s : VROInputControllerBase)
    (source : Int) (position : VROVector3f) (rotation : VROQuaternion) (forward : VROVector3f)
    (now1 now2 : ℚ) :
    (s.onMove env g source position rotation forward now1 now2).delegates = s.delegates := by
  cases hh : s.hitResult with
  | none =>
    rw [onMove_of_no_hit env g s source position rotation forward now1 now2 hh]
    try simp [hh]
  | some hit =>
    rw [onMove_of_hit env g s hit source position rotation forward now1 now2 hh]
    split
    · simp [hh]
    · split_ifs
      · rw [processDragging_eq]
        split_ifs <;> simp [hh]
      · simp [hh]

/-- `updateHitNode` never removes a cached hit result. -/
theorem updateHitNode_hitResult_none (env : ControllerEnv) (g : SceneGraph)
    (s : VROInputControllerBase) (scene : Option VROScene) (k : ℚ) (camera : VROCamera)
    (origin ray : VROVector3f)
    (h : (s.updateHitNode env g scene k camera origin ray).hitResult = none) :
    s.hitResult = none := by
  unfold updateHitNode at h
  repeat' split at h
  all_goals simp_all

end VROInputControllerBase

/-- In every reachable state a recorded click-down node or a drag snapshot comes with a cached
hit result. -/
theorem Reachable.click_drag_need_hit {env : ControllerEnv} {s : VROInputControllerBase}
    (h : Reachable env s) :
    s.hitResult = none → s.lastClickedNode = none ∧ s.lastDraggedNode = none := by
  induction h with
  | construct => intro _; exact ⟨rfl, rfl⟩
  | listeners ds _ ih => exact ih
  | @onButtonEvent s g source clickState forwardOffset _ ih =>
    intro hnone
    rw [VROInputControllerBase.onButtonEvent_hitResult] at hnone
    have : s.onButtonEvent env g source clickState forwardOffset = s := by
      unfold VROInputControllerBase.onButtonEvent
      simp only [hnone]
    rw [this]
    exact ih hnone
  | onTouchpadEvent g source touchState x y _ ih => simpa using ih
  | onMove g source position rotation forward now1 now2 _ ih => simpa using ih
  | onPinch g source scaleFactor pinchState _ ih => simpa using ih
  | onRotate g source rotationFactor rotateState _ ih => simpa using ih
  | updateHitNode g scene k camera origin ray _ ih =>
    intro hnone
    simpa using ih (VROInputControllerBase.updateHitNode_hitResult_none _ _ _ _ _ _ _ _ hnone)
  | onControllerStatus g source status _ ih => simpa using ih
  | onSwipe g source swipeState _ ih => simpa using ih
  | onScroll g source x y _ ih => simpa using ih

/-! ## The sample states -/

/-- The distance of the sample environment between `(5, 0, 0)` and the origin is 5. -/
theorem euclidDistance_sample : euclidDistance ⟨5, 0, 0⟩ ⟨0, 0, 0⟩ = 5 := by
  have h : Nat.sqrt 25 = 5 := Nat.sqrt_eq 5
  have h1 : Nat.sqrt 1 = 1 := Nat.sqrt_eq 1
  have h2 : Int.toNat 25 = 25 := rfl
  simp only [euclidDistance, sqrtRat]
  norm_num [h, h1, h2]

/-- The hit cached in `sampleFocused`. -/
theorem sampleFocused_hitResult : sampleFocused.hitResult = some sampleHit := by
  simp [sampleFocused, sampleStart, VROInputControllerBase.updateHitNode,
    VROInputControllerBase.construct, hitTest, sampleSceneSingle, sampleEnv, firstAccepting,
    sampleGraph, sampleHit]

/-- In the sample graph the drag of a hit on node 1 is handled by node 1. -/
theorem sampleGraph_drag : getNodeToHandleEvent sampleGraph EventAction.OnDrag (some 1) = some 1 := by
  rw [getNodeToHandleEvent]
  simp [SceneGraph.handles, sampleGraph, sampleDelegate]

/-- A click-down on a hit whose drag is handled by node `A`: the snapshot is taken, the hit
node is recorded as clicked, `A` is marked as being dragged, and no `onDrag` is delivered. -/
theorem onButtonEvent_clickDown (env : ControllerEnv) (g : SceneGraph)
    (s : VROInputControllerBase) (hit : VROHitTestResult) (A : NodeId) (source : Int)
    (forwardOffset : VROVector3f) (hhit : s.hitResult = some hit)
    (hA : getNodeToHandleEvent g EventAction.OnDrag (some hit.node) = some A) :
    (s.onButtonEvent env g source ClickState.ClickDown forwardOffset).hitResult = some hit ∧
    (s.onButtonEvent env g source ClickState.ClickDown forwardOffset).lastDraggedNode
      = some (VROInputControllerBase.dragSnapshot env s hit A forwardOffset) ∧
    (s.onButtonEvent env g source ClickState.ClickDown forwardOffset).lastClickedNode
      = some hit.node ∧
    (s.onButtonEvent env g source ClickState.ClickDown forwardOffset).currentPinchedNode
      = s.currentPinchedNode ∧
    (s.onButtonEvent env g source ClickState.ClickDown forwardOffset).currentRotateNode
      = s.currentRotateNode ∧
    (s.onButtonEvent env g source ClickState.ClickDown forwardOffset).lastDraggedNodePosition
      = s.lastDraggedNodePosition ∧
    (s.onButtonEvent env g source ClickState.ClickDown forwardOffset).delegates = s.delegates ∧
    (s.onButtonEvent env g source ClickState.ClickDown forwardOffset).nodeIsBeingDragged A
      = true ∧
    (s.onButtonEvent env g source ClickState.ClickDown forwardOffset).log.filter isDrag
      = s.log.filter isDrag := by
  unfold VROInputControllerBase.onButtonEvent
  simp only [hhit, hA]
  simp [VROInputControllerBase.notifyFocused, VROInputControllerBase.notifyDelegates,
    VROInputControllerBase.emit, VROInputControllerBase.dragSnapshot, List.filter_append,
    VROInputControllerBase.filter_toDelegates, VROInputControllerBase.filter_toFocused, isDrag,
    hhit]

/-- The state of `sampleFocused`. -/
theorem sampleFocused_eq : sampleFocused = { sampleStart with hitResult := some sampleHit } := by
  have h := sampleFocused_hitResult
  simp only [sampleFocused, VROInputControllerBase.updateHitNode] at h ⊢
  simp only [sampleStart, VROInputControllerBase.construct, Option.isSome_none,
    Bool.false_eq_true, if_false] at h ⊢
  rw [Option.some.injEq] at h
  rw [h]

/-- The drag snapshot and the click state of `samplePressed`. -/
theorem samplePressed_state :
    samplePressed.hitResult = some sampleHit ∧
    samplePressed.lastDraggedNode = some sampleSnapshot ∧
    samplePressed.lastClickedNode = some 1 ∧
    samplePressed.currentPinchedNode = none ∧
    samplePressed.currentRotateNode = none ∧
    samplePressed.lastDraggedNodePosition = ⟨0, 0, 0⟩ ∧
    samplePressed.delegates = [7] ∧
    samplePressed.log.filter isDrag = [] := by
  obtain ⟨h1, h2, h3, h4, h5, h6, h7, -, h9⟩ :=
    onButtonEvent_clickDown sampleEnv sampleGraph sampleFocused sampleHit 1 0 ⟨0, 0, 0⟩
      sampleFocused_hitResult sampleGraph_drag
  have hsnap : VROInputControllerBase.dragSnapshot sampleEnv sampleFocused sampleHit 1 ⟨0, 0, 0⟩
      = sampleSnapshot := by
    rw [sampleFocused_eq]
    simp [VROInputControllerBase.dragSnapshot, sampleStart, VROInputControllerBase.construct,
      sampleHit, sampleSnapshot, sampleEnv, euclidDistance_sample]
  rw [hsnap] at h2
  have e4 : sampleFocused.currentPinchedNode = none := by rw [sampleFocused_eq]; rfl
  have e5 : sampleFocused.currentRotateNode = none := by rw [sampleFocused_eq]; rfl
  have e6 : sampleFocused.lastDraggedNodePosition = ⟨0, 0, 0⟩ := by rw [sampleFocused_eq]; rfl
  have e7 : sampleFocused.delegates = [7] := by rw [sampleFocused_eq]; rfl
  have e9 : sampleFocused.log.filter isDrag = [] := by rw [sampleFocused_eq]; rfl
  exact ⟨h1, h2, h3, h4.trans e4, h5.trans e5, h6.trans e6, h7.trans e7, h9.trans e9⟩

/-- The sample states are reachable. -/
theorem samplePressed_reachable : Reachable sampleEnv samplePressed :=
  Reachable.onButtonEvent _ _ _ _ (Reachable.updateHitNode _ _ _ _ _ _ (Reachable.construct ..))

/-! ## Dragging -/

open VROInputControllerBase

/-- The location the drag step moves the node to, written out. -/
theorem draggedToLocation_eq (p f : VROVector3f) (d : VRODraggedObject) :
    draggedToLocation p f d =
      d.originalDraggedNodePosition +
        ((p + (f + d.forwardOffset) * d.draggedDistanceFromController) - d.originalHitLocation) :=
  rfl

/-- The guarded callback to a node that handles some category is delivered. -/
theorem toNodeIfDelegate_of_handles {g : SceneGraph} {action : EventAction} {n : NodeId}
    (h : g.handles action n = true) (e : Event) :
    VROInputControllerBase.toNodeIfDelegate g (some n) e = [⟨Target.node n, e⟩] := by
  simp [VROInputControllerBase.toNodeIfDelegate, SceneGraph.delegate_of_handles h]

/-- Callbacks that are all `onDrag` pass the `onDrag` filter. -/
theorem filter_isDrag_onDrag (g : SceneGraph) (s : VROInputControllerBase) (node : Option NodeId)
    (source : Int) (location : VROVector3f) :
    (VROInputControllerBase.toNodeIfDelegate g node (Event.onDrag source location) ++
        s.toDelegates (Event.onDrag source location)).filter isDrag
      = VROInputControllerBase.toNodeIfDelegate g node (Event.onDrag source location) ++
        s.toDelegates (Event.onDrag source location) := by
  rw [List.filter_eq_self]
  intro n hn
  rcases List.mem_append.mp hn with hn | hn
  · unfold VROInputControllerBase.toNodeIfDelegate at hn
    split at hn
    · simp at hn
    · split_ifs at hn
      · simp only [List.mem_singleton] at hn
        subst hn
        rfl
      · simp at hn
  · simp only [VROInputControllerBase.toDelegates, List.mem_map] at hn
    obtain ⟨_, -, rfl⟩ := hn
    rfl

/-- One `onMove` with a hit result cached, a drag snapshot and no pinch or rotate: the dragged
node is at the projected location, and `onDrag` is delivered, to the delegate of the node and
then to every listener, exactly when the location is not within the threshold of the location
of the last `onDrag`. -/
theorem onMove_drag_step (env : ControllerEnv) (g : SceneGraph) (s : VROInputControllerBase)
    (hit : VROHitTestResult) (d : VRODraggedObject) (source : Int) (position : VROVector3f)
    (rotation : VROQuaternion) (forward : VROVector3f) (now1 now2 : ℚ)
    (hhit : s.hitResult = some hit) (hd : s.lastDraggedNode = some d)
    (hp : s.currentPinchedNode = none) (hr : s.currentRotateNode = none) :
    (s.onMove env g source position rotation forward now1 now2).nodePosition d.draggedNode
      = draggedToLocation position forward d ∧
    (env.distance (draggedToLocation position forward d) s.lastDraggedNodePosition
        < env.ON_DRAG_DISTANCE_THRESHOLD →
      (s.onMove env g source position rotation forward now1 now2).log.filter isDrag
          = s.log.filter isDrag ∧
        (s.onMove env g source position rotation forward now1 now2).lastDraggedNodePosition
          = s.lastDraggedNodePosition) ∧
    (¬ env.distance (draggedToLocation position forward d) s.lastDraggedNodePosition
        < env.ON_DRAG_DISTANCE_THRESHOLD →
      (s.onMove env g source position rotation forward now1 now2).log.filter isDrag
          = s.log.filter isDrag ++
            (VROInputControllerBase.toNodeIfDelegate g (some d.draggedNode)
                (Event.onDrag source (draggedToLocation position forward d)) ++
              s.toDelegates (Event.onDrag source (draggedToLocation position forward d))) ∧
        (s.onMove env g source position rotation forward now1 now2).lastDraggedNodePosition
          = draggedToLocation position forward d) := by
  rw [VROInputControllerBase.onMove_dragging env g s hit d source position rotation forward
    now1 now2 hhit hd hp hr, VROInputControllerBase.processDragging_eq]
  simp only [VROInputControllerBase.onMoveBeforeDrag_lastDraggedNodePosition,
    VROInputControllerBase.onMoveBeforeDrag_lastKnownPosition,
    VROInputControllerBase.onMoveBeforeDrag_lastKnownForward]
  refine ⟨?_, ?_, ?_⟩
  · split_ifs <;> simp
  · intro hlt
    simp [hlt]
  · intro hge
    simp only [hge, if_false, List.filter_append,
      VROInputControllerBase.onMoveBeforeDrag_drags, and_true]
    congr 1
    have := filter_isDrag_onDrag g s (some d.draggedNode) source
      (draggedToLocation position forward d)
    rw [List.filter_append] at this
    simpa [VROInputControllerBase.toDelegates] using this

/-! ## C6 -/

/-- C6: in a reachable state with a drag snapshot and no pinch or rotate active, after `onMove`
the dragged node is at `P0 + (p + (f + O) * D - H)`, computed from the snapshot and the pose
alone; so is it after a further `onMove`, hence the same pose again leaves the node where it
is, and a change of the forward vector by `Δ` at the same position moves it by `Δ * D`. -/
theorem C6_drag_position_from_snapshot_and_pose (env : ControllerEnv) (g1 g2 : SceneGraph)
    (s : VROInputControllerBase) (d : VRODraggedObject) (source1 source2 : Int)
    (p1 p2 : VROVector3f) (rot1 rot2 : VROQuaternion) (f1 f2 : VROVector3f) (a1 a2 b1 b2 : ℚ)
    (hreach : Reachable env s) (hd : s.lastDraggedNode = some d)
    (hp : s.currentPinchedNode = none) (hr : s.currentRotateNode = none) :
    (s.onMove env g1 source1 p1 rot1 f1 a1 a2).nodePosition d.draggedNode
      = d.originalDraggedNodePosition +
          ((p1 + (f1 + d.forwardOffset) * d.draggedDistanceFromController)
            - d.originalHitLocation) ∧
    ((s.onMove env g1 source1 p1 rot1 f1 a1 a2).onMove env g2 source2 p2 rot2 f2 b1 b2).nodePosition
        d.draggedNode
      = d.originalDraggedNodePosition +
          ((p2 + (f2 + d.forwardOffset) * d.draggedDistanceFromController)
            - d.originalHitLocation) ∧
    (p2 = p1 → f2 = f1 →
      ((s.onMove env g1 source1 p1 rot1 f1 a1 a2).onMove env g2 source2 p2 rot2 f2 b1 b2).nodePosition
          d.draggedNode
        = (s.onMove env g1 source1 p1 rot1 f1 a1 a2).nodePosition d.draggedNode) ∧
    (p2 = p1 →
      ((s.onMove env g1 source1 p1 rot1 f1 a1 a2).onMove env g2 source2 p2 rot2 f2 b1 b2).nodePosition
          d.draggedNode
          - (s.onMove env g1 source1 p1 rot1 f1 a1 a2).nodePosition d.draggedNode
        = (f2 - f1) * d.draggedDistanceFromController) := by
  obtain ⟨hit, hhit⟩ : ∃ hit, s.hitResult = some hit := by
    cases hh : s.hitResult with
    | some hit => exact ⟨hit, rfl⟩
    | none =>
      have := (hreach.click_drag_need_hit hh).2
      rw [hd] at this
      exact absurd this (by simp)
  have h1 := (onMove_drag_step env g1 s hit d source1 p1 rot1 f1 a1 a2 hhit hd hp hr).1
  have h2 := (onMove_drag_step env g2 (s.onMove env g1 source1 p1 rot1 f1 a1 a2) hit d source2
    p2 rot2 f2 b1 b2 (by simpa using hhit) (by simpa using hd) (by simpa using hp)
    (by simpa using hr)).1
  rw [draggedToLocation_eq] at h1 h2
  refine ⟨h1, h2, ?_, ?_⟩
  · rintro rfl rfl
    rw [h1, h2]
  · rintro rfl
    rw [h1, h2]
    simp only [VROVector3f.add_def, VROVector3f.sub_def, VROVector3f.mul_def,
      VROVector3f.mk.injEq]
    refine ⟨?_, ?_, ?_⟩ <;> ring

/-- C6, witness: the sample controller after a click-down on node 1 (snapshot with `D = 5`,
`H = P0 = (5, 0, 0)`, no offset) and two moves from the origin, forward `(1, 0, 0)` and then
forward `(0, 1, 0)`: the node is at `(5, 0, 0)` and then at `(0, 5, 0)`. -/
theorem C6_drag_position_from_snapshot_and_pose_witness :
    (samplePressed.onMove sampleEnv sampleGraph 0 ⟨0, 0, 0⟩ ⟨0, 0, 0, 1⟩ ⟨1, 0, 0⟩ 0 0).nodePosition 1
      = ⟨5, 0, 0⟩ ∧
    ((samplePressed.onMove sampleEnv sampleGraph 0 ⟨0, 0, 0⟩ ⟨0, 0, 0, 1⟩ ⟨1, 0, 0⟩ 0 0).onMove
        sampleEnv sampleGraph 0 ⟨0, 0, 0⟩ ⟨0, 0, 0, 1⟩ ⟨0, 1, 0⟩ 1 1).nodePosition 1
      = ⟨0, 5, 0⟩ := by
  have h := C6_drag_position_from_snapshot_and_pose sampleEnv sampleGraph sampleGraph
    samplePressed sampleSnapshot 0 0 ⟨0, 0, 0⟩ ⟨0, 0, 0⟩ ⟨0, 0, 0, 1⟩ ⟨0, 0, 0, 1⟩ ⟨1, 0, 0⟩
    ⟨0, 1, 0⟩ 0 0 1 1 samplePressed_reachable samplePressed_state.2.1 samplePressed_state.2.2.2.1
    samplePressed_state.2.2.2.2.1
  refine ⟨h.1.trans ?_, h.2.1.trans ?_⟩ <;>
    norm_num [sampleSnapshot, VROVector3f.add_def, VROVector3f.sub_def, VROVector3f.mul_def]

/-! ## C5 -/

/-- The snapshot a click-down takes in `sampleFocused`. -/
theorem sample_dragSnapshot :
    dragSnapshot sampleEnv sampleFocused sampleHit 1 ⟨0, 0, 0⟩ = sampleSnapshot := by
  rw [sampleFocused_eq]
  simp [dragSnapshot, sampleStart, construct, sampleHit, sampleSnapshot, sampleEnv,
    euclidDistance_sample]

/-- The distance of the sample environment from a point to itself is 0. -/
theorem euclidDistance_self (a : VROVector3f) : euclidDistance a a = 0 := by
  simp [euclidDistance, sqrtRat]

/-- C5 (as amended): with a hit result cached, no pinch or rotate active and node `A` handling
the drag of the hit node, after a click-down a first `onMove` whose projected node position is
within the drag threshold of the position of the last `onDrag` (`_lastDraggedNodePosition`,
the origin in a new controller) delivers no `onDrag`, and a following `onMove` whose projected
position is not within the threshold of it delivers exactly one `onDrag` to the delegate of
`A` and one to each listener: the sequence delivers these and no other `onDrag`. -/
theorem C5_click_move_move_one_drag (env : ControllerEnv) (g : SceneGraph)
    (s : VROInputControllerBase) (hit : VROHitTestResult) (A : NodeId) (source : Int)
    (forwardOffset p1 : VROVector3f) (rot1 : VROQuaternion) (f1 : VROVector3f) (a1 a2 : ℚ)
    (p2 : VROVector3f) (rot2 : VROQuaternion) (f2 : VROVector3f) (b1 b2 : ℚ)
    (hhit : s.hitResult = some hit)
    (hA : getNodeToHandleEvent g EventAction.OnDrag (some hit.node) = some A)
    (hp : s.currentPinchedNode = none) (hr : s.currentRotateNode = none)
    (h1 : env.distance (draggedToLocation p1 f1 (dragSnapshot env s hit A forwardOffset))
      s.lastDraggedNodePosition < env.ON_DRAG_DISTANCE_THRESHOLD)
    (h2 : ¬ env.distance (draggedToLocation p2 f2 (dragSnapshot env s hit A forwardOffset))
      s.lastDraggedNodePosition < env.ON_DRAG_DISTANCE_THRESHOLD) :
    (s.onButtonEvent env g source ClickState.ClickDown forwardOffset).log.filter isDrag
      = s.log.filter isDrag ∧
    ((s.onButtonEvent env g source ClickState.ClickDown forwardOffset).onMove env g source
        p1 rot1 f1 a1 a2).log.filter isDrag = s.log.filter isDrag ∧
    (((s.onButtonEvent env g source ClickState.ClickDown forwardOffset).onMove env g source
        p1 rot1 f1 a1 a2).onMove env g source p2 rot2 f2 b1 b2).log.filter isDrag
      = s.log.filter isDrag ++
          (⟨Target.node A,
              Event.onDrag source
                (draggedToLocation p2 f2 (dragSnapshot env s hit A forwardOffset))⟩ ::
            s.delegates.map (fun d =>
              ⟨Target.listener d,
                Event.onDrag source
                  (draggedToLocation p2 f2 (dragSnapshot env s hit A forwardOffset))⟩)) := by
  obtain ⟨c1, c2, -, c4, c5, c6, c7, -, c9⟩ :=
    onButtonEvent_clickDown env g s hit A source forwardOffset hhit hA
  obtain ⟨-, m1, -⟩ := onMove_drag_step env g
    (s.onButtonEvent env g source ClickState.ClickDown forwardOffset) hit
    (dragSnapshot env s hit A forwardOffset) source p1 rot1 f1 a1 a2 c1 c2 (c4.trans hp)
    (c5.trans hr)
  obtain ⟨m1a, m1b⟩ := m1 (by rw [c6]; exact h1)
  obtain ⟨-, -, m2⟩ := onMove_drag_step env g
    ((s.onButtonEvent env g source ClickState.ClickDown forwardOffset).onMove env g source
      p1 rot1 f1 a1 a2) hit
    (dragSnapshot env s hit A forwardOffset) source p2 rot2 f2 b1 b2
    (by simpa using c1) (by simpa using c2) (by simpa using c4.trans hp)
    (by simpa using c5.trans hr)
  obtain ⟨m2a, -⟩ := m2 (by rw [m1b, c6]; exact h2)
  refine ⟨c9, m1a.trans c9, ?_⟩
  rw [m2a, m1a, c9]
  have hnode : (dragSnapshot env s hit A forwardOffset).draggedNode = A := rfl
  rw [hnode, toNodeIfDelegate_of_handles (getNodeToHandleEvent_handles hA)]
  simp [toDelegates, c7]

/-- C5, witness: the sample controller with the hit on node 1 cached; click-down, a move that
projects node 1 onto the origin (where `_lastDraggedNodePosition` is) and a move that projects
it onto `(5, 0, 0)`. -/
theorem C5_click_move_move_one_drag_witness :
    (sampleFocused.onButtonEvent sampleEnv sampleGraph 0 ClickState.ClickDown
        ⟨0, 0, 0⟩).log.filter isDrag = sampleFocused.log.filter isDrag ∧
    ((sampleFocused.onButtonEvent sampleEnv sampleGraph 0 ClickState.ClickDown ⟨0, 0, 0⟩).onMove
        sampleEnv sampleGraph 0 ⟨0, 0, 0⟩ ⟨0, 0, 0, 1⟩ ⟨0, 0, 0⟩ 0 0).log.filter isDrag
      = sampleFocused.log.filter isDrag ∧
    (((sampleFocused.onButtonEvent sampleEnv sampleGraph 0 ClickState.ClickDown ⟨0, 0, 0⟩).onMove
        sampleEnv sampleGraph 0 ⟨0, 0, 0⟩ ⟨0, 0, 0, 1⟩ ⟨0, 0, 0⟩ 0 0).onMove
        sampleEnv sampleGraph 0 ⟨0, 0, 0⟩ ⟨0, 0, 0, 1⟩ ⟨1, 0, 0⟩ 1 1).log.filter isDrag
      = sampleFocused.log.filter isDrag ++
          (⟨Target.node 1,
              Event.onDrag 0
                (draggedToLocation ⟨0, 0, 0⟩ ⟨1, 0, 0⟩
                  (dragSnapshot sampleEnv sampleFocused sampleHit 1 ⟨0, 0, 0⟩))⟩ ::
            sampleFocused.delegates.map (fun d =>
              ⟨Target.listener d,
                Event.onDrag 0
                  (draggedToLocation ⟨0, 0, 0⟩ ⟨1, 0, 0⟩
                    (dragSnapshot sampleEnv sampleFocused sampleHit 1 ⟨0, 0, 0⟩))⟩)) :=
  C5_click_move_move_one_drag sampleEnv sampleGraph sampleFocused sampleHit 1 0 ⟨0, 0, 0⟩
    ⟨0, 0, 0⟩ ⟨0, 0, 0, 1⟩ ⟨0, 0, 0⟩ 0 0 ⟨0, 0, 0⟩ ⟨0, 0, 0, 1⟩ ⟨1, 0, 0⟩ 1 1
    sampleFocused_hitResult sampleGraph_drag
    (by rw [sampleFocused_eq]; rfl) (by rw [sampleFocused_eq]; rfl)
    (by
      rw [sample_dragSnapshot]
      have e : draggedToLocation ⟨0, 0, 0⟩ ⟨0, 0, 0⟩ sampleSnapshot = ⟨0, 0, 0⟩ := by
        norm_num [draggedToLocation_eq, sampleSnapshot, VROVector3f.add_def,
          VROVector3f.sub_def, VROVector3f.mul_def]
      have e6 : sampleFocused.lastDraggedNodePosition = ⟨0, 0, 0⟩ := by
        rw [sampleFocused_eq]; rfl
      rw [e, e6]
      show euclidDistance ⟨0, 0, 0⟩ ⟨0, 0, 0⟩ < 1 / 100
      rw [euclidDistance_self]
      norm_num)
    (by
      rw [sample_dragSnapshot]
      have e : draggedToLocation ⟨0, 0, 0⟩ ⟨1, 0, 0⟩ sampleSnapshot = ⟨5, 0, 0⟩ := by
        norm_num [draggedToLocation_eq, sampleSnapshot, VROVector3f.add_def,
          VROVector3f.sub_def, VROVector3f.mul_def]
      have e6 : sampleFocused.lastDraggedNodePosition = ⟨0, 0, 0⟩ := by
        rw [sampleFocused_eq]; rfl
      rw [e, e6]
      show ¬ euclidDistance ⟨5, 0, 0⟩ ⟨0, 0, 0⟩ < 1 / 100
      rw [euclidDistance_sample]
      norm_num)

/-- C5, counterexample: in the reachable state `sampleFocused` node 1 is at `(5, 0, 0)` and
handles the drag of the cached hit; after the click-down, a first `onMove` projects the node
onto `(5, 0, 0)`, at distance 0 from its position at click-down, and `onDrag` is delivered to
the delegate of node 1 and to the listener. -/
theorem C5_counterexample :
    Reachable sampleEnv sampleFocused ∧
    sampleFocused.hitResult = some sampleHit ∧
    getNodeToHandleEvent sampleGraph EventAction.OnDrag (some sampleHit.node) = some 1 ∧
    sampleFocused.nodePosition 1 = ⟨5, 0, 0⟩ ∧
    samplePressed = sampleFocused.onButtonEvent sampleEnv sampleGraph 0 ClickState.ClickDown
      ⟨0, 0, 0⟩ ∧
    (samplePressed.onMove sampleEnv sampleGraph 0 ⟨0, 0, 0⟩ ⟨0, 0, 0, 1⟩ ⟨1, 0, 0⟩ 0 0).nodePosition 1
      = ⟨5, 0, 0⟩ ∧
    sampleEnv.distance ⟨5, 0, 0⟩ ⟨5, 0, 0⟩ < sampleEnv.ON_DRAG_DISTANCE_THRESHOLD ∧
    (samplePressed.onMove sampleEnv sampleGraph 0 ⟨0, 0, 0⟩ ⟨0, 0, 0, 1⟩ ⟨1, 0, 0⟩ 0 0).log.filter
        isDrag
      = [⟨Target.node 1, Event.onDrag 0 ⟨5, 0, 0⟩⟩,
         ⟨Target.listener 7, Event.onDrag 0 ⟨5, 0, 0⟩⟩] := by
  obtain ⟨s1, s2, -, s4, s5, s6, s7, s8⟩ := samplePressed_state
  have e : draggedToLocation ⟨0, 0, 0⟩ ⟨1, 0, 0⟩ sampleSnapshot = ⟨5, 0, 0⟩ := by
    norm_num [draggedToLocation_eq, sampleSnapshot, VROVector3f.add_def,
      VROVector3f.sub_def, VROVector3f.mul_def]
  obtain ⟨m1, -, m3⟩ := onMove_drag_step sampleEnv sampleGraph samplePressed sampleHit
    sampleSnapshot 0 ⟨0, 0, 0⟩ ⟨0, 0, 0, 1⟩ ⟨1, 0, 0⟩ 0 0 s1 s2 s4 s5
  rw [e, s6] at m3
  have hfar : ¬ sampleEnv.distance ⟨5, 0, 0⟩ ⟨0, 0, 0⟩ < sampleEnv.ON_DRAG_DISTANCE_THRESHOLD := by
    show ¬ euclidDistance ⟨5, 0, 0⟩ ⟨0, 0, 0⟩ < 1 / 100
    rw [euclidDistance_sample]
    norm_num
  refine ⟨Reachable.updateHitNode _ _ _ _ _ _ (Reachable.construct ..), sampleFocused_hitResult,
    sampleGraph_drag, by rw [sampleFocused_eq]; rfl, rfl, m1.trans e, ?_, ?_⟩
  · show euclidDistance ⟨5, 0, 0⟩ ⟨5, 0, 0⟩ < 1 / 100
    rw [euclidDistance_self]
    norm_num
  · rw [(m3 hfar).1, s8]
    have hnode : sampleSnapshot.draggedNode = 1 := rfl
    rw [hnode, toNodeIfDelegate_of_handles (getNodeToHandleEvent_handles sampleGraph_drag)]
    simp [toDelegates, s7]

/-! ## C7 -/

/-- The callbacks delivered to the listeners and to the focused node for one click event. -/
theorem filter_isClicked_clicked (s : VROInputControllerBase) (node : Option NodeId)
    (source : Int) (pos : List ℚ) :
    (s.toDelegates (Event.onClick source ClickState.Clicked pos) ++
        toFocused node (Event.onClick source ClickState.Clicked pos)).filter isClicked
      = s.toDelegates (Event.onClick source ClickState.Clicked pos) ++
        toFocused node (Event.onClick source ClickState.Clicked pos) := by
  rw [List.filter_eq_self]
  intro n hn
  rcases List.mem_append.mp hn with hn | hn
  · simp only [toDelegates, List.mem_map] at hn
    obtain ⟨_, -, rfl⟩ := hn
    rfl
  · unfold toFocused at hn
    split at hn
    · simp at hn
    · simp only [List.mem_singleton] at hn
      subst hn
      rfl

/-- C7: with a hit result cached, `onButtonEvent` with `ClickUp` first delivers `ClickUp` to
every listener and to the delegate of the node resolved for the click category, and then,
exactly when the hit node is the last clicked-down node, delivers `Clicked` once to every
listener and once to the delegate of the resolved node; when the hit node differs it delivers
no `Clicked` at all. -/
theorem C7_clickUp_emits_clicked_iff_same_node (env : ControllerEnv) (g : SceneGraph)
    (s : VROInputControllerBase) (hit : VROHitTestResult) (source : Int)
    (forwardOffset : VROVector3f) (hhit : s.hitResult = some hit) :
    (s.onButtonEvent env g source ClickState.ClickUp forwardOffset).log
      = s.log ++
          (s.toDelegates (Event.onClick source ClickState.ClickUp (hitPos hit)) ++
            toFocused (getNodeToHandleEvent g EventAction.OnClick (some hit.node))
              (Event.onClick source ClickState.ClickUp (hitPos hit))) ++
          (if some hit.node = s.lastClickedNode then
            s.toDelegates (Event.onClick source ClickState.Clicked (hitPos hit)) ++
              toFocused (getNodeToHandleEvent g EventAction.OnClick (some hit.node))
                (Event.onClick source ClickState.Clicked (hitPos hit))
          else []) ∧
    (s.onButtonEvent env g source ClickState.ClickUp forwardOffset).log.filter isClicked
      = s.log.filter isClicked ++
          (if some hit.node = s.lastClickedNode then
            s.toDelegates (Event.onClick source ClickState.Clicked (hitPos hit)) ++
              toFocused (getNodeToHandleEvent g EventAction.OnClick (some hit.node))
                (Event.onClick source ClickState.Clicked (hitPos hit))
          else []) := by
  have hlog : (s.onButtonEvent env g source ClickState.ClickUp forwardOffset).log
      = s.log ++
          (s.toDelegates (Event.onClick source ClickState.ClickUp (hitPos hit)) ++
            toFocused (getNodeToHandleEvent g EventAction.OnClick (some hit.node))
              (Event.onClick source ClickState.ClickUp (hitPos hit))) ++
          (if some hit.node = s.lastClickedNode then
            s.toDelegates (Event.onClick source ClickState.Clicked (hitPos hit)) ++
              toFocused (getNodeToHandleEvent g EventAction.OnClick (some hit.node))
                (Event.onClick source ClickState.Clicked (hitPos hit))
          else []) := by
    unfold onButtonEvent
    simp only [hhit]
    by_cases heq : some hit.node = s.lastClickedNode
    · have hsome : s.lastClickedNode.isSome = true := by rw [← heq]; rfl
      cases hf : getNodeToHandleEvent g EventAction.OnClick (some hit.node) with
      | none =>
        simp [notifyFocused, notifyDelegates, notifyNodeIfDelegate, emit, heq, hsome,
          toFocused, toNodeIfDelegate, toDelegates]
        split <;> simp
      | some n =>
        have hdel := SceneGraph.delegate_of_handles (getNodeToHandleEvent_handles hf)
        simp [notifyFocused, notifyDelegates, notifyNodeIfDelegate, emit, heq, hsome,
          toFocused, toNodeIfDelegate, toDelegates, hdel]
        split <;> simp
    · simp [notifyFocused, notifyDelegates, emit, heq, toDelegates]
      split <;> simp
  refine ⟨hlog, ?_⟩
  rw [hlog, List.filter_append, List.filter_append, List.filter_append,
    filter_toDelegates _ _ _ (by intro t; rfl), filter_toFocused _ _ _ (by intro t; rfl)]
  split_ifs
  · rw [filter_isClicked_clicked]
    simp
  · simp

/-- C7, witness: in `samplePressed` the hit node is the last clicked-down node. -/
theorem C7_clickUp_emits_clicked_iff_same_node_witness :
    (samplePressed.onButtonEvent sampleEnv sampleGraph 0 ClickState.ClickUp ⟨0, 0, 0⟩).log
      = samplePressed.log ++
          (samplePressed.toDelegates (Event.onClick 0 ClickState.ClickUp (hitPos sampleHit)) ++
            toFocused (getNodeToHandleEvent sampleGraph EventAction.OnClick (some sampleHit.node))
              (Event.onClick 0 ClickState.ClickUp (hitPos sampleHit))) ++
          (if some sampleHit.node = samplePressed.lastClickedNode then
            samplePressed.toDelegates (Event.onClick 0 ClickState.Clicked (hitPos sampleHit)) ++
              toFocused (getNodeToHandleEvent sampleGraph EventAction.OnClick (some sampleHit.node))
                (Event.onClick 0 ClickState.Clicked (hitPos sampleHit))
          else []) ∧
    (samplePressed.onButtonEvent sampleEnv sampleGraph 0 ClickState.ClickUp ⟨0, 0, 0⟩).log.filter
        isClicked
      = samplePressed.log.filter isClicked ++
          (if some sampleHit.node = samplePressed.lastClickedNode then
            samplePressed.toDelegates (Event.onClick 0 ClickState.Clicked (hitPos sampleHit)) ++
              toFocused (getNodeToHandleEvent sampleGraph EventAction.OnClick (some sampleHit.node))
                (Event.onClick 0 ClickState.Clicked (hitPos sampleHit))
          else []) :=
  C7_clickUp_emits_clicked_iff_same_node sampleEnv sampleGraph samplePressed sampleHit 0
    ⟨0, 0, 0⟩ samplePressed_state.1

/-! ## C8 -/

/-- C8: in every reachable state, whether or not a hit result is cached and whether or not the
hit node is the last clicked node, after `onButtonEvent` with `ClickUp` no last-clicked node
and no drag snapshot is recorded, and the node of the former snapshot is not marked as being
dragged. -/
theorem C8_clickUp_clears_click_and_drag (env : ControllerEnv) (g : SceneGraph)
    (s : VROInputControllerBase) (source : Int) (forwardOffset : VROVector3f)
    (hreach : Reachable env s) :
    (s.onButtonEvent env g source ClickState.ClickUp forwardOffset).lastClickedNode = none ∧
    (s.onButtonEvent env g source ClickState.ClickUp forwardOffset).lastDraggedNode = none ∧
    ∀ d, s.lastDraggedNode = some d →
      (s.onButtonEvent env g source ClickState.ClickUp forwardOffset).nodeIsBeingDragged
        d.draggedNode = false := by
  cases hh : s.hitResult with
  | none =>
    obtain ⟨hc, hd⟩ := hreach.click_drag_need_hit hh
    have hs : s.onButtonEvent env g source ClickState.ClickUp forwardOffset = s := by
      unfold onButtonEvent
      simp only [hh]
    rw [hs]
    refine ⟨hc, hd, ?_⟩
    intro d hd'
    rw [hd] at hd'
    exact absurd hd' (by simp)
  | some hit =>
    unfold onButtonEvent
    simp only [hh]
    refine ⟨?_, ?_, ?_⟩
    · split <;> rfl
    · trivial
    · intro d hd
      simp only [notifyFocused, notifyDelegates, notifyNodeIfDelegate, emit]
      split_ifs <;> simp [hd]

/-- C8, witness: `samplePressed` is reachable and holds a click-down and a drag snapshot. -/
theorem C8_clickUp_clears_click_and_drag_witness :
    (samplePressed.onButtonEvent sampleEnv sampleGraph 0 ClickState.ClickUp
        ⟨0, 0, 0⟩).lastClickedNode = none ∧
    (samplePressed.onButtonEvent sampleEnv sampleGraph 0 ClickState.ClickUp
        ⟨0, 0, 0⟩).lastDraggedNode = none ∧
    ∀ d, samplePressed.lastDraggedNode = some d →
      (samplePressed.onButtonEvent sampleEnv sampleGraph 0 ClickState.ClickUp
        ⟨0, 0, 0⟩).nodeIsBeingDragged d.draggedNode = false :=
  C8_clickUp_clears_click_and_drag sampleEnv sampleGraph samplePressed 0 ⟨0, 0, 0⟩
    samplePressed_reachable

/-! ## Hover -/

/-- `processGazeEvent` on the remembered node changes nothing. -/
theorem processGazeEvent_same (g : SceneGraph) (s : VROInputControllerBase)
    (hit : VROHitTestResult) (source : Int) (newNode : Option NodeId)
    (h : s.lastHoveredNode = newNode) : processGazeEvent g s hit source newNode = s := by
  simp [processGazeEvent, h]

/-- `processGazeEvent` on another node: hover-on to the new node, hover-off to the old one. -/
theorem processGazeEvent_changed (g : SceneGraph) (s : VROInputControllerBase)
    (hit : VROHitTestResult) (source : Int) (newNode : Option NodeId)
    (h : s.lastHoveredNode ≠ newNode) :
    (processGazeEvent g s hit source newNode).log
      = s.log ++
          (toNodeIfDelegate g newNode (Event.onHover source true (hitPos hit)) ++
            toNodeIfDelegate g s.lastHoveredNode (Event.onHover source false (hitPos hit))) := by
  simp [processGazeEvent, h, notifyNodeIfDelegate, emit]

/-- A filter that rejects two events rejects the listener loop that delivers them. -/
theorem filter_listeners_pair (l : List DelegateId) (e1 e2 : Event) (p : Notification → Bool)
    (h1 : ∀ t, p ⟨t, e1⟩ = false) (h2 : ∀ t, p ⟨t, e2⟩ = false) :
    (l.flatMap (fun d => [(⟨Target.listener d, e1⟩ : Notification),
      ⟨Target.listener d, e2⟩])).filter p = [] := by
  rw [List.filter_eq_nil_iff]
  intro a ha
  simp only [List.mem_flatMap, List.mem_cons, List.mem_singleton, List.not_mem_nil,
    or_false] at ha
  obtain ⟨d, -, rfl | rfl⟩ := ha
  · simp [h1]
  · simp [h2]

/-- A reading that rejects two events rejects the listener loop that delivers them. -/
theorem filterMap_listeners_pair {β : Type} (l : List DelegateId) (e1 e2 : Event)
    (f : Notification → Option β) (h1 : ∀ t, f ⟨t, e1⟩ = none) (h2 : ∀ t, f ⟨t, e2⟩ = none) :
    (l.flatMap (fun d => [(⟨Target.listener d, e1⟩ : Notification),
      ⟨Target.listener d, e2⟩])).filterMap f = [] := by
  rw [List.filterMap_eq_nil_iff]
  intro a ha
  simp only [List.mem_flatMap, List.mem_cons, List.mem_singleton, List.not_mem_nil,
    or_false] at ha
  obtain ⟨d, -, rfl | rfl⟩ := ha
  · exact h1 _
  · exact h2 _

/-- With a hit result cached, `onMove` ends before the drag step or with `processDragging`. -/
theorem onMove_cases (env : ControllerEnv) (g : SceneGraph) (s : VROInputControllerBase)
    (hit : VROHitTestResult) (source : Int) (position : VROVector3f) (rotation : VROQuaternion)
    (forward : VROVector3f) (now1 now2 : ℚ) (hhit : s.hitResult = some hit) :
    s.onMove env g source position rotation forward now1 now2
        = onMoveBeforeDrag env g s hit source position rotation forward now1 now2 ∨
      ∃ d, s.onMove env g source position rotation forward now1 now2
        = processDragging env g
            (onMoveBeforeDrag env g s hit source position rotation forward now1 now2) d
            source := by
  rw [onMove_of_hit env g s hit source position rotation forward now1 now2 hhit]
  split
  · exact Or.inl rfl
  · split_ifs
    · exact Or.inr ⟨_, rfl⟩
    · exact Or.inl rfl

/-- `processDragging` writes neither the hover nor the fuse members and delivers neither
`onHover` nor a fuse ratio. -/
theorem processDragging_frame (env : ControllerEnv) (g : SceneGraph) (s : VROInputControllerBase)
    (d : VRODraggedObject) (source : Int) (m : NodeId) :
    (processDragging env g s d source).lastHoveredNode = s.lastHoveredNode ∧
    (processDragging env g s d source).currentFusedNode = s.currentFusedNode ∧
    (processDragging env g s d source).fuseTriggerAtMillis = s.fuseTriggerAtMillis ∧
    (processDragging env g s d source).haveNotifiedOnFuseTriggered
      = s.haveNotifiedOnFuseTriggered ∧
    (processDragging env g s d source).log.filter isHover = s.log.filter isHover ∧
    fuseRatiosTo m (processDragging env g s d source).log = fuseRatiosTo m s.log := by
  rw [processDragging_eq]
  split_ifs
  · simp
  · simp only [fuseRatiosTo, List.filter_append, List.filterMap_append, true_and]
    rw [filter_toNodeIfDelegate _ _ _ _ (by intro t; rfl),
      filter_toDelegates _ _ _ (by intro t; rfl),
      filterMap_toNodeIfDelegate _ _ _ _ (by intro t; cases t <;> rfl),
      filterMap_toDelegates _ _ _ (by intro t; cases t <;> rfl)]
    simp

/-- The `onHover` callbacks of one `onMove` with a hit result cached are those of its hover
step. -/
theorem onMove_hovers (env : ControllerEnv) (g : SceneGraph) (s : VROInputControllerBase)
    (hit : VROHitTestResult) (source : Int) (position : VROVector3f) (rotation : VROQuaternion)
    (forward : VROVector3f) (now1 now2 : ℚ) (hhit : s.hitResult = some hit) :
    (s.onMove env g source position rotation forward now1 now2).lastHoveredNode
      = getNodeToHandleEvent g EventAction.OnHover (some hit.node) ∧
    (s.onMove env g source position rotation forward now1 now2).log.filter isHover
      = s.log.filter isHover ++
          (if s.lastHoveredNode = getNodeToHandleEvent g EventAction.OnHover (some hit.node)
            then []
            else
              (toNodeIfDelegate g (getNodeToHandleEvent g EventAction.OnHover (some hit.node))
                  (Event.onHover source true (hitPos hit)) ++
                toNodeIfDelegate g s.lastHoveredNode
                  (Event.onHover source false (hitPos hit))).filter isHover) := by
  have hbefore :
      (onMoveBeforeDrag env g s hit source position rotation forward now1 now2).log.filter isHover
        = s.log.filter isHover ++
          (if s.lastHoveredNode = getNodeToHandleEvent g EventAction.OnHover (some hit.node)
            then []
            else
              (toNodeIfDelegate g (getNodeToHandleEvent g EventAction.OnHover (some hit.node))
                  (Event.onHover source true (hitPos hit)) ++
                toNodeIfDelegate g s.lastHoveredNode
                  (Event.onHover source false (hitPos hit))).filter isHover) := by
    simp only [onMoveBeforeDrag, notifyFocused, emit, List.filter_append]
    rw [filter_toFocused _ _ _ (by intro t; rfl)]
    by_cases hsame : s.lastHoveredNode
        = getNodeToHandleEvent g EventAction.OnHover (some hit.node)
    · rw [processGazeEvent_same _ _ _ _ _ (by simpa using hsame),
        (processOnFuseEvent_log _ _ _ _ _ _).2, List.filter_append,
        filter_listeners_pair _ _ _ _ (by intro t; rfl) (by intro t; rfl)]
      simp [hsame]
    · rw [processGazeEvent_changed _ _ _ _ _ (by simpa using hsame), List.filter_append,
        (processOnFuseEvent_log _ _ _ _ _ _).2, List.filter_append,
        filter_listeners_pair _ _ _ _ (by intro t; rfl) (by intro t; rfl)]
      simp [hsame, List.filter_append]
  rcases onMove_cases env g s hit source position rotation forward now1 now2 hhit with h | ⟨d, h⟩
  · rw [h]
    exact ⟨by simp, hbefore⟩
  · rw [h]
    obtain ⟨f1, -, -, -, f5, -⟩ := processDragging_frame env g
      (onMoveBeforeDrag env g s hit source position rotation forward now1 now2) d source 0
    rw [f1, f5]
    exact ⟨by simp, hbefore⟩

/-- A hover-on callback to a node is an `onHover` callback. -/
theorem filter_isHoverOnTo (m : NodeId) (l : List Notification) :
    (l.filter isHover).filter (isHoverOnTo m) = l.filter (isHoverOnTo m) := by
  rw [List.filter_filter]
  congr 1
  funext n
  unfold isHoverOnTo isHover
  cases n with
  | mk t e => cases t <;> cases e <;> simp

/-- The guarded callback to a node is at most one callback. -/
theorem toNodeIfDelegate_length (g : SceneGraph) (node : Option NodeId) (e : Event) :
    (toNodeIfDelegate g node e).length ≤ 1 := by
  unfold toNodeIfDelegate
  split
  · simp
  · split_ifs <;> simp

/-- While the resolved hover node is the remembered one, `onMove` updates with the cached hit
result deliver no `onHover`. -/
theorem runMoves_no_hover (env : ControllerEnv) (hit : VROHitTestResult) (r : Option NodeId) :
    ∀ (ms : List MoveUpdate) (s : VROInputControllerBase), s.hitResult = some hit →
      s.lastHoveredNode = r →
      (∀ m ∈ ms, getNodeToHandleEvent m.g EventAction.OnHover (some hit.node) = r) →
      (runMoves env s ms).log.filter isHover = s.log.filter isHover := by
  intro ms
  induction ms with
  | nil => intro s _ _ _; rfl
  | cons m ms ih =>
    intro s hhit hlast hres
    have hm := hres m (List.mem_cons_self _ _)
    obtain ⟨h1, h2⟩ := onMove_hovers env m.g s hit m.source m.position m.rotation m.forward
      m.now1 m.now2 hhit
    rw [runMoves, ih _ (by simpa using hhit) (h1.trans hm)
      (fun m' hm' => hres m' (List.mem_cons_of_mem _ hm')), h2, hm, hlast]
    simp

/-- One `onMove` with a hit result cached delivers at most one hover-on to a node. -/
theorem onMove_hoverOn_le (env : ControllerEnv) (g : SceneGraph) (s : VROInputControllerBase)
    (hit : VROHitTestResult) (source : Int) (position : VROVector3f) (rotation : VROQuaternion)
    (forward : VROVector3f) (now1 now2 : ℚ) (n : NodeId) (hhit : s.hitResult = some hit) :
    ((s.onMove env g source position rotation forward now1 now2).log.filter
        (isHoverOnTo n)).length ≤ (s.log.filter (isHoverOnTo n)).length + 1 := by
  have h2 := (onMove_hovers env g s hit source position rotation forward now1 now2 hhit).2
  rw [← filter_isHoverOnTo, h2, List.filter_append, filter_isHoverOnTo, List.length_append]
  apply Nat.add_le_add_left
  split_ifs
  · simp
  · rw [filter_isHoverOnTo, List.filter_append,
      filter_toNodeIfDelegate _ s.lastHoveredNode _ _ (by intro t; cases t <;> rfl),
      List.append_nil]
    exact le_trans (List.length_filter_le _ _) (toNodeIfDelegate_length _ _ _)

/-! ## C9 -/

/-- C9: `processGazeEvent` on the remembered hovered node delivers nothing and leaves the state
as it is; on another node it delivers the hover callbacks and remembers the new node.  Hence
over consecutive `onMove` updates whose resolved hover node does not change, with the cached
hit result, a node gets at most one hover-on callback, and none when the resolved node is the
one already remembered. -/
theorem C9_hover_only_on_change (env : ControllerEnv) (s : VROInputControllerBase)
    (hit : VROHitTestResult) (r : Option NodeId) (n : NodeId) (ms : List MoveUpdate)
    (hhit : s.hitResult = some hit)
    (hres : ∀ m ∈ ms, getNodeToHandleEvent m.g EventAction.OnHover (some hit.node) = r) :
    (∀ (g : SceneGraph) (s0 : VROInputControllerBase) (hit0 : VROHitTestResult) (source : Int)
        (newNode : Option NodeId),
      (s0.lastHoveredNode = newNode → processGazeEvent g s0 hit0 source newNode = s0) ∧
      (s0.lastHoveredNode ≠ newNode →
        (processGazeEvent g s0 hit0 source newNode).lastHoveredNode = newNode ∧
        (processGazeEvent g s0 hit0 source newNode).log
          = s0.log ++
              (toNodeIfDelegate g newNode (Event.onHover source true (hitPos hit0)) ++
                toNodeIfDelegate g s0.lastHoveredNode
                  (Event.onHover source false (hitPos hit0))))) ∧
    ((runMoves env s ms).log.filter (isHoverOnTo n)).length
      ≤ (s.log.filter (isHoverOnTo n)).length + 1 ∧
    (s.lastHoveredNode = r → (runMoves env s ms).log.filter isHover = s.log.filter isHover) := by
  refine ⟨?_, ?_, ?_⟩
  · intro g s0 hit0 source newNode
    exact ⟨processGazeEvent_same g s0 hit0 source newNode,
      fun h => ⟨by simp, processGazeEvent_changed g s0 hit0 source newNode h⟩⟩
  · cases ms with
    | nil => exact Nat.le_succ _
    | cons m ms =>
      have hm := hres m (List.mem_cons_self _ _)
      have h1 := (onMove_hovers env m.g s hit m.source m.position m.rotation m.forward
        m.now1 m.now2 hhit).1
      have hrest := runMoves_no_hover env hit r ms
        (s.onMove env m.g m.source m.position m.rotation m.forward m.now1 m.now2)
        (by simpa using hhit) (h1.trans hm)
        (fun m' hm' => hres m' (List.mem_cons_of_mem _ hm'))
      rw [runMoves, ← filter_isHoverOnTo, hrest, filter_isHoverOnTo]
      exact onMove_hoverOn_le env m.g s hit m.source m.position m.rotation m.forward
        m.now1 m.now2 n hhit
  · intro hlast
    exact runMoves_no_hover env hit r ms s hhit hlast hres

/-- In the sample graph the hover of a hit on node 1 is handled by node 1. -/
theorem sampleGraph_hover :
    getNodeToHandleEvent sampleGraph EventAction.OnHover (some 1) = some 1 := by
  rw [getNodeToHandleEvent]
  simp [SceneGraph.handles, sampleGraph, sampleDelegate]

/-- C9, witness: three `onMove` updates of the sample controller with the hit on node 1
cached, on the sample graph. -/
theorem C9_hover_only_on_change_witness :
    ((runMoves sampleEnv sampleFocused
        [⟨sampleGraph, 0, ⟨0, 0, 0⟩, ⟨0, 0, 0, 1⟩, ⟨1, 0, 0⟩, 0, 0⟩,
         ⟨sampleGraph, 0, ⟨0, 0, 0⟩, ⟨0, 0, 0, 1⟩, ⟨1, 0, 0⟩, 16, 16⟩,
         ⟨sampleGraph, 0, ⟨0, 1, 0⟩, ⟨0, 0, 0, 1⟩, ⟨1, 0, 0⟩, 33, 33⟩]).log.filter
        (isHoverOnTo 1)).length
      ≤ (sampleFocused.log.filter (isHoverOnTo 1)).length + 1 :=
  (C9_hover_only_on_change sampleEnv sampleFocused sampleHit (some 1) 1
    [⟨sampleGraph, 0, ⟨0, 0, 0⟩, ⟨0, 0, 0, 1⟩, ⟨1, 0, 0⟩, 0, 0⟩,
     ⟨sampleGraph, 0, ⟨0, 0, 0⟩, ⟨0, 0, 0, 1⟩, ⟨1, 0, 0⟩, 16, 16⟩,
     ⟨sampleGraph, 0, ⟨0, 1, 0⟩, ⟨0, 0, 0, 1⟩, ⟨1, 0, 0⟩, 33, 33⟩]
    sampleFocused_hitResult
    (by
      intro m hm
      simp only [List.mem_cons, List.mem_singleton, List.not_mem_nil, or_false] at hm
      rcases hm with rfl | rfl | rfl <;> exact sampleGraph_hover)).2.1

/-! ## Fuse -/

/-- The fuse ratio read from a callback to a listener is none. -/
theorem fuseRatioTo_listener (m : NodeId) (d : DelegateId) (e : Event) :
    fuseRatioTo m ⟨Target.listener d, e⟩ = none := rfl

/-- The fuse callbacks of the listener loop carry no ratio for a node. -/
theorem fuseRatiosTo_toDelegates (m : NodeId) (s : VROInputControllerBase) (e : Event) :
    (s.toDelegates e).filterMap (fuseRatioTo m) = [] := by
  simp [toDelegates, List.filterMap_eq_nil_iff, fuseRatioTo_listener]

/-- One `processOnFuseEvent` that resolves node `n`, whose delegate is `d`, is a fuse step for
`n` with the fuse duration of `d`. -/
theorem processOnFuseEvent_step (g : SceneGraph) (s : VROInputControllerBase) (source : Int)
    (newNode : Option NodeId) (now1 now2 : ℚ) (n : NodeId) (d : VROEventDelegate)
    (hres : getNodeToHandleEvent g EventAction.OnFuse newNode = some n)
    (hdel : (g.node n).eventDelegate = some d) :
    FuseStep n d.getTimeToFuse now1 now2 s (processOnFuseEvent g s source newNode now1 now2) := by
  unfold FuseStep
  have hnode : ∀ (v : Option ℚ),
      (toNodeIfDelegate g (some n) (Event.onFuse source v)).filterMap (fuseRatioTo n)
        = v.toList := by
    intro v
    cases v <;> simp [toNodeIfDelegate, hdel, fuseRatioTo]
  have hold : ∀ (old : Option NodeId),
      (toNodeIfDelegate g old (Event.onFuse source kOnFuseReset)).filterMap (fuseRatioTo n)
        = [] := by
    intro old
    apply filterMap_toNodeIfDelegate
    intro t
    cases t <;> rfl
  unfold processOnFuseEvent
  simp only [hres]
  by_cases hsame : s.currentFusedNode = some n
  · simp only [hsame, ne_eq, not_true_eq_false, if_false, if_true, Option.bind_some, hdel]
    cases htrig : s.fuseTriggerAtMillis <;> cases hnot : s.haveNotifiedOnFuseTriggered <;>
      simp only [Option.getD_none, Option.getD_some, Bool.not_false, Bool.not_true, if_true,
        if_false, Bool.false_eq_true] <;>
      (try split_ifs) <;>
      simp [notifyOnFuseEvent, notifyNodeIfDelegate, notifyDelegates, emit, hsame, fuseRatiosTo,
        List.filterMap_append, fuseRatiosTo_toDelegates, hnode, hnot, hdel, htrig, *]
  · simp only [hsame, ne_eq, not_false_eq_true, if_true, if_false, Option.bind_some, hdel,
      Option.getD_none, kOnFuseReset, Bool.not_false, Bool.false_eq_true]
    have hold' := hold s.currentFusedNode
    simp only [kOnFuseReset] at hold'
    split_ifs <;>
      simp [notifyOnFuseEvent, notifyNodeIfDelegate, notifyDelegates, emit, fuseRatiosTo,
        List.filterMap_append, fuseRatiosTo_toDelegates, hnode, hold', hdel, *]

/-- A fuse step depends on the states only through the fuse members and the ratios
delivered. -/
theorem FuseStep.congr {n : NodeId} {ttf now1 now2 : ℚ} {s s' t t' : VROInputControllerBase}
    (h : FuseStep n ttf now1 now2 s s')
    (e1 : t.currentFusedNode = s.currentFusedNode)
    (e2 : t.fuseTriggerAtMillis = s.fuseTriggerAtMillis)
    (e3 : t.haveNotifiedOnFuseTriggered = s.haveNotifiedOnFuseTriggered)
    (e4 : fuseRatiosTo n t.log = fuseRatiosTo n s.log)
    (e1' : t'.currentFusedNode = s'.currentFusedNode)
    (e2' : t'.fuseTriggerAtMillis = s'.fuseTriggerAtMillis)
    (e3' : t'.haveNotifiedOnFuseTriggered = s'.haveNotifiedOnFuseTriggered)
    (e4' : fuseRatiosTo n t'.log = fuseRatiosTo n s'.log) :
    FuseStep n ttf now1 now2 t t' := by
  unfold FuseStep at h ⊢
  rw [e1, e2, e3, e4, e1', e2', e3', e4']
  exact h

/-- One `onMove` with a hit result cached whose fuse-eligible node is `n`, with delegate `d`,
is a fuse step for `n`. -/
theorem onMove_fuse_step (env : ControllerEnv) (g : SceneGraph) (s : VROInputControllerBase)
    (hit : VROHitTestResult) (source : Int) (position : VROVector3f) (rotation : VROQuaternion)
    (forward : VROVector3f) (now1 now2 : ℚ) (n : NodeId) (d : VROEventDelegate)
    (hhit : s.hitResult = some hit)
    (hres : getNodeToHandleEvent g EventAction.OnFuse (some hit.node) = some n)
    (hdel : (g.node n).eventDelegate = some d) :
    FuseStep n d.getTimeToFuse now1 now2 s
      (s.onMove env g source position rotation forward now1 now2) := by
  have key := processOnFuseEvent_step g
    (emit { s with lastKnownRotation := rotation, lastKnownPosition := position,
                   lastKnownForward := forward }
      (s.delegates.flatMap (fun d =>
        [⟨Target.listener d, Event.onGazeHit source hit⟩,
         ⟨Target.listener d, Event.onMove source (env.toEuler rotation) position forward⟩])))
    source (some hit.node) now1 now2 n d hres hdel
  have hlog0 : fuseRatiosTo n
      (emit { s with lastKnownRotation := rotation, lastKnownPosition := position,
                     lastKnownForward := forward }
        (s.delegates.flatMap (fun d =>
          [⟨Target.listener d, Event.onGazeHit source hit⟩,
           ⟨Target.listener d, Event.onMove source (env.toEuler rotation) position
             forward⟩]))).log = fuseRatiosTo n s.log := by
    simp only [emit, fuseRatiosTo, List.filterMap_append]
    rw [filterMap_listeners_pair _ _ _ _ (fun t => by cases t <;> rfl)
      (fun t => by cases t <;> rfl)]
    simp
  have hbefore : FuseStep n d.getTimeToFuse now1 now2 s
      (onMoveBeforeDrag env g s hit source position rotation forward now1 now2) := by
    refine key.congr rfl rfl rfl hlog0.symm ?_ ?_ ?_ ?_
    · simp [onMoveBeforeDrag, notifyFocused, emit]
    · simp [onMoveBeforeDrag, notifyFocused, emit]
    · simp [onMoveBeforeDrag, notifyFocused, emit]
    · simp only [onMoveBeforeDrag, notifyFocused, emit, fuseRatiosTo, List.filterMap_append]
      rw [filterMap_toFocused _ _ _ (fun t => by cases t <;> rfl), List.append_nil]
      exact (processGazeEvent_log _ _ _ _ _ n).2
  rcases onMove_cases env g s hit source position rotation forward now1 now2 hhit with h | ⟨dd, h⟩
  · rw [h]
    exact hbefore
  · rw [h]
    obtain ⟨-, f2, f3, f4, -, f6⟩ := processDragging_frame env g
      (onMoveBeforeDrag env g s hit source position rotation forward now1 now2) dd source n
    exact hbefore.congr rfl rfl rfl rfl f2 f3 f4 f6

/-- The second clock reading of an update is among the clock readings. -/
theorem now2_mem_clockReadings {ms : List MoveUpdate} {m : MoveUpdate} (h : m ∈ ms) :
    m.now2 ∈ clockReadings ms := by
  induction ms with
  | nil => simp at h
  | cons a ms ih =>
    rcases List.mem_cons.mp h with rfl | h
    · simp [clockReadings]
    · simp [clockReadings, ih h]

/-- The ratios delivered to the delegate of `n` over consecutive `onMove` updates that resolve
`n` as fuse-eligible node, with fuse duration `ttf` and a non-decreasing clock: each is 0 or
`(t - now2) / ttf` for the deadline `t` of the first update. -/
theorem runMoves_fuse (env : ControllerEnv) (hit : VROHitTestResult) (n : NodeId) (ttf : ℚ)
    (hpos : 0 < ttf) :
    ∀ (ms : List MoveUpdate) (s : VROInputControllerBase) (t : ℚ), s.hitResult = some hit →
      (∀ m ∈ ms, getNodeToHandleEvent m.g EventAction.OnFuse (some hit.node) = some n) →
      (∀ m ∈ ms, ∃ d, (m.g.node n).eventDelegate = some d ∧ d.getTimeToFuse = ttf) →
      (clockReadings ms).Sorted (· ≤ ·) →
      (∀ m0 ∈ ms.head?,
        (if s.currentFusedNode = some n then s.fuseTriggerAtMillis else none).getD
          (m0.now1 + ttf) = t) →
      ∃ R, fuseRatiosTo n (runMoves env s ms).log = fuseRatiosTo n s.log ++ R ∧
        R.Sorted (· ≥ ·) ∧ (∀ r ∈ R, 0 ≤ r) ∧
        (∀ r ∈ R, r = 0 ∨ ∃ m ∈ ms, r = (t - m.now2) / ttf) ∧
        ((if s.currentFusedNode = some n then s.haveNotifiedOnFuseTriggered else false) = true →
          R = []) ∧
        R.count 0 ≤ 1 ∧ (∀ pre post, R = pre ++ 0 :: post → post = []) := by
  intro ms
  induction ms with
  | nil =>
    intro s t _ _ _ _ _
    exact ⟨[], by simp [runMoves], List.sorted_nil, by simp, by simp, fun _ => rfl, by simp,
      by intro pre post h; simp at h⟩
  | cons m ms ih =>
    intro s t hhit hres httf hclock heff
    obtain ⟨d, hdel, hd⟩ := httf m (List.mem_cons_self _ _)
    have hstep := onMove_fuse_step env m.g s hit m.source m.position m.rotation m.forward
      m.now1 m.now2 n d hhit (hres m (List.mem_cons_self _ _)) hdel
    rw [hd] at hstep
    have ht := heff m (by simp)
    unfold FuseStep at hstep
    rw [ht] at hstep
    obtain ⟨s1f, s1t, hcase⟩ := hstep
    have hclock' : (clockReadings ms).Sorted (· ≤ ·) := by
      simp only [clockReadings] at hclock
      exact (List.sorted_cons.mp (List.sorted_cons.mp hclock).2).2
    have hlater : ∀ m' ∈ ms, m.now2 ≤ m'.now2 := by
      intro m' hm'
      simp only [clockReadings] at hclock
      exact (List.sorted_cons.mp (List.sorted_cons.mp hclock).2).1 _
        (now2_mem_clockReadings hm')
    obtain ⟨R', hR', hsorted', hnonneg', hform', hnot', hcount', hlast'⟩ :=
      ih (s.onMove env m.g m.source m.position m.rotation m.forward m.now1 m.now2) t
        (by simpa using hhit) (fun m' hm' => hres m' (List.mem_cons_of_mem _ hm'))
        (fun m' hm' => httf m' (List.mem_cons_of_mem _ hm')) hclock'
        (by intro m0 _; simp [s1f, s1t])
    simp only [s1f, if_true] at hnot'
    rw [runMoves, hR']
    generalize hN :
      (if s.currentFusedNode = some n then s.haveNotifiedOnFuseTriggered else false) = N
      at hcase ⊢
    cases N with
    | true =>
      simp only [if_true] at hcase
      obtain ⟨c1, c2⟩ := hcase
      have hnil := hnot' c1
      subst hnil
      exact ⟨[], by simp [c2], List.sorted_nil, by simp, by simp, fun _ => rfl, by simp,
        by intro pre post h; simp at h⟩
    | false =>
      simp only [Bool.false_eq_true, if_false] at hcase
      by_cases hz : (t - m.now2) / ttf ≤ 0
      · simp only [hz, if_true] at hcase
        obtain ⟨c1, c2⟩ := hcase
        have hnil := hnot' c1
        subst hnil
        refine ⟨[0], by simp [c2], List.sorted_singleton _, by simp, by simp, ?_, by simp, ?_⟩
        · intro h; exact absurd h (by simp)
        · intro pre post h
          cases pre with
          | nil => simpa using h.symm
          | cons a pre =>
            have := congrArg List.length h
            simp at this
      · simp only [hz, if_false] at hcase
        obtain ⟨-, c2⟩ := hcase
        have hrpos : 0 < (t - m.now2) / ttf := not_le.mp hz
        refine ⟨(t - m.now2) / ttf :: R', by simp [c2], ?_, ?_, ?_, ?_, ?_, ?_⟩
        · refine List.sorted_cons.mpr ⟨?_, hsorted'⟩
          intro b hb
          rcases hform' b hb with rfl | ⟨m', hm', rfl⟩
          · exact le_of_lt hrpos
          · exact div_le_div_of_nonneg_right (sub_le_sub_left (hlater m' hm') t)
              (le_of_lt hpos)
        · intro r hr
          rcases List.mem_cons.mp hr with rfl | hr
          · exact le_of_lt hrpos
          · exact hnonneg' r hr
        · intro r hr
          rcases List.mem_cons.mp hr with rfl | hr
          · exact Or.inr ⟨m, List.mem_cons_self _ _, rfl⟩
          · rcases hform' r hr with h0 | ⟨m', hm', h⟩
            · exact Or.inl h0
            · exact Or.inr ⟨m', List.mem_cons_of_mem _ hm', h⟩
        · intro h; exact absurd h (by simp)
        · rw [List.count_cons_of_ne (ne_of_gt hrpos).symm]
          exact hcount'
        · intro pre post h
          cases pre with
          | nil =>
            simp only [List.nil_append, List.cons.injEq] at h
            exact absurd h.1 (ne_of_gt hrpos)
          | cons a pre =>
            simp only [List.cons_append, List.cons.injEq] at h
            exact hlast' pre post h.2

/-! ## C10 -/

/-- C10: over consecutive `onMove` updates, with the cached hit result, that resolve the same
fuse-eligible node `n`, whose delegate has the fixed positive fuse duration `ttf`, and with a
non-decreasing clock, the fuse ratios delivered to the delegate of `n` (the broadcast ratios,
the reset value not being a ratio) are non-increasing and `≥ 0`, the ratio 0 is delivered at
most once, and nothing is delivered after it. -/
theorem C10_fuse_ratios_non_increasing (env : ControllerEnv) (s : VROInputControllerBase)
    (hit : VROHitTestResult) (n : NodeId) (ttf : ℚ) (ms : List MoveUpdate)
    (hhit : s.hitResult = some hit)
    (hres : ∀ m ∈ ms, getNodeToHandleEvent m.g EventAction.OnFuse (some hit.node) = some n)
    (httf : ∀ m ∈ ms, ∃ d, (m.g.node n).eventDelegate = some d ∧ d.getTimeToFuse = ttf)
    (hpos : 0 < ttf) (hclock : (clockReadings ms).Sorted (· ≤ ·)) :
    ∃ R, fuseRatiosTo n (runMoves env s ms).log = fuseRatiosTo n s.log ++ R ∧
      R.Sorted (· ≥ ·) ∧ (∀ r ∈ R, 0 ≤ r) ∧ R.count 0 ≤ 1 ∧
      (∀ pre post, R = pre ++ 0 :: post → post = []) := by
  cases ms with
  | nil =>
    exact ⟨[], by simp [runMoves], List.sorted_nil, by simp, by simp,
      by intro pre post h; simp at h⟩
  | cons m ms =>
    obtain ⟨R, h1, h2, h3, -, -, h6, h7⟩ := runMoves_fuse env hit n ttf hpos (m :: ms) s
      ((if s.currentFusedNode = some n then s.fuseTriggerAtMillis else none).getD
        (m.now1 + ttf)) hhit hres httf hclock (by intro m0 hm0; simp at hm0; subst hm0; rfl)
    exact ⟨R, h1, h2, h3, h6, h7⟩

/-- In the sample graph the fuse of a hit on node 1 is handled by node 1. -/
theorem sampleGraph_fuse :
    getNodeToHandleEvent sampleGraph EventAction.OnFuse (some 1) = some 1 := by
  rw [getNodeToHandleEvent]
  simp [SceneGraph.handles, sampleGraph, sampleDelegate]

/-- C10, witness: four `onMove` updates of the sample controller with the hit on node 1
cached, at clock readings 0, 500, 1000 and 1500 ms, the fuse duration of node 1 being
1000 ms. -/
theorem C10_fuse_ratios_non_increasing_witness :
    ∃ R, fuseRatiosTo 1 (runMoves sampleEnv sampleFocused
        [⟨sampleGraph, 0, ⟨0, 0, 0⟩, ⟨0, 0, 0, 1⟩, ⟨1, 0, 0⟩, 0, 0⟩,
         ⟨sampleGraph, 0, ⟨0, 0, 0⟩, ⟨0, 0, 0, 1⟩, ⟨1, 0, 0⟩, 500, 500⟩,
         ⟨sampleGraph, 0, ⟨0, 0, 0⟩, ⟨0, 0, 0, 1⟩, ⟨1, 0, 0⟩, 1000, 1000⟩,
         ⟨sampleGraph, 0, ⟨0, 0, 0⟩, ⟨0, 0, 0, 1⟩, ⟨1, 0, 0⟩, 1500, 1500⟩]).log
        = fuseRatiosTo 1 sampleFocused.log ++ R ∧
      R.Sorted (· ≥ ·) ∧ (∀ r ∈ R, 0 ≤ r) ∧ R.count 0 ≤ 1 ∧
      (∀ pre post, R = pre ++ 0 :: post → post = []) :=
  C10_fuse_ratios_non_increasing sampleEnv sampleFocused sampleHit 1 1000
    [⟨sampleGraph, 0, ⟨0, 0, 0⟩, ⟨0, 0, 0, 1⟩, ⟨1, 0, 0⟩, 0, 0⟩,
     ⟨sampleGraph, 0, ⟨0, 0, 0⟩, ⟨0, 0, 0, 1⟩, ⟨1, 0, 0⟩, 500, 500⟩,
     ⟨sampleGraph, 0, ⟨0, 0, 0⟩, ⟨0, 0, 0, 1⟩, ⟨1, 0, 0⟩, 1000, 1000⟩,
     ⟨sampleGraph, 0, ⟨0, 0, 0⟩, ⟨0, 0, 0, 1⟩, ⟨1, 0, 0⟩, 1500, 1500⟩]
    sampleFocused_hitResult
    (by
      intro m hm
      simp only [List.mem_cons, List.mem_singleton, List.not_mem_nil, or_false] at hm
      rcases hm with rfl | rfl | rfl | rfl <;> exact sampleGraph_fuse)
    (by
      intro m hm
      simp only [List.mem_cons, List.mem_singleton, List.not_mem_nil, or_false] at hm
      rcases hm with rfl | rfl | rfl | rfl <;>
        exact ⟨sampleDelegate, by simp [sampleGraph], rfl⟩)
    (by norm_num)
    (by simp [clockReadings]; norm_num)

/-! ## Seeking: further facts -/

/-- When every timestamp is below `time`, the search from `0` to the row count runs past the
last row. -/
theorem BodyPlaybackInfo.returnRowClosestToTime_all_below (d : VROBodyAnimData) (time : ℚ)
    (hall : ∀ w ∈ d.animationRowTimestamps, w < time) :
    BodyPlaybackInfo.returnRowClosestToTime d time 0 d.animationRowTimestamps.length
      = some d.animationRowTimestamps.length := by
  obtain ⟨r, hr, -, h2, -, h4⟩ :=
    BodyPlaybackInfo.returnRowClosestToTime_bracket d time _ 0 d.animationRowTimestamps.length
      rfl (Nat.zero_le _) (le_refl _)
  rcases Nat.lt_or_ge r d.animationRowTimestamps.length with hlt | hge
  · obtain ⟨v, hv, hvt⟩ := h4 hlt
    have hmem : v ∈ d.animationRowTimestamps := List.getElem?_mem hv
    exact absurd (hall v hmem) (not_lt.mpr hvt)
  · have : r = d.animationRowTimestamps.length := le_antisymm h2 hge
    rw [hr, this]

/-- Over a dataset whose two vectors have the same size `setTime` returns, and the state it
returns has the status and the dataset of the state it started from. -/
theorem BodyPlaybackInfo.setTime_returns (s : BodyPlaybackInfo) (time now : ℚ)
    (hal : s.bodyAnimData.Aligned) :
    ∃ s', s.setTime time now = some s' ∧ s'.playStatus = s.playStatus ∧
      s'.bodyAnimData = s.bodyAnimData ∧ s'.totalPlaybackTime = s.totalPlaybackTime := by
  by_cases hn : s.bodyAnimData.getTotalRows = 0
  · exact ⟨s, by simp [BodyPlaybackInfo.setTime, hn], rfl, rfl, rfl⟩
  · have hlen : s.bodyAnimData.animationRowTimestamps.length = s.bodyAnimData.getTotalRows := hal
    obtain ⟨r, hr, -, h2, -, -⟩ :=
      BodyPlaybackInfo.returnRowClosestToTime_bracket s.bodyAnimData time _ 0
        s.bodyAnimData.animationRowTimestamps.length rfl (Nat.zero_le _) (le_refl _)
    rw [hlen] at hr h2
    by_cases hle : r ≤ s.bodyAnimData.getTotalRows - 1
    · have hrlt : r < s.bodyAnimData.animationRowTimestamps.length := by omega
      exact ⟨_, BodyPlaybackInfo.setTime_of_row s time now r _ hn hr hle
        (List.getElem?_eq_getElem hrlt), rfl, rfl, rfl⟩
    · refine ⟨_, BodyPlaybackInfo.setTime_of_past s time now r hn hr hle, ?_, ?_, ?_⟩ <;>
        split_ifs <;> rfl

/-- Over a dataset with at least one row, `setTime(t)` with `t` above the total playback time
and above every row timestamp returns and leaves the current row index equal to
`rowCount - 1`: the search runs past the last row, so the clamp stands. -/
theorem BodyPlaybackInfo.setTime_clamps_of_all_below (s : BodyPlaybackInfo) (t now : ℚ)
    (hal : s.bodyAnimData.Aligned) (hn : s.bodyAnimData.getTotalRows ≠ 0)
    (ht : t > s.totalPlaybackTime)
    (hall : ∀ w ∈ s.bodyAnimData.animationRowTimestamps, w < t) :
    ∃ s', s.setTime t now = some s' ∧
      s'.currentPlaybackRow = s.bodyAnimData.getTotalRows - 1 := by
  have hlen : s.bodyAnimData.animationRowTimestamps.length = s.bodyAnimData.getTotalRows := hal
  have hr := BodyPlaybackInfo.returnRowClosestToTime_all_below s.bodyAnimData t hall
  rw [hlen] at hr
  refine ⟨_, BodyPlaybackInfo.setTime_of_past s t now _ hn hr (by omega), ?_⟩
  simp [ht]

/-! ## C12 -/

/-- C12, the code at a total playback time below a row timestamp: over rows with timestamps
0, 100, 250, `setTime(999)` from a total playback time of 250 leaves the current row index
equal to 2, as the clamp asks; but from a total playback time of 50 (the member is written by
no operation), `setTime(60)`, with 60 above that total, sets the row index to 2 and then lets
the search put it to 1, and `rowCount - 1` is 2. -/
theorem C12_setTime_clamp_overridden_by_search :
    scenarioShortTotal.bodyAnimData.animationRowTimestamps = [0, 100, 250] ∧
    scenarioShortTotal.bodyAnimData.getTotalRows - 1 = 2 ∧
    (∃ s', scenarioInfo.setTime 999 0 = some s' ∧ s'.currentPlaybackRow = 2) ∧
    (60 : ℚ) > scenarioShortTotal.totalPlaybackTime ∧
    (scenarioShortTotal.setTime 60 0).map (fun s' => s'.currentPlaybackRow) = some 1 := by
  have hsearch : BodyPlaybackInfo.returnRowClosestToTime scenarioShortTotal.bodyAnimData 60 0
      scenarioShortTotal.bodyAnimData.getTotalRows = some 1 := by
    simp [BodyPlaybackInfo.returnRowClosestToTime, scenarioShortTotal, scenarioInfo,
      scenarioData, VROBodyAnimData.getAnimRowTimestamp, VROBodyAnimData.getTotalRows]
    norm_num
  have hclamp : ∃ s', scenarioInfo.setTime 999 0 = some s' ∧
      s'.currentPlaybackRow = scenarioInfo.bodyAnimData.getTotalRows - 1 :=
    BodyPlaybackInfo.setTime_clamps_of_all_below scenarioInfo 999 0 rfl (by decide)
      (by norm_num [scenarioInfo])
      (by
        intro w hw
        simp only [scenarioInfo, scenarioData, List.mem_cons, List.mem_singleton,
          List.not_mem_nil, or_false] at hw
        rcases hw with rfl | rfl | rfl <;> norm_num)
  refine ⟨rfl, rfl, hclamp, by norm_num [scenarioShortTotal], ?_⟩
  rw [BodyPlaybackInfo.setTime_of_row scenarioShortTotal 60 0 1 100 (by decide) hsearch
    (by decide) rfl]
  rfl

/-! ## C13 -/

/-- C13 (as amended): over a non-empty dataset with non-decreasing timestamps, `setTime(t)`
executed at clock time `now` returns.  When `t` does not exceed the timestamp of some row,
`now - startTime` then equals the timestamp of the row that is current after the call.  When
`t` exceeds every row timestamp, the start time is left as it was. -/
theorem C13_setTime_start_time_matches_row (s : BodyPlaybackInfo) (t now : ℚ)
    (hal : s.bodyAnimData.Aligned) (hn : s.bodyAnimData.getTotalRows ≠ 0)
    (hs : s.bodyAnimData.animationRowTimestamps.Sorted (· ≤ ·)) :
    ((∃ w ∈ s.bodyAnimData.animationRowTimestamps, t ≤ w) →
      ∃ s' v, s.setTime t now = some s' ∧ s'.getCurrentRowTimestamp = some v ∧
        now - s'.startPlaybackTime = v) ∧
    ((∀ w ∈ s.bodyAnimData.animationRowTimestamps, w < t) →
      ∃ s', s.setTime t now = some s' ∧ s'.startPlaybackTime = s.startPlaybackTime) := by
  have hlen : s.bodyAnimData.animationRowTimestamps.length = s.bodyAnimData.getTotalRows := hal
  constructor
  · intro hex
    obtain ⟨r, hr, hrle, hlo, -⟩ :=
      BodyPlaybackInfo.returnRowClosestToTime_sorted s.bodyAnimData t hs
    have hrlt : r < s.bodyAnimData.animationRowTimestamps.length := by
      rcases Nat.lt_or_ge r s.bodyAnimData.animationRowTimestamps.length with h | h
      · exact h
      · obtain ⟨w, hw, htw⟩ := hex
        obtain ⟨j, hj, rfl⟩ := List.getElem_of_mem hw
        exact absurd (hlo j _ (by omega) (List.getElem?_eq_getElem hj)) (not_lt.mpr htw)
    rw [hlen] at hr
    refine ⟨_, s.bodyAnimData.animationRowTimestamps[r],
      BodyPlaybackInfo.setTime_of_row s t now r _ hn hr (by omega)
        (List.getElem?_eq_getElem hrlt), ?_, ?_⟩
    · simp [BodyPlaybackInfo.getCurrentRowTimestamp, VROBodyAnimData.getAnimRowTimestamp,
        List.getElem?_eq_getElem hrlt]
    · simp
  · intro hall
    have hr := BodyPlaybackInfo.returnRowClosestToTime_all_below s.bodyAnimData t hall
    rw [hlen] at hr
    refine ⟨_, BodyPlaybackInfo.setTime_of_past s t now _ hn hr (by omega), ?_⟩
    split_ifs <;> rfl

/-- C13, witness: rows with timestamps 0, 100, 250; `setTime(150)` at clock time 1000, and
`setTime(999)`, above every row timestamp, at clock time 1000. -/
theorem C13_setTime_start_time_matches_row_witness :
    (∃ s' v, scenarioInfo.setTime 150 1000 = some s' ∧ s'.getCurrentRowTimestamp = some v ∧
      1000 - s'.startPlaybackTime = v) ∧
    (∃ s', scenarioInfo.setTime 999 1000 = some s' ∧
      s'.startPlaybackTime = scenarioInfo.startPlaybackTime) :=
  ⟨(C13_setTime_start_time_matches_row scenarioInfo 150 1000 rfl (by decide)
      (by simp [scenarioInfo, scenarioData]; norm_num)).1
      ⟨250, by simp [scenarioInfo, scenarioData], by norm_num⟩,
    (C13_setTime_start_time_matches_row scenarioInfo 999 1000 rfl (by decide)
      (by simp [scenarioInfo, scenarioData]; norm_num)).2
      (by
        intro w hw
        simp only [scenarioInfo, scenarioData, List.mem_cons, List.mem_singleton,
          List.not_mem_nil, or_false] at hw
        rcases hw with rfl | rfl | rfl <;> norm_num)⟩

/-- C13, counterexample: rows with timestamps 0, 100, 250 (non-decreasing), a total playback
time of 300, current row 0 and start time 0; `setTime(260)` at clock time 1000, with 260 not
above the total playback time, leaves the state as it is, so `now - startTime` is 1000 and
the timestamp of the current row is 0. -/
theorem C13_counterexample :
    scenarioLongTotal.bodyAnimData.animationRowTimestamps = [0, 100, 250] ∧
    scenarioLongTotal.bodyAnimData.animationRowTimestamps.Sorted (· ≤ ·) ∧
    (260 : ℚ) ≤ scenarioLongTotal.totalPlaybackTime ∧
    scenarioLongTotal.setTime 260 1000 = some scenarioLongTotal ∧
    scenarioLongTotal.getCurrentRowTimestamp = some 0 ∧
    (1000 : ℚ) - scenarioLongTotal.startPlaybackTime ≠ 0 := by
  have hsearch : BodyPlaybackInfo.returnRowClosestToTime scenarioLongTotal.bodyAnimData 260 0
      scenarioLongTotal.bodyAnimData.getTotalRows = some 3 := by
    simp [BodyPlaybackInfo.returnRowClosestToTime, scenarioLongTotal, scenarioInfo,
      scenarioData, VROBodyAnimData.getAnimRowTimestamp, VROBodyAnimData.getTotalRows]
    norm_num
  refine ⟨rfl, by simp [scenarioLongTotal, scenarioInfo, scenarioData]; norm_num,
    by norm_num [scenarioLongTotal], ?_, rfl, by norm_num [scenarioLongTotal, scenarioInfo]⟩
  rw [BodyPlaybackInfo.setTime_of_past scenarioLongTotal 260 1000 3 (by decide) hsearch
    (by decide)]
  norm_num [scenarioLongTotal]

/-! ## C14 -/

/-- C14: from status `Initialized` or `Finished`, `start()` executed at clock time `now` sets
the current row index to 0, the status to `Start` and the start time to `now`, and writes
nothing else; from status `Start` or `Playing` it changes nothing. -/
theorem C14_start_resets_or_keeps (s : BodyPlaybackInfo) (now : ℚ) :
    (s.playStatus = VROBodyPlayerStatus.Initialized ∨
        s.playStatus = VROBodyPlayerStatus.Finished →
      s.start now =
        { s with
          currentPlaybackRow := 0
          playStatus := VROBodyPlayerStatus.Start
          startPlaybackTime := now }) ∧
    (s.playStatus = VROBodyPlayerStatus.Start ∨ s.playStatus = VROBodyPlayerStatus.Playing →
      s.start now = s) := by
  constructor
  · intro h
    simp [BodyPlaybackInfo.start, h]
  · intro h
    rcases h with h | h <;> simp [BodyPlaybackInfo.start, h]

/-- C14, witness: `start()` at clock time 5 on the scenario state as constructed, and on the
scenario state at its last row while `Playing`. -/
theorem C14_start_resets_or_keeps_witness :
    scenarioInfo.start 5 =
        { scenarioInfo with
          currentPlaybackRow := 0
          playStatus := VROBodyPlayerStatus.Start
          startPlaybackTime := 5 } ∧
      scenarioLastRow.start 5 = scenarioLastRow :=
  ⟨(C14_start_resets_or_keeps scenarioInfo 5).1 (Or.inl rfl),
    (C14_start_resets_or_keeps scenarioLastRow 5).2 (Or.inr rfl)⟩

/-! ## C15 -/

/-- C15: from every playback state, `pause()` at clock time `p` followed by `start()` at clock
time `r` gives status `Playing`, the same current row index, and a start time with
`r - startTime' = p - startTime`. -/
theorem C15_pause_then_start_keeps_elapsed (s : BodyPlaybackInfo) (p r : ℚ) :
    ((s.pause p).start r).playStatus = VROBodyPlayerStatus.Playing ∧
    ((s.pause p).start r).currentPlaybackRow = s.currentPlaybackRow ∧
    r - ((s.pause p).start r).startPlaybackTime = p - s.startPlaybackTime := by
  have hstart : (s.pause p).start r =
      { s with
        processTimeWhenPaused := p - s.startPlaybackTime
        startPlaybackTime := r - (p - s.startPlaybackTime)
        playStatus := VROBodyPlayerStatus.Playing } := by
    simp [BodyPlaybackInfo.pause, BodyPlaybackInfo.start]
  rw [hstart]
  refine ⟨rfl, rfl, ?_⟩
  show r - (r - (p - s.startPlaybackTime)) = p - s.startPlaybackTime
  ring

/-! ## C16 -/

/-- C16: `incrementAnimRow` increases the current row index by one and writes no other member
than the status, which goes from `Start` to `Playing` when the new index is above 0 and below
the row count, from `Playing` to `Finished` when the new index is at least the row count, and
is unchanged in every other case. -/
theorem C16_incrementAnimRow_transitions (s : BodyPlaybackInfo) :
    s.incrementAnimRow =
      { s with
        currentPlaybackRow := s.currentPlaybackRow + 1
        playStatus :=
          if s.playStatus = VROBodyPlayerStatus.Start ∧ 0 < s.currentPlaybackRow + 1 ∧
              s.currentPlaybackRow + 1 < s.bodyAnimData.getTotalRows then
            VROBodyPlayerStatus.Playing
          else if s.playStatus = VROBodyPlayerStatus.Playing ∧
              s.bodyAnimData.getTotalRows ≤ s.currentPlaybackRow + 1 then
            VROBodyPlayerStatus.Finished
          else s.playStatus } := by
  unfold BodyPlaybackInfo.incrementAnimRow
  by_cases h1 : s.currentPlaybackRow + 1 < s.bodyAnimData.getTotalRows
  · have h1' : ¬ s.bodyAnimData.getTotalRows ≤ s.currentPlaybackRow + 1 := by omega
    by_cases h2 : s.playStatus = VROBodyPlayerStatus.Start
    · simp [h1, h2]
    · simp [h1, h2, h1']
  · have h1' : s.bodyAnimData.getTotalRows ≤ s.currentPlaybackRow + 1 := by omega
    by_cases h3 : s.playStatus = VROBodyPlayerStatus.Playing
    · simp [h1, h3, h1']
    · simp [h1, h3, h1']

/-! ## C17 -/

/-- C17 (as amended): from status `Finished`, `setTime(t)` and `incrementAnimRow()` leave the
status `Finished`, `pause()` sets it to `Paused`, as it does from every status, and `start()`
sets it to `Start`. -/
theorem C17_finished_left_by_pause_and_start (s : BodyPlaybackInfo) (t now : ℚ)
    (hal : s.bodyAnimData.Aligned) (hf : s.playStatus = VROBodyPlayerStatus.Finished) :
    (∃ s', s.setTime t now = some s' ∧ s'.playStatus = VROBodyPlayerStatus.Finished) ∧
    s.incrementAnimRow.playStatus = VROBodyPlayerStatus.Finished ∧
    (s.pause now).playStatus = VROBodyPlayerStatus.Paused ∧
    (s.start now).playStatus = VROBodyPlayerStatus.Start := by
  refine ⟨?_, ?_, rfl, ?_⟩
  · obtain ⟨s', h1, h2, -, -⟩ := BodyPlaybackInfo.setTime_returns s t now hal
    exact ⟨s', h1, h2.trans hf⟩
  · unfold BodyPlaybackInfo.incrementAnimRow
    simp only [hf]
    split_ifs <;> simp_all
  · simp [BodyPlaybackInfo.start, hf]

/-- C17, witness: the scenario state past its last row with status `Finished`. -/
theorem C17_finished_left_by_pause_and_start_witness :
    (∃ s', scenarioFinished.setTime 100 7 = some s' ∧
        s'.playStatus = VROBodyPlayerStatus.Finished) ∧
    scenarioFinished.incrementAnimRow.playStatus = VROBodyPlayerStatus.Finished ∧
    (scenarioFinished.pause 7).playStatus = VROBodyPlayerStatus.Paused ∧
    (scenarioFinished.start 7).playStatus = VROBodyPlayerStatus.Start :=
  C17_finished_left_by_pause_and_start scenarioFinished 100 7 rfl rfl

/-- C17, counterexample: from the scenario state with status `Finished`, `pause()` gives
status `Paused`, and a following `start()` gives status `Playing`. -/
theorem C17_counterexample :
    scenarioFinished.playStatus = VROBodyPlayerStatus.Finished ∧
    (scenarioFinished.pause 7).playStatus = VROBodyPlayerStatus.Paused ∧
    (scenarioFinished.pause 7).playStatus ≠ VROBodyPlayerStatus.Finished ∧
    ((scenarioFinished.pause 7).start 9).playStatus = VROBodyPlayerStatus.Playing := by
  refine ⟨rfl, rfl, by decide, rfl⟩

/-! ## C18 -/

/-- C18 (as amended): `isFinished()` returns true exactly when the current row index is at
least the row count.  Over a non-empty dataset it returns false at the last row
(`rowCount - 1`) and true after the next `incrementAnimRow`, which also takes the status from
`Playing` to `Finished`. -/
theorem C18_isFinished_past_last_row (s : BodyPlaybackInfo)
    (hn : s.bodyAnimData.getTotalRows ≠ 0)
    (hrow : s.currentPlaybackRow = s.bodyAnimData.getTotalRows - 1)
    (hp : s.playStatus = VROBodyPlayerStatus.Playing) :
    (∀ s0 : BodyPlaybackInfo,
      s0.isFinished = true ↔ s0.bodyAnimData.getTotalRows ≤ s0.currentPlaybackRow) ∧
    s.isFinished = false ∧
    s.incrementAnimRow.isFinished = true ∧
    s.incrementAnimRow.playStatus = VROBodyPlayerStatus.Finished := by
  have hall : ∀ s0 : BodyPlaybackInfo,
      s0.isFinished = true ↔ s0.bodyAnimData.getTotalRows ≤ s0.currentPlaybackRow := by
    intro s0
    simp [BodyPlaybackInfo.isFinished]
  have hlt : ¬ s.bodyAnimData.getTotalRows ≤ s.currentPlaybackRow := by omega
  have hnext : s.bodyAnimData.getTotalRows ≤ s.currentPlaybackRow + 1 := by omega
  refine ⟨hall, ?_, ?_, ?_⟩
  · cases h : s.isFinished with
    | false => rfl
    | true => exact absurd ((hall s).mp h) hlt
  · rw [hall]
    unfold BodyPlaybackInfo.incrementAnimRow
    simp only [hp]
    split_ifs <;> simp_all
  · unfold BodyPlaybackInfo.incrementAnimRow
    have h2 : ¬ s.currentPlaybackRow + 1 < s.bodyAnimData.getTotalRows := by omega
    simp [hp, h2, hnext]

/-- C18, witness: rows with timestamps 0, 100, 250, at row index 2 while `Playing`. -/
theorem C18_isFinished_past_last_row_witness :
    scenarioLastRow.isFinished = false ∧
    scenarioLastRow.incrementAnimRow.isFinished = true ∧
    scenarioLastRow.incrementAnimRow.playStatus = VROBodyPlayerStatus.Finished :=
  (C18_isFinished_past_last_row scenarioLastRow (by decide) rfl rfl).2

/-- C18, counterexample: rows with timestamps 0, 100, 250; the status is `Playing` and the
current row index is 2, the last row, and `isFinished()` returns false. -/
theorem C18_counterexample :
    scenarioLastRow.bodyAnimData.animationRowTimestamps = [0, 100, 250] ∧
    scenarioLastRow.playStatus = VROBodyPlayerStatus.Playing ∧
    scenarioLastRow.currentPlaybackRow = scenarioLastRow.bodyAnimData.getTotalRows - 1 ∧
    scenarioLastRow.isFinished = false := by
  refine ⟨rfl, rfl, rfl, rfl⟩

/-! ## C19 -/

/-- C19, the code at the empty dataset: in the state the constructor leaves over a dataset
without rows, `setTime(t)` returns with the state unchanged, while `getCurrentRowTimestamp()`
and `getCurrentRowJointsAsMap()` index their vector at row 0, outside its bounds. -/
theorem C19_getters_index_empty_dataset (t now : ℚ) :
    emptyInfo.bodyAnimData.getTotalRows = 0 ∧
    emptyInfo.setTime t now = some emptyInfo ∧
    emptyInfo.getCurrentRowTimestamp = none ∧
    emptyInfo.getCurrentRowJointsAsMap = none := by
  refine ⟨rfl, ?_, rfl, rfl⟩
  simp [BodyPlaybackInfo.setTime, emptyInfo, BodyPlaybackInfo.construct, emptyData,
    VROBodyAnimData.getTotalRows]

/-! ## C11 -/

/-- C11: when the node resolved for the fuse differs from the currently fused node,
`processOnFuseEvent` first delivers the reset value to every listener (and to the delegate of
the node fused so far), clears the notified flag, unsets the deadline and records the resolved
node, and then goes on as from that state.  The resolved node is the fused node afterwards,
also when it is `none`; in that case the reset state is the result, so nothing else is
delivered.  When it is a node, the deadline is counted anew from the clock, and, for a fuse
duration other than 0 (where the ratio is a quotient of numbers), the flag is set again only
when the first ratio is already at most 0. -/
theorem C11_fuse_reset_on_change (g : SceneGraph) (s : VROInputControllerBase) (source : Int)
    (newNode : Option NodeId) (now1 now2 : ℚ)
    (hdiff : s.currentFusedNode ≠ getNodeToHandleEvent g EventAction.OnFuse newNode) :
    processOnFuseEvent g s source newNode now1 now2
      = processOnFuseEvent g
          { s with
            log := s.log ++ (s.toDelegates (Event.onFuse source kOnFuseReset) ++
              toNodeIfDelegate g s.currentFusedNode (Event.onFuse source kOnFuseReset))
            fuseTriggerAtMillis := kOnFuseReset
            haveNotifiedOnFuseTriggered := false
            currentFusedNode := getNodeToHandleEvent g EventAction.OnFuse newNode }
          source newNode now1 now2 ∧
    (processOnFuseEvent g s source newNode now1 now2).currentFusedNode
      = getNodeToHandleEvent g EventAction.OnFuse newNode ∧
    (∀ l ∈ s.delegates,
      (⟨Target.listener l, Event.onFuse source kOnFuseReset⟩ : Notification)
        ∈ (processOnFuseEvent g s source newNode now1 now2).log) ∧
    (getNodeToHandleEvent g EventAction.OnFuse newNode = none →
      processOnFuseEvent g s source newNode now1 now2
        = { s with
            log := s.log ++ (s.toDelegates (Event.onFuse source kOnFuseReset) ++
              toNodeIfDelegate g s.currentFusedNode (Event.onFuse source kOnFuseReset))
            fuseTriggerAtMillis := kOnFuseReset
            haveNotifiedOnFuseTriggered := false
            currentFusedNode := none }) ∧
    (∀ n d, getNodeToHandleEvent g EventAction.OnFuse newNode = some n →
      (g.node n).eventDelegate = some d →
      (processOnFuseEvent g s source newNode now1 now2).fuseTriggerAtMillis
          = some (now1 + d.getTimeToFuse) ∧
      (d.getTimeToFuse ≠ 0 →
        (processOnFuseEvent g s source newNode now1 now2).haveNotifiedOnFuseTriggered
          = decide ((now1 + d.getTimeToFuse - now2) / d.getTimeToFuse ≤ 0))) := by
  have hlisten : ∀ l ∈ s.delegates,
      (⟨Target.listener l, Event.onFuse source kOnFuseReset⟩ : Notification)
        ∈ s.toDelegates (Event.onFuse source kOnFuseReset) := by
    intro l hl
    exact List.mem_map.mpr ⟨l, hl, rfl⟩
  cases hres : getNodeToHandleEvent g EventAction.OnFuse newNode with
  | none =>
    rw [hres] at hdiff
    refine ⟨?_, ?_, ?_, ?_, ?_⟩
    · unfold processOnFuseEvent
      simp [hres, hdiff, notifyOnFuseEvent, notifyNodeIfDelegate, notifyDelegates, emit]
    · unfold processOnFuseEvent
      simp [hres, hdiff]
    · intro l hl
      unfold processOnFuseEvent
      simp only [hres, hdiff, ne_eq, not_false_eq_true, if_true]
      simp only [notifyOnFuseEvent, notifyNodeIfDelegate, notifyDelegates, emit]
      exact List.mem_append_left _ (List.mem_append_right _ (hlisten l hl))
    · intro _
      unfold processOnFuseEvent
      simp [hres, hdiff, notifyOnFuseEvent, notifyNodeIfDelegate, notifyDelegates, emit]
    · intro n d hn
      exact absurd hn (by simp)
  | some m =>
    rw [hres] at hdiff
    have hm : (g.node m).eventDelegate.isSome = true :=
      SceneGraph.delegate_of_handles (getNodeToHandleEvent_handles hres)
    obtain ⟨dm, hdm⟩ := Option.isSome_iff_exists.mp hm
    refine ⟨?_, ?_, ?_, ?_, ?_⟩
    · unfold processOnFuseEvent
      simp [hres, hdiff, notifyOnFuseEvent, notifyNodeIfDelegate, notifyDelegates, emit, hdm,
        kOnFuseReset]
    · unfold processOnFuseEvent
      simp only [hres, hdiff, ne_eq, not_false_eq_true, if_true, Option.some_bind, hdm,
        kOnFuseReset, Bool.not_false]
      split_ifs <;>
        simp [notifyOnFuseEvent, notifyNodeIfDelegate, notifyDelegates, emit]
    · intro l hl
      have hl' := hlisten l hl
      unfold processOnFuseEvent
      simp only [hres, hdiff, ne_eq, not_false_eq_true, if_true, Option.some_bind, hdm,
        kOnFuseReset, Bool.not_false]
      simp only [kOnFuseReset] at hl'
      split_ifs <;>
        simp [notifyOnFuseEvent, notifyNodeIfDelegate, notifyDelegates, emit, hl']
    · intro h
      exact absurd h (by simp)
    · intro n d hn hd
      have hnm : m = n := by simpa using hn
      subst hnm
      have hdd : dm = d := by
        rw [hdm] at hd
        simpa using hd
      subst hdd
      unfold processOnFuseEvent
      simp only [hres, hdiff, ne_eq, not_false_eq_true, if_true, Option.some_bind, hdm,
        kOnFuseReset, Bool.not_false]
      refine ⟨?_, fun _ => ?_⟩ <;>
        split_ifs with hr <;>
        simp [notifyOnFuseEvent, notifyNodeIfDelegate, notifyDelegates, emit, hr]

/-- C11, witness: the sample controller with the hit on node 1 cached and no node fused so
far; the fuse of node 1 is handled by node 1, whose delegate fuses after 1000 ms. -/
theorem C11_fuse_reset_on_change_witness :
    sampleFocused.currentFusedNode ≠ getNodeToHandleEvent sampleGraph EventAction.OnFuse (some 1) ∧
    (processOnFuseEvent sampleGraph sampleFocused 0 (some 1) 0 0).currentFusedNode
      = getNodeToHandleEvent sampleGraph EventAction.OnFuse (some 1) ∧
    (∀ l ∈ sampleFocused.delegates,
      (⟨Target.listener l, Event.onFuse 0 kOnFuseReset⟩ : Notification)
        ∈ (processOnFuseEvent sampleGraph sampleFocused 0 (some 1) 0 0).log) ∧
    (processOnFuseEvent sampleGraph sampleFocused 0 (some 1) 0 0).fuseTriggerAtMillis
      = some (0 + sampleDelegate.getTimeToFuse) ∧
    (processOnFuseEvent sampleGraph sampleFocused 0 (some 1) 0 0).haveNotifiedOnFuseTriggered
      = decide ((0 + sampleDelegate.getTimeToFuse - 0) / sampleDelegate.getTimeToFuse ≤ 0) :=
  have hdiff : sampleFocused.currentFusedNode
      ≠ getNodeToHandleEvent sampleGraph EventAction.OnFuse (some 1) := by
    rw [sampleGraph_fuse, sampleFocused_eq]
    simp [sampleStart, VROInputControllerBase.construct]
  have hdel : (sampleGraph.node 1).eventDelegate = some sampleDelegate := by
    simp [sampleGraph]
  have httf : sampleDelegate.getTimeToFuse ≠ 0 := by
    simp [sampleDelegate]
  ⟨hdiff, (C11_fuse_reset_on_change sampleGraph sampleFocused 0 (some 1) 0 0 hdiff).2.1,
    (C11_fuse_reset_on_change sampleGraph sampleFocused 0 (some 1) 0 0 hdiff).2.2.1,
    ((C11_fuse_reset_on_change sampleGraph sampleFocused 0 (some 1) 0 0 hdiff).2.2.2.2 1
      sampleDelegate sampleGraph_fuse hdel).1,
    ((C11_fuse_reset_on_change sampleGraph sampleFocused 0 (some 1) 0 0 hdiff).2.2.2.2 1
      sampleDelegate sampleGraph_fuse hdel).2 httf⟩

/-! ## The input handlers without a cached hit result -/

/-- Without a cached hit result `onButtonEvent` returns at once. -/
theorem VROInputControllerBase.onButtonEvent_of_no_hit (env : ControllerEnv) (g : SceneGraph)
    (s : VROInputControllerBase) (source : Int) (clickState : ClickState)
    (forwardOffset : VROVector3f) (hhit : s.hitResult = none) :
    s.onButtonEvent env g source clickState forwardOffset = s := by
  unfold onButtonEvent
  simp only [hhit]

/-- Without a cached hit result `onTouchpadEvent`, unless it drops the event as a repeated
move, stores the touched position and notifies the listeners. -/
theorem VROInputControllerBase.onTouchpadEvent_of_no_hit (env : ControllerEnv) (g : SceneGraph)
    (s : VROInputControllerBase) (source : Int) (touchState : TouchState) (posX posY : ℚ)
    (hhit : s.hitResult = none) :
    s.onTouchpadEvent env g source touchState posX posY =
      if touchState = TouchState.TouchDownMove ∧
          env.isEqual s.lastTouchedPosition ⟨posX, posY, 0⟩ = true then
        s
      else
        { s with
          lastTouchedPosition := ⟨posX, posY, 0⟩
          log := s.log ++ s.toDelegates (Event.onTouch source touchState posX posY) } := by
  unfold onTouchpadEvent
  by_cases h : touchState = TouchState.TouchDownMove ∧
      env.isEqual s.lastTouchedPosition ⟨posX, posY, 0⟩ = true
  · simp only [if_pos h]
  · simp only [if_neg h]
    simp [notifyDelegates, emit, toDelegates, hhit]

/-- Without a cached hit result `onControllerStatus`, unless the status is the one already
stored, stores the status and notifies the listeners. -/
theorem VROInputControllerBase.onControllerStatus_of_no_hit (g : SceneGraph)
    (s : VROInputControllerBase) (source : Int) (status : ControllerStatus)
    (hhit : s.hitResult = none) :
    s.onControllerStatus g source status =
      if s.currentControllerStatus = status then
        s
      else
        { s with
          currentControllerStatus := status
          log := s.log ++ s.toDelegates (Event.onControllerStatus source status) } := by
  unfold onControllerStatus
  by_cases h : s.currentControllerStatus = status
  · simp only [if_pos h]
  · simp only [if_neg h]
    simp [notifyDelegates, emit, toDelegates, hhit]

/-- Without a cached hit result `onSwipe` notifies the listeners. -/
theorem VROInputControllerBase.onSwipe_of_no_hit (g : SceneGraph) (s : VROInputControllerBase)
    (source : Int) (swipeState : SwipeState) (hhit : s.hitResult = none) :
    s.onSwipe g source swipeState =
      { s with log := s.log ++ s.toDelegates (Event.onSwipe source swipeState) } := by
  unfold onSwipe
  simp [notifyDelegates, emit, toDelegates, hhit]

/-- Without a cached hit result `onScroll` notifies the listeners. -/
theorem VROInputControllerBase.onScroll_of_no_hit (g : SceneGraph) (s : VROInputControllerBase)
    (source : Int) (x y : ℚ) (hhit : s.hitResult = none) :
    s.onScroll g source x y =
      { s with log := s.log ++ s.toDelegates (Event.onScroll source x y) } := by
  unfold onScroll
  simp [notifyDelegates, emit, toDelegates, hhit]

/-- Without a cached hit result and without a pinched node `onPinch` changes nothing. -/
theorem VROInputControllerBase.onPinch_of_no_hit (env : ControllerEnv) (g : SceneGraph)
    (s : VROInputControllerBase) (source : Int) (scaleFactor : ℚ) (pinchState : PinchState)
    (hhit : s.hitResult = none) (hpinch : s.currentPinchedNode = none) :
    s.onPinch env g source scaleFactor pinchState = s := by
  unfold onPinch
  cases pinchState <;> simp [hhit, hpinch]

/-- Without a cached hit result and without a rotated node `onRotate` changes nothing. -/
theorem VROInputControllerBase.onRotate_of_no_hit (env : ControllerEnv) (g : SceneGraph)
    (s : VROInputControllerBase) (source : Int) (rotationFactor : ℚ) (rotateState : RotateState)
    (hhit : s.hitResult = none) (hrot : s.currentRotateNode = none) :
    s.onRotate env g source rotationFactor rotateState = s := by
  unfold onRotate
  cases rotateState <;> simp [hhit, hrot]

/-- In every reachable state a pinched or rotated node comes with a cached hit result. -/
theorem Reachable.pinch_rotate_need_hit {env : ControllerEnv} {s : VROInputControllerBase}
    (h : Reachable env s) :
    s.hitResult = none → s.currentPinchedNode = none ∧ s.currentRotateNode = none := by
  induction h with
  | construct => intro _; exact ⟨rfl, rfl⟩
  | listeners ds _ ih => exact ih
  | @onButtonEvent s g source clickState forwardOffset _ ih =>
    intro hnone
    rw [VROInputControllerBase.onButtonEvent_hitResult] at hnone
    rw [VROInputControllerBase.onButtonEvent_of_no_hit env g s source clickState forwardOffset
      hnone]
    exact ih hnone
  | @onTouchpadEvent s g source touchState x y _ ih =>
    intro hnone
    rw [VROInputControllerBase.onTouchpadEvent_hitResult] at hnone
    rw [VROInputControllerBase.onTouchpadEvent_of_no_hit env g s source touchState x y hnone]
    split_ifs
    · exact ih hnone
    · exact ih hnone
  | @onMove s g source position rotation forward now1 now2 _ ih =>
    intro hnone
    rw [VROInputControllerBase.onMove_hitResult] at hnone
    rw [VROInputControllerBase.onMove_of_no_hit env g s source position rotation forward now1
      now2 hnone]
    exact ih hnone
  | @onPinch s g source scaleFactor pinchState _ ih =>
    intro hnone
    rw [VROInputControllerBase.onPinch_hitResult] at hnone
    rw [VROInputControllerBase.onPinch_of_no_hit env g s source scaleFactor pinchState hnone
      (ih hnone).1]
    exact ih hnone
  | @onRotate s g source rotationFactor rotateState _ ih =>
    intro hnone
    rw [VROInputControllerBase.onRotate_hitResult] at hnone
    rw [VROInputControllerBase.onRotate_of_no_hit env g s source rotationFactor rotateState hnone
      (ih hnone).2]
    exact ih hnone
  | @updateHitNode s g scene k camera origin ray _ ih =>
    intro hnone
    have hs := VROInputControllerBase.updateHitNode_hitResult_none _ _ _ _ _ _ _ _ hnone
    have h0 := ih hs
    cases scene with
    | none => exact h0
    | some sc =>
      by_cases hd : s.lastDraggedNode.isSome = true
      · have hsame : s.updateHitNode env g (some sc) k camera origin ray = s := by
          unfold VROInputControllerBase.updateHitNode
          simp [hd]
        rw [hsame]
        exact h0
      · exfalso
        unfold VROInputControllerBase.updateHitNode at hnone
        simp [hd] at hnone
  | @onControllerStatus s g source status _ ih =>
    intro hnone
    rw [VROInputControllerBase.onControllerStatus_hitResult] at hnone
    rw [VROInputControllerBase.onControllerStatus_of_no_hit g s source status hnone]
    split_ifs
    · exact ih hnone
    · exact ih hnone
  | @onSwipe s g source swipeState _ ih =>
    intro hnone
    rw [VROInputControllerBase.onSwipe_hitResult] at hnone
    rw [VROInputControllerBase.onSwipe_of_no_hit g s source swipeState hnone]
    exact ih hnone
  | @onScroll s g source x y _ ih =>
    intro hnone
    rw [VROInputControllerBase.onScroll_hitResult] at hnone
    rw [VROInputControllerBase.onScroll_of_no_hit g s source x y hnone]
    exact ih hnone

/-- The constructed sample controller is reachable and has no hit result cached. -/
theorem sampleStart_reachable : Reachable sampleEnv sampleStart :=
  Reachable.construct _ _ _ _ _ _ _ _ _ _

/-! ## C20 -/

/-- C20 (as amended): in every reachable controller state without a cached hit result no
handler notifies the event delegate of a node.  `onButtonEvent`, `onPinch` and `onRotate`
change nothing at all; `onMove` stores the pose and notifies nobody; `onSwipe` and `onScroll`
notify the listeners and change nothing else; `onTouchpadEvent` stores the touched position and
notifies the listeners, unless it drops a repeated move; `onControllerStatus` stores the status
and notifies the listeners, unless the status is the stored one. -/
theorem C20_no_hit_only_listeners_notified (env : ControllerEnv) (g : SceneGraph)
    (s : VROInputControllerBase) (source : Int) (hreach : Reachable env s)
    (hhit : s.hitResult = none) :
    (∀ clickState forwardOffset, s.onButtonEvent env g source clickState forwardOffset = s) ∧
    (∀ scaleFactor pinchState, s.onPinch env g source scaleFactor pinchState = s) ∧
    (∀ rotationFactor rotateState, s.onRotate env g source rotationFactor rotateState = s) ∧
    (∀ position rotation forward now1 now2,
      s.onMove env g source position rotation forward now1 now2 =
        { s with
          lastKnownRotation := rotation
          lastKnownPosition := position
          lastKnownForward := forward }) ∧
    (∀ swipeState,
      s.onSwipe g source swipeState =
        { s with
          log := s.log ++ s.delegates.map
            (fun d => ⟨Target.listener d, Event.onSwipe source swipeState⟩) }) ∧
    (∀ x y,
      s.onScroll g source x y =
        { s with
          log := s.log ++ s.delegates.map
            (fun d => ⟨Target.listener d, Event.onScroll source x y⟩) }) ∧
    (∀ touchState posX posY,
      s.onTouchpadEvent env g source touchState posX posY =
        if touchState = TouchState.TouchDownMove ∧
            env.isEqual s.lastTouchedPosition ⟨posX, posY, 0⟩ = true then
          s
        else
          { s with
            lastTouchedPosition := ⟨posX, posY, 0⟩
            log := s.log ++ s.delegates.map
              (fun d => ⟨Target.listener d, Event.onTouch source touchState posX posY⟩) }) ∧
    (∀ status,
      s.onControllerStatus g source status =
        if s.currentControllerStatus = status then
          s
        else
          { s with
            currentControllerStatus := status
            log := s.log ++ s.delegates.map
              (fun d => ⟨Target.listener d, Event.onControllerStatus source status⟩) }) := by
  have hpr := Reachable.pinch_rotate_need_hit hreach hhit
  refine ⟨?_, ?_, ?_, ?_, ?_, ?_, ?_, ?_⟩
  · intro clickState forwardOffset
    exact VROInputControllerBase.onButtonEvent_of_no_hit env g s source clickState forwardOffset
      hhit
  · intro scaleFactor pinchState
    exact VROInputControllerBase.onPinch_of_no_hit env g s source scaleFactor pinchState hhit
      hpr.1
  · intro rotationFactor rotateState
    exact VROInputControllerBase.onRotate_of_no_hit env g s source rotationFactor rotateState
      hhit hpr.2
  · intro position rotation forward now1 now2
    exact VROInputControllerBase.onMove_of_no_hit env g s source position rotation forward now1
      now2 hhit
  · intro swipeState
    exact VROInputControllerBase.onSwipe_of_no_hit g s source swipeState hhit
  · intro x y
    exact VROInputControllerBase.onScroll_of_no_hit g s source x y hhit
  · intro touchState posX posY
    exact VROInputControllerBase.onTouchpadEvent_of_no_hit env g s source touchState posX posY
      hhit
  · intro status
    exact VROInputControllerBase.onControllerStatus_of_no_hit g s source status hhit

/-- C20, witness: the sample controller as constructed, with the listener 7 registered and no
hit result cached, on the sample graph. -/
theorem C20_no_hit_only_listeners_notified_witness :
    sampleStart.hitResult = none ∧
    (∀ clickState forwardOffset,
      sampleStart.onButtonEvent sampleEnv sampleGraph 0 clickState forwardOffset
        = sampleStart) ∧
    (∀ scaleFactor pinchState,
      sampleStart.onPinch sampleEnv sampleGraph 0 scaleFactor pinchState = sampleStart) :=
  ⟨rfl,
    (C20_no_hit_only_listeners_notified sampleEnv sampleGraph sampleStart 0
      sampleStart_reachable rfl).1,
    (C20_no_hit_only_listeners_notified sampleEnv sampleGraph sampleStart 0
      sampleStart_reachable rfl).2.1⟩

/-- C20, counterexample: the sample controller as constructed has no hit result cached and the
listener 7 registered; `onSwipe` delivers the swipe to that listener, and `onMove` stores the
position. -/
theorem C20_counterexample :
    Reachable sampleEnv sampleStart ∧
    sampleStart.hitResult = none ∧
    (sampleStart.onSwipe sampleGraph 0 SwipeState.SwipeUp).log
      = [⟨Target.listener 7, Event.onSwipe 0 SwipeState.SwipeUp⟩] ∧
    sampleStart.log = [] ∧
    sampleStart.onSwipe sampleGraph 0 SwipeState.SwipeUp ≠ sampleStart ∧
    (sampleStart.onMove sampleEnv sampleGraph 0 ⟨1, 2, 3⟩ ⟨0, 0, 0, 1⟩ ⟨1, 0, 0⟩ 0 0).lastKnownPosition
      = ⟨1, 2, 3⟩ ∧
    sampleStart.lastKnownPosition = ⟨0, 0, 0⟩ := by
  have hlog : (sampleStart.onSwipe sampleGraph 0 SwipeState.SwipeUp).log
      = [⟨Target.listener 7, Event.onSwipe 0 SwipeState.SwipeUp⟩] := by
    rw [VROInputControllerBase.onSwipe_of_no_hit sampleGraph sampleStart 0 SwipeState.SwipeUp rfl]
    rfl
  refine ⟨Reachable.construct _ _ _ _ _ _ _ _ _ _, rfl, hlog, rfl, ?_, ?_, rfl⟩
  · intro h
    rw [h] at hlog
    exact absurd hlog (by simp [sampleStart, VROInputControllerBase.construct])
  · rw [VROInputControllerBase.onMove_of_no_hit sampleEnv sampleGraph sampleStart 0 _ _ _ 0 0 rfl]

/-! ## Pinch and rotate -/

/-- A pinch start with a hit result cached, the pinch of the hit node being handled by `n`:
the scale is stored, `n` is captured and gets the start. -/
theorem VROInputControllerBase.onPinch_start (env : ControllerEnv) (g : SceneGraph)
    (s : VROInputControllerBase) (hit : VROHitTestResult) (n : NodeId) (source : Int)
    (scaleFactor : ℚ) (hhit : s.hitResult = some hit)
    (hres : getNodeToHandleEvent g EventAction.OnPinch (some hit.node) = some n) :
    s.onPinch env g source scaleFactor PinchState.PinchStart =
      { s with
        lastPinchScale := scaleFactor
        currentPinchedNode := some n
        log := s.log ++ [⟨Target.node n, Event.onPinch source scaleFactor PinchState.PinchStart⟩] } := by
  have hdel : (g.node n).eventDelegate.isSome = true :=
    SceneGraph.delegate_of_handles (getNodeToHandleEvent_handles hres)
  unfold onPinch
  simp [hhit, hres, hdel, notify, emit]

/-- A pinch move while `n` is captured and has a delegate: dropped when the scale is within
the threshold of the stored scale, delivered to `n` otherwise; the stored scale stays. -/
theorem VROInputControllerBase.onPinch_move (env : ControllerEnv) (g : SceneGraph)
    (s : VROInputControllerBase) (n : NodeId) (source : Int) (scaleFactor : ℚ)
    (hn : s.currentPinchedNode = some n) (hdel : (g.node n).eventDelegate.isSome = true) :
    s.onPinch env g source scaleFactor PinchState.PinchMove =
      if |scaleFactor - s.lastPinchScale| < env.ON_PINCH_SCALE_THRESHOLD then
        s
      else
        { s with
          log := s.log ++
            [⟨Target.node n, Event.onPinch source scaleFactor PinchState.PinchMove⟩] } := by
  unfold onPinch
  by_cases h : |scaleFactor - s.lastPinchScale| < env.ON_PINCH_SCALE_THRESHOLD
  · simp [hn, h]
  · simp [hn, h, hdel, notify, emit]

/-- A rotate start with a hit result cached, the rotation of the hit node being handled by
`n`: the rotation is stored, `n` is captured and gets the start. -/
theorem VROInputControllerBase.onRotate_start (env : ControllerEnv) (g : SceneGraph)
    (s : VROInputControllerBase) (hit : VROHitTestResult) (n : NodeId) (source : Int)
    (rotationFactor : ℚ) (hhit : s.hitResult = some hit)
    (hres : getNodeToHandleEvent g EventAction.OnRotate (some hit.node) = some n) :
    s.onRotate env g source rotationFactor RotateState.RotateStart =
      { s with
        lastRotation := rotationFactor
        currentRotateNode := some n
        log := s.log ++
          [⟨Target.node n, Event.onRotate source rotationFactor RotateState.RotateStart⟩] } := by
  have hdel : (g.node n).eventDelegate.isSome = true :=
    SceneGraph.delegate_of_handles (getNodeToHandleEvent_handles hres)
  unfold onRotate
  simp [hhit, hres, hdel, notify, emit]

/-- A rotate move while `n` is captured and has a delegate: dropped when the rotation is
within the threshold of the stored rotation, delivered to `n` otherwise; the stored rotation
stays. -/
theorem VROInputControllerBase.onRotate_move (env : ControllerEnv) (g : SceneGraph)
    (s : VROInputControllerBase) (n : NodeId) (source : Int) (rotationFactor : ℚ)
    (hn : s.currentRotateNode = some n) (hdel : (g.node n).eventDelegate.isSome = true) :
    s.onRotate env g source rotationFactor RotateState.RotateMove =
      if |rotationFactor - s.lastRotation| < env.ON_ROTATE_THRESHOLD then
        s
      else
        { s with
          log := s.log ++
            [⟨Target.node n, Event.onRotate source rotationFactor RotateState.RotateMove⟩] } := by
  unfold onRotate
  by_cases h : |rotationFactor - s.lastRotation| < env.ON_ROTATE_THRESHOLD
  · simp [hn, h]
  · simp [hn, h, hdel, notify, emit]

/-- In the sample graph the pinch of a hit on node 1 is handled by node 1. -/
theorem sampleGraph_pinch :
    getNodeToHandleEvent sampleGraph EventAction.OnPinch (some 1) = some 1 := by
  rw [getNodeToHandleEvent]
  simp [SceneGraph.handles, sampleGraph, sampleDelegate]

/-- The drag snapshot and the pinched node of `samplePinching`. -/
theorem samplePinching_state :
    samplePinching.lastDraggedNode = some sampleSnapshot ∧
    samplePinching.currentPinchedNode = some 1 := by
  have h := VROInputControllerBase.onPinch_start sampleEnv sampleGraph samplePressed sampleHit 1
    0 1 samplePressed_state.1 sampleGraph_pinch
  unfold samplePinching
  rw [h]
  exact ⟨samplePressed_state.2.1, rfl⟩

/-! ## C21 -/

/-- C21: in every controller state with a drag snapshot and with a pinched or a rotated node,
`onMove` with any pose leaves the position of every node as it is (that of the dragged node
among them), delivers no `onDrag` and leaves the drag snapshot as it is. -/
theorem C21_pinch_or_rotate_suspends_drag (env : ControllerEnv) (g : SceneGraph)
    (s : VROInputControllerBase) (d : VRODraggedObject) (source : Int) (position : VROVector3f)
    (rotation : VROQuaternion) (forward : VROVector3f) (now1 now2 : ℚ)
    (hd : s.lastDraggedNode = some d)
    (hpr : s.currentPinchedNode ≠ none ∨ s.currentRotateNode ≠ none) :
    (s.onMove env g source position rotation forward now1 now2).nodePosition d.draggedNode
      = s.nodePosition d.draggedNode ∧
    (s.onMove env g source position rotation forward now1 now2).nodePosition = s.nodePosition ∧
    (s.onMove env g source position rotation forward now1 now2).log.filter isDrag
      = s.log.filter isDrag ∧
    (s.onMove env g source position rotation forward now1 now2).lastDraggedNode = some d := by
  have hstay : s.onMove env g source position rotation forward now1 now2 =
        { s with
          lastKnownRotation := rotation
          lastKnownPosition := position
          lastKnownForward := forward } ∨
      ∃ hit, s.onMove env g source position rotation forward now1 now2
        = onMoveBeforeDrag env g s hit source position rotation forward now1 now2 := by
    rcases Option.eq_none_or_eq_some s.hitResult with hh | ⟨hit, hh⟩
    · exact Or.inl (onMove_of_no_hit env g s source position rotation forward now1 now2 hh)
    · refine Or.inr ⟨hit, ?_⟩
      rw [onMove_of_hit env g s hit source position rotation forward now1 now2 hh]
      have hcond : ¬ ((onMoveBeforeDrag env g s hit source position rotation forward now1
            now2).currentPinchedNode = none ∧
          (onMoveBeforeDrag env g s hit source position rotation forward now1
            now2).currentRotateNode = none) := by
        simp only [onMoveBeforeDrag_currentPinchedNode, onMoveBeforeDrag_currentRotateNode]
        rintro ⟨h1, h2⟩
        rcases hpr with h | h
        · exact h h1
        · exact h h2
      simp only [onMoveBeforeDrag_lastDraggedNode, hd, if_neg hcond]
  rcases hstay with h | ⟨hit, h⟩
  · rw [h]
    exact ⟨rfl, rfl, rfl, hd⟩
  · rw [h]
    refine ⟨?_, ?_, ?_, ?_⟩
    · rw [onMoveBeforeDrag_nodePosition]
    · rw [onMoveBeforeDrag_nodePosition]
    · rw [onMoveBeforeDrag_drags]
    · rw [onMoveBeforeDrag_lastDraggedNode, hd]

/-- C21, witness: the sample controller after a click-down on node 1 and a pinch start, at an
`onMove` that points the controller elsewhere. -/
theorem C21_pinch_or_rotate_suspends_drag_witness :
    (samplePinching.onMove sampleEnv sampleGraph 0 ⟨0, 0, 0⟩ ⟨0, 0, 0, 1⟩ ⟨0, 1, 0⟩ 0
        0).nodePosition 1 = samplePinching.nodePosition 1 ∧
    (samplePinching.onMove sampleEnv sampleGraph 0 ⟨0, 0, 0⟩ ⟨0, 0, 0, 1⟩ ⟨0, 1, 0⟩ 0
        0).log.filter isDrag = samplePinching.log.filter isDrag ∧
    (samplePinching.onMove sampleEnv sampleGraph 0 ⟨0, 0, 0⟩ ⟨0, 0, 0, 1⟩ ⟨0, 1, 0⟩ 0
        0).lastDraggedNode = some sampleSnapshot :=
  have h := C21_pinch_or_rotate_suspends_drag sampleEnv sampleGraph samplePinching
    sampleSnapshot 0 ⟨0, 0, 0⟩ ⟨0, 0, 0, 1⟩ ⟨0, 1, 0⟩ 0 0 samplePinching_state.1
    (Or.inl (by rw [samplePinching_state.2]; simp))
  ⟨h.1, h.2.2.1, h.2.2.2⟩

/-! ## Pinch and rotate sessions -/

/-- The moves of a pinch session while `n` is captured and has a delegate: a move is delivered
to `n` exactly when its scale is not within the threshold of the stored scale, which no move
changes. -/
theorem pinchMoves_spec (env : ControllerEnv) (g : SceneGraph) (n : NodeId) (source : Int)
    (hdel : (g.node n).eventDelegate.isSome = true) (scales : List ℚ) :
    ∀ s : VROInputControllerBase, s.currentPinchedNode = some n →
      (pinchMoves env g s source scales).log
          = s.log ++
            (scales.filter
              (fun v => decide (env.ON_PINCH_SCALE_THRESHOLD ≤ |v - s.lastPinchScale|))).map
              (fun v => ⟨Target.node n, Event.onPinch source v PinchState.PinchMove⟩) ∧
        (pinchMoves env g s source scales).lastPinchScale = s.lastPinchScale ∧
        (pinchMoves env g s source scales).currentPinchedNode = some n := by
  induction scales with
  | nil =>
    intro s hn
    simp [pinchMoves, hn]
  | cons v rest ih =>
    intro s hn
    have hstep : pinchMoves env g s source (v :: rest)
        = pinchMoves env g (s.onPinch env g source v PinchState.PinchMove) source rest := rfl
    rw [hstep, VROInputControllerBase.onPinch_move env g s n source v hn hdel]
    by_cases h : |v - s.lastPinchScale| < env.ON_PINCH_SCALE_THRESHOLD
    · rw [if_pos h]
      obtain ⟨h1, h2, h3⟩ := ih s hn
      refine ⟨?_, h2, h3⟩
      rw [h1, List.filter_cons_of_neg (by simpa using h)]
    · rw [if_neg h]
      obtain ⟨h1, h2, h3⟩ := ih
        { s with
          log := s.log ++ [⟨Target.node n, Event.onPinch source v PinchState.PinchMove⟩] } hn
      refine ⟨?_, h2, h3⟩
      rw [h1, List.filter_cons_of_pos (by simpa using h)]
      simp

/-- The moves of a rotate session while `n` is captured and has a delegate: a move is
delivered to `n` exactly when its rotation is not within the threshold of the stored rotation,
which no move changes. -/
theorem rotateMoves_spec (env : ControllerEnv) (g : SceneGraph) (n : NodeId) (source : Int)
    (hdel : (g.node n).eventDelegate.isSome = true) (rotations : List ℚ) :
    ∀ s : VROInputControllerBase, s.currentRotateNode = some n →
      (rotateMoves env g s source rotations).log
          = s.log ++
            (rotations.filter
              (fun v => decide (env.ON_ROTATE_THRESHOLD ≤ |v - s.lastRotation|))).map
              (fun v => ⟨Target.node n, Event.onRotate source v RotateState.RotateMove⟩) ∧
        (rotateMoves env g s source rotations).lastRotation = s.lastRotation ∧
        (rotateMoves env g s source rotations).currentRotateNode = some n := by
  induction rotations with
  | nil =>
    intro s hn
    simp [rotateMoves, hn]
  | cons v rest ih =>
    intro s hn
    have hstep : rotateMoves env g s source (v :: rest)
        = rotateMoves env g (s.onRotate env g source v RotateState.RotateMove) source rest := rfl
    rw [hstep, VROInputControllerBase.onRotate_move env g s n source v hn hdel]
    by_cases h : |v - s.lastRotation| < env.ON_ROTATE_THRESHOLD
    · rw [if_pos h]
      obtain ⟨h1, h2, h3⟩ := ih s hn
      refine ⟨?_, h2, h3⟩
      rw [h1, List.filter_cons_of_neg (by simpa using h)]
    · rw [if_neg h]
      obtain ⟨h1, h2, h3⟩ := ih
        { s with
          log := s.log ++ [⟨Target.node n, Event.onRotate source v RotateState.RotateMove⟩] } hn
      refine ⟨?_, h2, h3⟩
      rw [h1, List.filter_cons_of_pos (by simpa using h)]
      simp

/-- In the sample graph the rotation of a hit on node 1 is handled by node 1. -/
theorem sampleGraph_rotate :
    getNodeToHandleEvent sampleGraph EventAction.OnRotate (some 1) = some 1 := by
  rw [getNodeToHandleEvent]
  simp [SceneGraph.handles, sampleGraph, sampleDelegate]

/-! ## C22 -/

/-- C22 (as amended): in a pinch session, started with scale `v0` while a hit result is cached
whose pinch is handled by `n`, the start is delivered to `n` and every following move is
delivered to `n` exactly when the absolute difference between its scale and `v0`, the scale of
the start, is at least the threshold; the moves within the threshold of `v0` are dropped, and
a delivered move does not become the value to compare with.  Likewise in a rotate session. -/
theorem C22_moves_compared_with_start_value (env : ControllerEnv) (g : SceneGraph)
    (s : VROInputControllerBase) (hit : VROHitTestResult) (source : Int) (v0 : ℚ)
    (moves : List ℚ) (hhit : s.hitResult = some hit) :
    (∀ n, getNodeToHandleEvent g EventAction.OnPinch (some hit.node) = some n →
      (pinchMoves env g (s.onPinch env g source v0 PinchState.PinchStart) source moves).log
        = s.log ++
          ⟨Target.node n, Event.onPinch source v0 PinchState.PinchStart⟩ ::
            (moves.filter (fun v => decide (env.ON_PINCH_SCALE_THRESHOLD ≤ |v - v0|))).map
              (fun v => ⟨Target.node n, Event.onPinch source v PinchState.PinchMove⟩)) ∧
    (∀ n, getNodeToHandleEvent g EventAction.OnRotate (some hit.node) = some n →
      (rotateMoves env g (s.onRotate env g source v0 RotateState.RotateStart) source moves).log
        = s.log ++
          ⟨Target.node n, Event.onRotate source v0 RotateState.RotateStart⟩ ::
            (moves.filter (fun v => decide (env.ON_ROTATE_THRESHOLD ≤ |v - v0|))).map
              (fun v => ⟨Target.node n, Event.onRotate source v RotateState.RotateMove⟩)) := by
  constructor
  · intro n hres
    have hdel : (g.node n).eventDelegate.isSome = true :=
      SceneGraph.delegate_of_handles (getNodeToHandleEvent_handles hres)
    rw [VROInputControllerBase.onPinch_start env g s hit n source v0 hhit hres]
    rw [(pinchMoves_spec env g n source hdel moves _ rfl).1]
    simp
  · intro n hres
    have hdel : (g.node n).eventDelegate.isSome = true :=
      SceneGraph.delegate_of_handles (getNodeToHandleEvent_handles hres)
    rw [VROInputControllerBase.onRotate_start env g s hit n source v0 hhit hres]
    rw [(rotateMoves_spec env g n source hdel moves _ rfl).1]
    simp

/-- C22, witness: the sample controller with the hit on node 1 cached, a pinch session with
start scale 1 and the moves 3/2, 201/200 and 301/200, the threshold being 1/50: the start and
the moves 3/2 and 301/200 are delivered to node 1, the move 201/200 is dropped. -/
theorem C22_moves_compared_with_start_value_witness :
    (pinchMoves sampleEnv sampleGraph
        (sampleFocused.onPinch sampleEnv sampleGraph 0 1 PinchState.PinchStart) 0
        [3 / 2, 201 / 200, 301 / 200]).log
      = sampleFocused.log ++
        [⟨Target.node 1, Event.onPinch 0 1 PinchState.PinchStart⟩,
         ⟨Target.node 1, Event.onPinch 0 (3 / 2) PinchState.PinchMove⟩,
         ⟨Target.node 1, Event.onPinch 0 (301 / 200) PinchState.PinchMove⟩] := by
  have hthr : sampleEnv.ON_PINCH_SCALE_THRESHOLD = 1 / 50 := rfl
  have ha : sampleEnv.ON_PINCH_SCALE_THRESHOLD ≤ |(3 / 2 : ℚ) - 1| := by
    rw [hthr, abs_of_nonneg (by norm_num)]
    norm_num
  have hb : ¬ sampleEnv.ON_PINCH_SCALE_THRESHOLD ≤ |(201 / 200 : ℚ) - 1| := by
    rw [hthr, abs_of_nonneg (by norm_num)]
    norm_num
  have hc : sampleEnv.ON_PINCH_SCALE_THRESHOLD ≤ |(301 / 200 : ℚ) - 1| := by
    rw [hthr, abs_of_nonneg (by norm_num)]
    norm_num
  rw [(C22_moves_compared_with_start_value sampleEnv sampleGraph sampleFocused sampleHit 0 1
    [3 / 2, 201 / 200, 301 / 200] sampleFocused_hitResult).1 1 sampleGraph_pinch]
  simp [ha, hb, hc]

/-- C22, counterexample: the sample controller with the hit on node 1 cached and a pinch
threshold of 1/50; a pinch session with start scale 1 and the moves 3/2 and 301/200.  The move
3/2 is delivered to node 1; the move 301/200 differs from it, the last delivered value, by
1/200, which does not exceed the threshold, and is delivered to node 1 all the same. -/
theorem C22_counterexample :
    sampleEnv.ON_PINCH_SCALE_THRESHOLD = 1 / 50 ∧
    (pinchMoves sampleEnv sampleGraph
        (sampleFocused.onPinch sampleEnv sampleGraph 0 1 PinchState.PinchStart) 0
        [3 / 2]).log
      = sampleFocused.log ++
        [⟨Target.node 1, Event.onPinch 0 1 PinchState.PinchStart⟩,
         ⟨Target.node 1, Event.onPinch 0 (3 / 2) PinchState.PinchMove⟩] ∧
    (pinchMoves sampleEnv sampleGraph
        (sampleFocused.onPinch sampleEnv sampleGraph 0 1 PinchState.PinchStart) 0
        [3 / 2, 301 / 200]).log
      = sampleFocused.log ++
        [⟨Target.node 1, Event.onPinch 0 1 PinchState.PinchStart⟩,
         ⟨Target.node 1, Event.onPinch 0 (3 / 2) PinchState.PinchMove⟩,
         ⟨Target.node 1, Event.onPinch 0 (301 / 200) PinchState.PinchMove⟩] ∧
    ¬ (|(301 / 200 : ℚ) - 3 / 2| > sampleEnv.ON_PINCH_SCALE_THRESHOLD) := by
  have hdel : (sampleGraph.node 1).eventDelegate.isSome = true :=
    SceneGraph.delegate_of_handles (getNodeToHandleEvent_handles sampleGraph_pinch)
  have hstart := VROInputControllerBase.onPinch_start sampleEnv sampleGraph sampleFocused
    sampleHit 1 0 1 sampleFocused_hitResult sampleGraph_pinch
  have hthr : sampleEnv.ON_PINCH_SCALE_THRESHOLD = 1 / 50 := rfl
  have ha : sampleEnv.ON_PINCH_SCALE_THRESHOLD ≤ |(3 / 2 : ℚ) - 1| := by
    rw [hthr, abs_of_nonneg (by norm_num)]
    norm_num
  have hb : sampleEnv.ON_PINCH_SCALE_THRESHOLD ≤ |(301 / 200 : ℚ) - 1| := by
    rw [hthr, abs_of_nonneg (by norm_num)]
    norm_num
  refine ⟨rfl, ?_, ?_, ?_⟩
  · rw [hstart, (pinchMoves_spec sampleEnv sampleGraph 1 0 hdel [3 / 2] _ rfl).1]
    simp [ha]
  · rw [hstart, (pinchMoves_spec sampleEnv sampleGraph 1 0 hdel [3 / 2, 301 / 200] _ rfl).1]
    simp [ha, hb]
  · rw [hthr, abs_of_nonneg (by norm_num)]
    norm_num

/-! ## The life of the drag snapshot -/

/-- A click-up with a hit result cached leaves neither a clicked node nor a drag snapshot. -/
theorem VROInputControllerBase.onButtonEvent_clickUp_members (env : ControllerEnv)
    (g : SceneGraph) (s : VROInputControllerBase) (hit : VROHitTestResult) (source : Int)
    (forwardOffset : VROVector3f) (hhit : s.hitResult = some hit) :
    (s.onButtonEvent env g source ClickState.ClickUp forwardOffset).lastDraggedNode = none ∧
    (s.onButtonEvent env g source ClickState.ClickUp forwardOffset).lastClickedNode = none := by
  unfold onButtonEvent
  simp only [hhit]
  refine ⟨by simp, ?_⟩
  split <;> rfl

/-- A click-down with a hit result cached records the hit node as clicked, and takes a drag
snapshot when the drag of the hit node is handled by some node; the snapshot stays as it is
otherwise. -/
theorem VROInputControllerBase.onButtonEvent_clickDown_members (env : ControllerEnv)
    (g : SceneGraph) (s : VROInputControllerBase) (hit : VROHitTestResult) (source : Int)
    (forwardOffset : VROVector3f) (hhit : s.hitResult = some hit) :
    (s.onButtonEvent env g source ClickState.ClickDown forwardOffset).lastClickedNode
      = some hit.node ∧
    (s.onButtonEvent env g source ClickState.ClickDown forwardOffset).lastDraggedNode
      = match getNodeToHandleEvent g EventAction.OnDrag (some hit.node) with
        | none => s.lastDraggedNode
        | some A => some (dragSnapshot env s hit A forwardOffset) := by
  unfold onButtonEvent
  simp only [hhit]
  cases hA : getNodeToHandleEvent g EventAction.OnDrag (some hit.node) with
  | none => simp [notifyFocused, notifyDelegates, emit]
  | some A => simp [notifyFocused, notifyDelegates, emit, dragSnapshot]

/-- The synthetic click state as an input writes neither the clicked node nor the drag
snapshot. -/
theorem VROInputControllerBase.onButtonEvent_clicked_members (env : ControllerEnv)
    (g : SceneGraph) (s : VROInputControllerBase) (source : Int) (forwardOffset : VROVector3f) :
    (s.onButtonEvent env g source ClickState.Clicked forwardOffset).lastDraggedNode
      = s.lastDraggedNode ∧
    (s.onButtonEvent env g source ClickState.Clicked forwardOffset).lastClickedNode
      = s.lastClickedNode := by
  unfold onButtonEvent
  cases hh : s.hitResult with
  | none => exact ⟨rfl, rfl⟩
  | some hit => simp [notifyFocused, notifyDelegates, emit]

/-- In every reachable state a drag snapshot comes with a recorded click-down node. -/
theorem Reachable.drag_needs_click {env : ControllerEnv} {s : VROInputControllerBase}
    (h : Reachable env s) : s.lastDraggedNode ≠ none → s.lastClickedNode ≠ none := by
  induction h with
  | construct => intro hd; exact absurd rfl hd
  | listeners ds _ ih => exact ih
  | @onButtonEvent s g source clickState forwardOffset _ ih =>
    rcases Option.eq_none_or_eq_some s.hitResult with hh | ⟨hit, hh⟩
    · rw [VROInputControllerBase.onButtonEvent_of_no_hit env g s source clickState forwardOffset
        hh]
      exact ih
    · cases clickState with
      | ClickDown =>
        intro _
        rw [(VROInputControllerBase.onButtonEvent_clickDown_members env g s hit source
          forwardOffset hh).1]
        simp
      | ClickUp =>
        intro hd
        exact absurd (VROInputControllerBase.onButtonEvent_clickUp_members env g s hit source
          forwardOffset hh).1 hd
      | Clicked =>
        rw [(VROInputControllerBase.onButtonEvent_clicked_members env g s source
          forwardOffset).1,
          (VROInputControllerBase.onButtonEvent_clicked_members env g s source forwardOffset).2]
        exact ih
  | onTouchpadEvent g source touchState x y _ ih => simpa using ih
  | onMove g source position rotation forward now1 now2 _ ih => simpa using ih
  | onPinch g source scaleFactor pinchState _ ih => simpa using ih
  | onRotate g source rotationFactor rotateState _ ih => simpa using ih
  | updateHitNode g scene k camera origin ray _ ih => simpa using ih
  | onControllerStatus g source status _ ih => simpa using ih
  | onSwipe g source swipeState _ ih => simpa using ih
  | onScroll g source x y _ ih => simpa using ih

/-! ## C23 -/

/-- C23: in every controller state reachable from the constructor, a drag snapshot comes with
a cached hit result and a recorded click-down node.  Of the operations, `onTouchpadEvent`,
`onMove`, `onPinch`, `onRotate`, `updateHitNode`, `onControllerStatus`, `onSwipe` and
`onScroll` leave the snapshot member as it is; when `onButtonEvent` changes it, either the
event is a `ClickUp` and no snapshot is left, or it is a `ClickDown` on a cached hit whose node
has, on its parent chain, a node `A` with the drag enabled, and the snapshot is the one taken
for `A`. -/
theorem C23_drag_snapshot_within_click_span (env : ControllerEnv) (s : VROInputControllerBase)
    (hreach : Reachable env s) :
    (s.lastDraggedNode ≠ none → s.hitResult ≠ none ∧ s.lastClickedNode ≠ none) ∧
    (∀ g source touchState x y,
      (s.onTouchpadEvent env g source touchState x y).lastDraggedNode = s.lastDraggedNode) ∧
    (∀ g source position rotation forward now1 now2,
      (s.onMove env g source position rotation forward now1 now2).lastDraggedNode
        = s.lastDraggedNode) ∧
    (∀ g source scaleFactor pinchState,
      (s.onPinch env g source scaleFactor pinchState).lastDraggedNode = s.lastDraggedNode) ∧
    (∀ g source rotationFactor rotateState,
      (s.onRotate env g source rotationFactor rotateState).lastDraggedNode
        = s.lastDraggedNode) ∧
    (∀ g scene k camera origin ray,
      (s.updateHitNode env g scene k camera origin ray).lastDraggedNode = s.lastDraggedNode) ∧
    (∀ g source status,
      (s.onControllerStatus g source status).lastDraggedNode = s.lastDraggedNode) ∧
    (∀ g source swipeState, (s.onSwipe g source swipeState).lastDraggedNode = s.lastDraggedNode) ∧
    (∀ g source x y, (s.onScroll g source x y).lastDraggedNode = s.lastDraggedNode) ∧
    (∀ g source clickState forwardOffset,
      (s.onButtonEvent env g source clickState forwardOffset).lastDraggedNode
          ≠ s.lastDraggedNode →
        (clickState = ClickState.ClickUp ∧
          (s.onButtonEvent env g source clickState forwardOffset).lastDraggedNode = none) ∨
        (clickState = ClickState.ClickDown ∧
          ∃ hit A, s.hitResult = some hit ∧
            getNodeToHandleEvent g EventAction.OnDrag (some hit.node) = some A ∧
            A ∈ parentChain g (some hit.node) ∧ HasEnabledDelegate g EventAction.OnDrag A ∧
            (s.onButtonEvent env g source clickState forwardOffset).lastDraggedNode
              = some (dragSnapshot env s hit A forwardOffset))) := by
  refine ⟨?_, ?_, ?_, ?_, ?_, ?_, ?_, ?_, ?_, ?_⟩
  · intro hd
    refine ⟨fun hnone => hd (Reachable.click_drag_need_hit hreach hnone).2,
      Reachable.drag_needs_click hreach hd⟩
  · intro g source touchState x y
    simp
  · intro g source position rotation forward now1 now2
    simp
  · intro g source scaleFactor pinchState
    simp
  · intro g source rotationFactor rotateState
    simp
  · intro g scene k camera origin ray
    simp
  · intro g source status
    simp
  · intro g source swipeState
    simp
  · intro g source x y
    simp
  · intro g source clickState forwardOffset hne
    rcases Option.eq_none_or_eq_some s.hitResult with hh | ⟨hit, hh⟩
    · rw [VROInputControllerBase.onButtonEvent_of_no_hit env g s source clickState forwardOffset
        hh] at hne
      exact absurd rfl hne
    · cases clickState with
      | ClickUp =>
        exact Or.inl ⟨rfl, (VROInputControllerBase.onButtonEvent_clickUp_members env g s hit
          source forwardOffset hh).1⟩
      | Clicked =>
        exact absurd (VROInputControllerBase.onButtonEvent_clicked_members env g s source
          forwardOffset).1 hne
      | ClickDown =>
        have hm := (VROInputControllerBase.onButtonEvent_clickDown_members env g s hit source
          forwardOffset hh).2
        cases hA : getNodeToHandleEvent g EventAction.OnDrag (some hit.node) with
        | none =>
          rw [hA] at hm
          exact absurd hm hne
        | some A =>
          rw [hA] at hm
          refine Or.inr ⟨rfl, hit, A, hh, hA, ?_, ?_, hm⟩
          · have hfind := hA
            rw [getNodeToHandleEvent_eq_find] at hfind
            exact List.mem_of_find?_eq_some hfind
          · exact (SceneGraph.handles_iff g EventAction.OnDrag A).mp
              (getNodeToHandleEvent_handles hA)

/-- C23, witness: the sample controller after a click-down on node 1, which holds a drag
snapshot. -/
theorem C23_drag_snapshot_within_click_span_witness :
    samplePressed.lastDraggedNode ≠ none ∧
    samplePressed.hitResult ≠ none ∧ samplePressed.lastClickedNode ≠ none :=
  have hd : samplePressed.lastDraggedNode ≠ none := by
    rw [samplePressed_state.2.1]
    simp
  ⟨hd, (C23_drag_snapshot_within_click_span sampleEnv samplePressed samplePressed_reachable).1
    hd⟩

/-! ## The search and the linear scan -/

/-- The linear scan returns `r` when every timestamp before row `r` is below `t` and the
timestamp of row `r`, if there is such a row, is not. -/
theorem linearScanFirstNotBelow_eq (t : ℚ) :
    ∀ (ts : List ℚ) (r : Nat), r ≤ ts.length →
      (∀ (j : Nat) (w : ℚ), j < r → ts[j]? = some w → w < t) →
      (∀ w : ℚ, ts[r]? = some w → t ≤ w) →
      linearScanFirstNotBelow ts t = r := by
  intro ts
  induction ts with
  | nil =>
    intro r hr _ _
    have : r = 0 := by simpa using hr
    rw [this]
    rfl
  | cons w ws ih =>
    intro r hr hlo hhi
    cases r with
    | zero =>
      have hw : t ≤ w := hhi w (by simp)
      simp [linearScanFirstNotBelow, hw]
    | succ r' =>
      have hw : w < t := hlo 0 w (Nat.succ_pos _) (by simp)
      have hrest := ih r' (by simpa using hr)
        (fun j v hj hv => hlo (j + 1) v (by omega) (by simpa using hv))
        (fun v hv => hhi v (by simpa using hv))
      simp [linearScanFirstNotBelow, not_le.mpr hw, hrest]

/-- Every row the search reads lies between its bounds. -/
theorem BodyPlaybackInfo.returnRowClosestToTimeReads_bounds (d : VROBodyAnimData) (time : ℚ) :
    ∀ (k lo hi : Nat), hi - lo = k →
      ∀ i ∈ BodyPlaybackInfo.returnRowClosestToTimeReads d time lo hi, lo ≤ i ∧ i < hi := by
  intro k
  induction k using Nat.strong_induction_on with
  | _ k ih =>
    intro lo hi hk i hi_mem
    rw [BodyPlaybackInfo.returnRowClosestToTimeReads] at hi_mem
    by_cases heq : lo = hi
    · simp [heq] at hi_mem
    · by_cases hlt : lo < hi
      · simp only [heq, hlt, if_false, dif_pos] at hi_mem
        cases hts : d.getAnimRowTimestamp (lo + (hi - lo) / 2) with
        | none =>
          simp only [hts, List.mem_singleton] at hi_mem
          omega
        | some v =>
          simp only [hts] at hi_mem
          by_cases hgt : time > v
          · simp only [hgt, if_true, List.mem_cons] at hi_mem
            rcases hi_mem with h | h
            · omega
            · have := ih (hi - (lo + (hi - lo) / 2 + 1)) (by omega) (lo + (hi - lo) / 2 + 1) hi
                rfl i h
              omega
          · simp only [hgt, if_false, List.mem_cons] at hi_mem
            rcases hi_mem with h | h
            · omega
            · have := ih (lo + (hi - lo) / 2 - lo) (by omega) lo (lo + (hi - lo) / 2) rfl i h
              omega
      · simp [heq, hlt] at hi_mem

/-! ## C24 -/

/-- C24: over a dataset of `n` rows with non-decreasing timestamps,
`returnRowClosestToTime(t, 0, n)` returns what the linear scan for the first row whose
timestamp is not below `t` returns: an index `i ≤ n` with every timestamp before row `i` below
`t` and, when `i < n`, the timestamp of row `i` not below `t`; it is `n` when every timestamp
is below `t`. -/
theorem C24_search_equals_linear_scan (d : VROBodyAnimData) (t : ℚ) (hal : d.Aligned)
    (hs : d.animationRowTimestamps.Sorted (· ≤ ·)) :
    BodyPlaybackInfo.returnRowClosestToTime d t 0 d.getTotalRows
      = some (linearScanFirstNotBelow d.animationRowTimestamps t) ∧
    linearScanFirstNotBelow d.animationRowTimestamps t ≤ d.getTotalRows ∧
    (∀ (j : Nat) (w : ℚ), j < linearScanFirstNotBelow d.animationRowTimestamps t →
      d.animationRowTimestamps[j]? = some w → w < t) ∧
    (linearScanFirstNotBelow d.animationRowTimestamps t < d.getTotalRows →
      ∃ w, d.animationRowTimestamps[linearScanFirstNotBelow d.animationRowTimestamps t]?
          = some w ∧ t ≤ w) ∧
    ((∀ w ∈ d.animationRowTimestamps, w < t) →
      linearScanFirstNotBelow d.animationRowTimestamps t = d.getTotalRows) := by
  have hlen : d.animationRowTimestamps.length = d.getTotalRows := hal
  obtain ⟨r, hr, hrle, hlo, hhi⟩ := BodyPlaybackInfo.returnRowClosestToTime_sorted d t hs
  have hscan : linearScanFirstNotBelow d.animationRowTimestamps t = r :=
    linearScanFirstNotBelow_eq t d.animationRowTimestamps r hrle hlo
      (fun w hw => hhi r w (le_refl _) hw)
  rw [hscan, ← hlen]
  refine ⟨hr, hrle, hlo, ?_, ?_⟩
  · intro hlt
    exact ⟨d.animationRowTimestamps[r], List.getElem?_eq_getElem hlt,
      hhi r _ (le_refl _) (List.getElem?_eq_getElem hlt)⟩
  · intro hall
    rcases Nat.lt_or_ge r d.animationRowTimestamps.length with hlt | hge
    · have h1 := hhi r _ (le_refl _) (List.getElem?_eq_getElem hlt)
      have h2 := hall _ (List.getElem_mem hlt)
      exact absurd h2 (not_lt.mpr h1)
    · exact le_antisymm hrle hge

/-- C24, witness: rows with timestamps 0, 100, 250 and `t = 150`; the search and the scan
return row 2. -/
theorem C24_search_equals_linear_scan_witness :
    BodyPlaybackInfo.returnRowClosestToTime scenarioData 150 0 scenarioData.getTotalRows
      = some (linearScanFirstNotBelow scenarioData.animationRowTimestamps 150) ∧
    linearScanFirstNotBelow scenarioData.animationRowTimestamps 150 = 2 :=
  ⟨(C24_search_equals_linear_scan scenarioData 150 rfl
      (by simp [scenarioData]; norm_num)).1,
    by simp [linearScanFirstNotBelow, scenarioData]; norm_num⟩

/-! ## C25 -/

/-- C25: over a dataset of `n` rows with timestamps in any order and bounds
`lo ≤ hi ≤ n`, `returnRowClosestToTime(t, lo, hi)` returns, its result lies in `[lo, hi]`, and
every row whose timestamp it reads lies in `[lo, hi)`.  So `setTime(t)` returns, and every row
whose timestamp it reads, the row it has made current included, lies in `[0, n)`. -/
theorem C25_search_reads_within_bounds (s : BodyPlaybackInfo) (t now : ℚ) (lo hi : Nat)
    (hal : s.bodyAnimData.Aligned) (hle : lo ≤ hi) (hhi : hi ≤ s.bodyAnimData.getTotalRows) :
    (∃ r, BodyPlaybackInfo.returnRowClosestToTime s.bodyAnimData t lo hi = some r ∧
      lo ≤ r ∧ r ≤ hi) ∧
    (∀ i ∈ BodyPlaybackInfo.returnRowClosestToTimeReads s.bodyAnimData t lo hi,
      lo ≤ i ∧ i < hi) ∧
    (∃ s', s.setTime t now = some s') ∧
    (∀ i ∈ s.setTimeReads t, i < s.bodyAnimData.getTotalRows) := by
  have hlen : s.bodyAnimData.animationRowTimestamps.length = s.bodyAnimData.getTotalRows := hal
  refine ⟨?_, ?_, ?_, ?_⟩
  · obtain ⟨r, hr, h1, h2, -, -⟩ :=
      BodyPlaybackInfo.returnRowClosestToTime_bracket s.bodyAnimData t _ lo hi rfl hle
        (by omega)
    exact ⟨r, hr, h1, h2⟩
  · exact BodyPlaybackInfo.returnRowClosestToTimeReads_bounds s.bodyAnimData t _ lo hi rfl
  · obtain ⟨s', hs', -⟩ := BodyPlaybackInfo.setTime_returns s t now hal
    exact ⟨s', hs'⟩
  · intro i hi_mem
    unfold BodyPlaybackInfo.setTimeReads at hi_mem
    by_cases hn : s.bodyAnimData.getTotalRows = 0
    · simp [hn] at hi_mem
    · simp only [hn, if_false, List.mem_append] at hi_mem
      rcases hi_mem with h | h
      · exact (BodyPlaybackInfo.returnRowClosestToTimeReads_bounds s.bodyAnimData t _ 0 _ rfl
          i h).2
      · cases hres : BodyPlaybackInfo.returnRowClosestToTime s.bodyAnimData t 0
            s.bodyAnimData.getTotalRows with
        | none => simp [hres] at h
        | some r =>
          simp only [hres] at h
          by_cases hr : r ≤ s.bodyAnimData.getTotalRows - 1
          · simp only [hr, if_true, List.mem_singleton] at h
            omega
          · simp [hr] at h

/-- C25, witness: rows with timestamps 0, 100, 250, the search for 150 between 0 and 3 and
`setTime(150)` at clock time 1000. -/
theorem C25_search_reads_within_bounds_witness :
    (∃ r, BodyPlaybackInfo.returnRowClosestToTime scenarioInfo.bodyAnimData 150 0 3 = some r ∧
      0 ≤ r ∧ r ≤ 3) ∧
    (∀ i ∈ BodyPlaybackInfo.returnRowClosestToTimeReads scenarioInfo.bodyAnimData 150 0 3,
      0 ≤ i ∧ i < 3) ∧
    (∃ s', scenarioInfo.setTime 150 1000 = some s') ∧
    (∀ i ∈ scenarioInfo.setTimeReads 150, i < scenarioInfo.bodyAnimData.getTotalRows) :=
  C25_search_reads_within_bounds scenarioInfo 150 1000 0 3 rfl (by decide) (by decide)

end ViroCore
